import Mathlib

/-!
# Camera: a shallow embedding of `camera.cpp`

The camera of `camera.cpp` / `camera.h` is translated function by function.
The scalar type `α` stands for `float`; the definitions use only its operations
(`+`, `-`, `*`, `/`, `<`, `=` and the literals), so the same text is the program
over any number type.  Two are used: `ℝ`, exact real arithmetic with rounding
ignored, in which the properties are proved, and `F32`, the binary32 numbers with
every operation rounded to nearest, on which the program is evaluated where
rounding, overflow or underflow decide.  Float literals are written with the exact
value of the binary32 number they denote (`1e-6f` is `8796093 / 8796093022208`).
The C math library calls (`sqrtf`, `sinf`, `cosf`, `tanf`, `asinf`, `atanf`) and
the constant `D3DX_PI` are gathered in `Libm`, so every definition below is an
ordinary computable function of the library it is given.  A vector parameter that
the source binds by `const D3DXVECTOR3 &` and reads again after the method has
assigned a member (`lookAt`, `updatePosition`) is a `VecRef`, read in the state each
statement finds; where every read precedes the writes it could see, the parameter is
the vector itself.
-/

set_option linter.unusedVariables false
set_option linter.unusedSectionVars false
set_option maxRecDepth 100000

/-- The math library used by the camera: `<cmath>` functions and `D3DX_PI`. -/
structure Libm (α : Type) where
  sqrtf : α → α
  sinf : α → α
  cosf : α → α
  tanf : α → α
  asinf : α → α
  atanf : α → α
  D3DX_PI : α

/-- Three floats: `D3DXVECTOR3`. -/
@[ext] structure D3DXVECTOR3 (α : Type) where
  x : α
  y : α
  z : α

/-- Four floats: `D3DXVECTOR4`. -/
@[ext] structure D3DXVECTOR4 (α : Type) where
  x : α
  y : α
  z : α
  w : α

/-- A 4x4 matrix, `D3DXMATRIX`; field `mij` is the entry `m(i,j)` (row `i`, column `j`). -/
@[ext] structure D3DXMATRIX (α : Type) where
  m00 : α
  m01 : α
  m02 : α
  m03 : α
  m10 : α
  m11 : α
  m12 : α
  m13 : α
  m20 : α
  m21 : α
  m22 : α
  m23 : α
  m30 : α
  m31 : α
  m32 : α
  m33 : α

namespace D3DXVECTOR3

variable {α : Type} [Zero α] [One α] [NatCast α] [Add α] [Sub α] [Mul α] [Div α] [Neg α]
  [LT α] [DecidableEq α] [∀ a b : α, Decidable (a < b)]

/-- Vector sum, `operator +`. -/
def add (a b : D3DXVECTOR3 α) : D3DXVECTOR3 α := ⟨a.x + b.x, a.y + b.y, a.z + b.z⟩

/-- Vector difference, `operator -`. -/
def sub (a b : D3DXVECTOR3 α) : D3DXVECTOR3 α := ⟨a.x - b.x, a.y - b.y, a.z - b.z⟩

/-- Vector times float, `operator * (FLOAT)`. -/
def scale (a : D3DXVECTOR3 α) (f : α) : D3DXVECTOR3 α := ⟨a.x * f, a.y * f, a.z * f⟩

/-- Float times vector, the friend `operator * (FLOAT, const D3DXVECTOR3 &)`. -/
def lscale (f : α) (a : D3DXVECTOR3 α) : D3DXVECTOR3 α := ⟨f * a.x, f * a.y, f * a.z⟩

end D3DXVECTOR3

section d3dx

variable {α : Type} [Zero α] [One α] [NatCast α] [Add α] [Sub α] [Mul α] [Div α] [Neg α]
  [LT α] [DecidableEq α] [∀ a b : α, Decidable (a < b)]

/-- Library call `fabsf`. -/
def fabsf (x : α) : α := if x < 0 then -x else x

/-- Library call `D3DXVec3Dot`. -/
def D3DXVec3Dot (a b : D3DXVECTOR3 α) : α := a.x * b.x + a.y * b.y + a.z * b.z

/-- Library call `D3DXVec3LengthSq`. -/
def D3DXVec3LengthSq (a : D3DXVECTOR3 α) : α := a.x * a.x + a.y * a.y + a.z * a.z

/-- Library call `D3DXVec3Length`. -/
def D3DXVec3Length (lm : Libm α) (a : D3DXVECTOR3 α) : α := lm.sqrtf (D3DXVec3LengthSq a)

/-- Library call `D3DXVec3Cross`. -/
def D3DXVec3Cross (a b : D3DXVECTOR3 α) : D3DXVECTOR3 α :=
  ⟨a.y * b.z - a.z * b.y, a.z * b.x - a.x * b.z, a.x * b.y - a.y * b.x⟩

/-- Library call `D3DXVec3Normalize`: the vector divided by its length, and the zero vector
when the length is zero. -/
def D3DXVec3Normalize (lm : Libm α) (a : D3DXVECTOR3 α) : D3DXVECTOR3 α :=
  let norm := D3DXVec3Length lm a
  if norm = 0 then ⟨0, 0, 0⟩ else ⟨a.x / norm, a.y / norm, a.z / norm⟩

/-- Library macro `D3DXToRadian`. -/
def D3DXToRadian (lm : Libm α) (degree : α) : α := degree * (lm.D3DX_PI / 180)

/-- Library macro `D3DXToDegree`. -/
def D3DXToDegree (lm : Libm α) (radian : α) : α := radian * (180 / lm.D3DX_PI)

/-- Library call `D3DXMatrixIdentity`. -/
def D3DXMatrixIdentity : D3DXMATRIX α :=
  { m00 := 1, m01 := 0, m02 := 0, m03 := 0
    m10 := 0, m11 := 1, m12 := 0, m13 := 0
    m20 := 0, m21 := 0, m22 := 1, m23 := 0
    m30 := 0, m31 := 0, m32 := 0, m33 := 1 }

/-- Library call `D3DXMatrixRotationY`: rotation about the world y axis. -/
def D3DXMatrixRotationY (lm : Libm α) (angle : α) : D3DXMATRIX α :=
  { m00 := lm.cosf angle, m01 := 0, m02 := -lm.sinf angle, m03 := 0
    m10 := 0, m11 := 1, m12 := 0, m13 := 0
    m20 := lm.sinf angle, m21 := 0, m22 := lm.cosf angle, m23 := 0
    m30 := 0, m31 := 0, m32 := 0, m33 := 1 }

/-- Library call `D3DXMatrixRotationAxis`: rotation about the (normalised) axis `v`. -/
def D3DXMatrixRotationAxis (lm : Libm α) (v : D3DXVECTOR3 α) (angle : α) : D3DXMATRIX α :=
  let nv := D3DXVec3Normalize lm v
  let sangle := lm.sinf angle
  let cangle := lm.cosf angle
  let cdiff := 1 - cangle
  { m00 := cdiff * nv.x * nv.x + cangle
    m10 := cdiff * nv.x * nv.y - sangle * nv.z
    m20 := cdiff * nv.x * nv.z + sangle * nv.y
    m30 := 0
    m01 := cdiff * nv.y * nv.x + sangle * nv.z
    m11 := cdiff * nv.y * nv.y + cangle
    m21 := cdiff * nv.y * nv.z - sangle * nv.x
    m31 := 0
    m02 := cdiff * nv.z * nv.x - sangle * nv.y
    m12 := cdiff * nv.z * nv.y + sangle * nv.x
    m22 := cdiff * nv.z * nv.z + cangle
    m32 := 0
    m03 := 0, m13 := 0, m23 := 0, m33 := 1 }

/-- Library call `D3DXVec3Transform`: the row vector `(v.x, v.y, v.z, 1)` times the matrix. -/
def D3DXVec3Transform (v : D3DXVECTOR3 α) (m : D3DXMATRIX α) : D3DXVECTOR4 α :=
  { x := v.x * m.m00 + v.y * m.m10 + v.z * m.m20 + m.m30
    y := v.x * m.m01 + v.y * m.m11 + v.z * m.m21 + m.m31
    z := v.x * m.m02 + v.y * m.m12 + v.z * m.m22 + m.m32
    w := v.x * m.m03 + v.y * m.m13 + v.z * m.m23 + m.m33 }

end d3dx

section tangent

variable {α : Type} [Zero α] [One α] [NatCast α] [Add α] [Sub α] [Mul α] [Div α] [Neg α]
  [LT α] [DecidableEq α] [∀ a b : α, Decidable (a < b)]

/-- Two floats: `D3DXVECTOR2`. -/
@[ext] structure D3DXVECTOR2 (α : Type) where
  x : α
  y : α

/-- Vector difference of `D3DXVECTOR2`, `operator -`. -/
def D3DXVECTOR2.sub (a b : D3DXVECTOR2 α) : D3DXVECTOR2 α := ⟨a.x - b.x, a.y - b.y⟩

/-- Library call `D3DXVec2Normalize`: the vector divided by its length, and the zero vector
when the length is zero. -/
def D3DXVec2Normalize (lm : Libm α) (a : D3DXVECTOR2 α) : D3DXVECTOR2 α :=
  let norm := lm.sqrtf (a.x * a.x + a.y * a.y)
  if norm = 0 then ⟨0, 0⟩ else ⟨a.x / norm, a.y / norm⟩

/-- Library call `D3DXVec4Normalize`: the vector divided by its length, and the zero vector
when the length is zero. -/
def D3DXVec4Normalize (lm : Libm α) (a : D3DXVECTOR4 α) : D3DXVECTOR4 α :=
  let norm := lm.sqrtf (a.x * a.x + a.y * a.y + a.z * a.z + a.w * a.w)
  if norm = 0 then ⟨0, 0, 0, 0⟩ else ⟨a.x / norm, a.y / norm, a.z / norm, a.w / norm⟩

/-- The function `CalcTangentVector` of `normal_mapping_utils.cpp`; `tangent` is the in/out
parameter and the result is its final value. -/
def CalcTangentVector (lm : Libm α) (pos1 pos2 pos3 : D3DXVECTOR3 α)
    (texCoord1 texCoord2 texCoord3 : D3DXVECTOR2 α) (normal : D3DXVECTOR3 α)
    (tangent : D3DXVECTOR4 α) : D3DXVECTOR4 α :=
  let edge1 := D3DXVec3Normalize lm (pos2.sub pos1)
  let edge2 := D3DXVec3Normalize lm (pos3.sub pos1)
  let texEdge1 := D3DXVec2Normalize lm (texCoord2.sub texCoord1)
  let texEdge2 := D3DXVec2Normalize lm (texCoord3.sub texCoord1)
  let det := texEdge1.x * texEdge2.y - texEdge1.y * texEdge2.x
  let tangent : D3DXVECTOR4 α :=
    if fabsf det < 8796093 / 8796093022208 then
      { tangent with x := 1, y := 0, z := 0 }
    else
      let det := 1 / det
      D3DXVec4Normalize lm
        ⟨(texEdge2.y * edge1.x - texEdge1.y * edge2.x) * det,
         (texEdge2.y * edge1.y - texEdge1.y * edge2.y) * det,
         (texEdge2.y * edge1.z - texEdge1.y * edge2.z) * det,
         0⟩
  let bitangent : D3DXVECTOR3 α :=
    if fabsf det < 8796093 / 8796093022208 then
      ⟨0, 1, 0⟩
    else
      let det := 1 / det
      D3DXVec3Normalize lm
        ⟨(-texEdge2.x * edge1.x + texEdge1.x * edge2.x) * det,
         (-texEdge2.x * edge1.y + texEdge1.x * edge2.y) * det,
         (-texEdge2.x * edge1.z + texEdge1.x * edge2.z) * det⟩
  let n : D3DXVECTOR3 α := ⟨normal.x, normal.y, normal.z⟩
  let t : D3DXVECTOR3 α := ⟨tangent.x, tangent.y, tangent.z⟩
  let b := D3DXVec3Cross n t
  { tangent with w := if D3DXVec3Dot b bitangent < 0 then -1 else 1 }

end tangent

/-- The enum `Camera::CameraBehavior`. -/
inductive CameraBehavior where
  | CAMERA_BEHAVIOR_FIRST_PERSON
  | CAMERA_BEHAVIOR_FLIGHT
deriving DecidableEq

/-- The data members of `class Camera`. -/
structure Camera (α : Type) where
  m_behavior : CameraBehavior
  m_accumPitchDegrees : α
  m_rotationSpeed : α
  m_fovx : α
  m_aspectRatio : α
  m_znear : α
  m_zfar : α
  m_eye : D3DXVECTOR3 α
  m_xAxis : D3DXVECTOR3 α
  m_yAxis : D3DXVECTOR3 α
  m_zAxis : D3DXVECTOR3 α
  m_viewDir : D3DXVECTOR3 α
  m_acceleration : D3DXVECTOR3 α
  m_currentVelocity : D3DXVECTOR3 α
  m_velocity : D3DXVECTOR3 α
  m_viewMatrix : D3DXMATRIX α
  m_projMatrix : D3DXMATRIX α

/-- An argument bound to a `const D3DXVECTOR3 &` parameter of `lookAt` or `updatePosition`: a
vector owned by the caller, or one of the camera's own vectors, which the getters
`getPosition`, `getXAxis`, `getYAxis`, `getZAxis`, `getViewDirection`, `getAcceleration`,
`getCurrentVelocity` and `getVelocity` return by reference. -/
inductive VecRef (α : Type) where
  | val (v : D3DXVECTOR3 α)
  | position
  | xAxis
  | yAxis
  | zAxis
  | viewDirection
  | acceleration
  | currentVelocity
  | velocity

/-- The vector that a reference denotes in the state `c`. -/
def VecRef.read {α : Type} (c : Camera α) : VecRef α → D3DXVECTOR3 α
  | .val v => v
  | .position => c.m_eye
  | .xAxis => c.m_xAxis
  | .yAxis => c.m_yAxis
  | .zAxis => c.m_zAxis
  | .viewDirection => c.m_viewDir
  | .acceleration => c.m_acceleration
  | .currentVelocity => c.m_currentVelocity
  | .velocity => c.m_velocity

namespace Camera

open CameraBehavior

variable {α : Type} [Zero α] [One α] [NatCast α] [Add α] [Sub α] [Mul α] [Div α] [Neg α]
  [LT α] [DecidableEq α] [∀ a b : α, Decidable (a < b)]

/-- The constant `Camera::DEFAULT_ROTATION_SPEED = 0.3f`. -/
def DEFAULT_ROTATION_SPEED : α := 5033165 / 16777216

/-- The constant `Camera::DEFAULT_FOVX = 90.0f`. -/
def DEFAULT_FOVX : α := 90

/-- The constant `Camera::DEFAULT_ZNEAR = 0.1f`. -/
def DEFAULT_ZNEAR : α := 13421773 / 134217728

/-- The constant `Camera::DEFAULT_ZFAR = 1000.0f`. -/
def DEFAULT_ZFAR : α := 1000

/-- The constant `Camera::WORLD_XAXIS`. -/
def WORLD_XAXIS : D3DXVECTOR3 α := ⟨1, 0, 0⟩

/-- The constant `Camera::WORLD_YAXIS`. -/
def WORLD_YAXIS : D3DXVECTOR3 α := ⟨0, 1, 0⟩

/-- The constant `Camera::WORLD_ZAXIS`. -/
def WORLD_ZAXIS : D3DXVECTOR3 α := ⟨0, 0, 1⟩

/-- The constructor `Camera::Camera()`. -/
def new : Camera α :=
  { m_behavior := CAMERA_BEHAVIOR_FLIGHT
    m_accumPitchDegrees := 0
    m_rotationSpeed := DEFAULT_ROTATION_SPEED
    m_fovx := DEFAULT_FOVX
    m_aspectRatio := 0
    m_znear := DEFAULT_ZNEAR
    m_zfar := DEFAULT_ZFAR
    m_eye := ⟨0, 0, 0⟩
    m_xAxis := ⟨1, 0, 0⟩
    m_yAxis := ⟨0, 1, 0⟩
    m_zAxis := ⟨0, 0, 1⟩
    m_viewDir := ⟨0, 0, 1⟩
    m_acceleration := ⟨0, 0, 0⟩
    m_currentVelocity := ⟨0, 0, 0⟩
    m_velocity := ⟨0, 0, 0⟩
    m_viewMatrix := D3DXMatrixIdentity
    m_projMatrix := D3DXMatrixIdentity }

/-- The method `Camera::lookAt(eye, target, up)`.  The three parameters are
`const D3DXVECTOR3 &`: each statement reads them in the state it finds, so an argument that
refers to a member of this camera changes when the member is assigned. -/
def lookAt (lm : Libm α) (c : Camera α) (eye target up : VecRef α) : Camera α :=
  let c : Camera α := { c with m_eye := eye.read c }
  let c : Camera α := { c with m_zAxis := (target.read c).sub (eye.read c) }
  let c : Camera α := { c with m_zAxis := D3DXVec3Normalize lm c.m_zAxis }
  let c : Camera α := { c with m_viewDir := c.m_zAxis }
  let c : Camera α := { c with m_xAxis := D3DXVec3Cross (up.read c) c.m_zAxis }
  let c : Camera α := { c with m_xAxis := D3DXVec3Normalize lm c.m_xAxis }
  let c : Camera α := { c with m_yAxis := D3DXVec3Cross c.m_zAxis c.m_xAxis }
  let c : Camera α := { c with m_yAxis := D3DXVec3Normalize lm c.m_yAxis }
  let c : Camera α := { c with m_xAxis := D3DXVec3Normalize lm c.m_xAxis }
  let c : Camera α := { c with m_viewMatrix := D3DXMatrixIdentity }
  let c : Camera α :=
    { c with
      m_viewMatrix :=
        { c.m_viewMatrix with
          m00 := c.m_xAxis.x, m10 := c.m_xAxis.y, m20 := c.m_xAxis.z
          m30 := -D3DXVec3Dot c.m_xAxis (eye.read c)
          m01 := c.m_yAxis.x, m11 := c.m_yAxis.y, m21 := c.m_yAxis.z
          m31 := -D3DXVec3Dot c.m_yAxis (eye.read c)
          m02 := c.m_zAxis.x, m12 := c.m_zAxis.y, m22 := c.m_zAxis.z
          m32 := -D3DXVec3Dot c.m_zAxis (eye.read c) } }
  { c with m_accumPitchDegrees := D3DXToDegree lm (-lm.asinf c.m_viewMatrix.m12) }

/-- The method `Camera::lookAt(target)`: the overload that calls
`lookAt(m_eye, target, m_yAxis)`. -/
def lookAtTarget (lm : Libm α) (c : Camera α) (target : VecRef α) : Camera α :=
  lookAt lm c .position target .yAxis

/-- The method `Camera::updateViewMatrix(orthogonalizeAxes)`. -/
def updateViewMatrix (lm : Libm α) (c : Camera α) (orthogonalizeAxes : Bool) : Camera α :=
  let c : Camera α :=
    if orthogonalizeAxes then
      let zAxis := D3DXVec3Normalize lm c.m_zAxis
      let yAxis := D3DXVec3Normalize lm (D3DXVec3Cross zAxis c.m_xAxis)
      let xAxis := D3DXVec3Normalize lm (D3DXVec3Cross yAxis zAxis)
      { c with m_zAxis := zAxis, m_yAxis := yAxis, m_xAxis := xAxis, m_viewDir := zAxis }
    else c
  { c with
    m_viewMatrix :=
      { m00 := c.m_xAxis.x, m10 := c.m_xAxis.y, m20 := c.m_xAxis.z
        m30 := -D3DXVec3Dot c.m_xAxis c.m_eye
        m01 := c.m_yAxis.x, m11 := c.m_yAxis.y, m21 := c.m_yAxis.z
        m31 := -D3DXVec3Dot c.m_yAxis c.m_eye
        m02 := c.m_zAxis.x, m12 := c.m_zAxis.y, m22 := c.m_zAxis.z
        m32 := -D3DXVec3Dot c.m_zAxis c.m_eye
        m03 := 0, m13 := 0, m23 := 0, m33 := 1 } }

/-- The method `Camera::setPosition(const D3DXVECTOR3 &)`.  The argument is read once, by the
first statement, so it enters with the value it shows at the call. -/
def setPosition (lm : Libm α) (c : Camera α) (eye : D3DXVECTOR3 α) : Camera α :=
  updateViewMatrix lm { c with m_eye := eye } false

/-- The method `Camera::setPosition(float, float, float)`. -/
def setPosition3 (lm : Libm α) (c : Camera α) (x y z : α) : Camera α :=
  updateViewMatrix lm { c with m_eye := ⟨x, y, z⟩ } false

/-- The method `Camera::move(float dx, float dy, float dz)`. -/
def move (lm : Libm α) (c : Camera α) (dx dy dz : α) : Camera α :=
  let eye := c.m_eye
  let forwards : D3DXVECTOR3 α :=
    if c.m_behavior = CAMERA_BEHAVIOR_FIRST_PERSON then
      D3DXVec3Normalize lm (D3DXVec3Cross c.m_xAxis WORLD_YAXIS)
    else c.m_viewDir
  let eye := eye.add (c.m_xAxis.scale dx)
  let eye := eye.add ((WORLD_YAXIS : D3DXVECTOR3 α).scale dy)
  let eye := eye.add (forwards.scale dz)
  setPosition lm c eye

/-- The method `Camera::move(const D3DXVECTOR3 &direction, const D3DXVECTOR3 &amount)`.  Each
component of the arguments is read before the method writes the component of `m_eye` with
the same index, so they enter with the values they show at the call. -/
def moveDir (lm : Libm α) (c : Camera α) (direction amount : D3DXVECTOR3 α) : Camera α :=
  updateViewMatrix lm
    { c with
      m_eye := ⟨c.m_eye.x + direction.x * amount.x, c.m_eye.y + direction.y * amount.y,
                c.m_eye.z + direction.z * amount.z⟩ } false

/-- The method `Camera::perspective(fovx, aspect, znear, zfar)`. -/
def perspective (lm : Libm α) (c : Camera α) (fovx aspect znear zfar : α) : Camera α :=
  let e := 1 / lm.tanf (D3DXToRadian lm fovx / 2)
  let aspectInv := 1 / aspect
  let fovy := 2 * lm.atanf (aspectInv / e)
  let xScale := 1 / lm.tanf (1 / 2 * fovy)
  let yScale := xScale / aspectInv
  { c with
    m_projMatrix :=
      { m00 := xScale, m10 := 0, m20 := 0, m30 := 0
        m01 := 0, m11 := yScale, m21 := 0, m31 := 0
        m02 := 0, m12 := 0, m22 := zfar / (zfar - znear)
        m32 := -znear * zfar / (zfar - znear)
        m03 := 0, m13 := 0, m23 := 1, m33 := 0 }
    m_fovx := fovx
    m_aspectRatio := aspect
    m_znear := znear
    m_zfar := zfar }

/-- The `D3DXVECTOR3(result.x, result.y, result.z)` taken from a transformed vector. -/
def xyz (r : D3DXVECTOR4 α) : D3DXVECTOR3 α := ⟨r.x, r.y, r.z⟩

/-- The method `Camera::rotateFirstPerson(headingDegrees, pitchDegrees)`. -/
def rotateFirstPerson (lm : Libm α) (c : Camera α) (headingDegrees pitchDegrees : α) :
    Camera α :=
  let accum0 := c.m_accumPitchDegrees + pitchDegrees
  let pitchDegrees1 := if accum0 > 90 then 90 - (accum0 - pitchDegrees) else pitchDegrees
  let accum1 := if accum0 > 90 then 90 else accum0
  let pitchDegrees := if accum1 < -90 then -90 - (accum1 - pitchDegrees1) else pitchDegrees1
  let accum := if accum1 < -90 then -90 else accum1
  let c : Camera α := { c with m_accumPitchDegrees := accum }
  let heading := D3DXToRadian lm headingDegrees
  let pitch := D3DXToRadian lm pitchDegrees
  let c : Camera α :=
    if heading ≠ 0 then
      let rotMtx := D3DXMatrixRotationY lm heading
      let xAxis := xyz (D3DXVec3Transform c.m_xAxis rotMtx)
      let zAxis := xyz (D3DXVec3Transform c.m_zAxis rotMtx)
      { c with m_xAxis := xAxis, m_zAxis := zAxis }
    else c
  if pitch ≠ 0 then
    let rotMtx := D3DXMatrixRotationAxis lm c.m_xAxis pitch
    let yAxis := xyz (D3DXVec3Transform c.m_yAxis rotMtx)
    let zAxis := xyz (D3DXVec3Transform c.m_zAxis rotMtx)
    { c with m_yAxis := yAxis, m_zAxis := zAxis }
  else c

/-- The method `Camera::rotateFlight(headingDegrees, pitchDegrees, rollDegrees)`. -/
def rotateFlight (lm : Libm α) (c : Camera α) (headingDegrees pitchDegrees rollDegrees : α) :
    Camera α :=
  let heading := D3DXToRadian lm headingDegrees
  let pitch := D3DXToRadian lm pitchDegrees
  let roll := D3DXToRadian lm rollDegrees
  let c : Camera α :=
    if heading ≠ 0 then
      let rotMtx := D3DXMatrixRotationAxis lm c.m_yAxis heading
      let xAxis := xyz (D3DXVec3Transform c.m_xAxis rotMtx)
      let zAxis := xyz (D3DXVec3Transform c.m_zAxis rotMtx)
      { c with m_xAxis := xAxis, m_zAxis := zAxis }
    else c
  let c : Camera α :=
    if pitch ≠ 0 then
      let rotMtx := D3DXMatrixRotationAxis lm c.m_xAxis pitch
      let yAxis := xyz (D3DXVec3Transform c.m_yAxis rotMtx)
      let zAxis := xyz (D3DXVec3Transform c.m_zAxis rotMtx)
      { c with m_yAxis := yAxis, m_zAxis := zAxis }
    else c
  if roll ≠ 0 then
    let rotMtx := D3DXMatrixRotationAxis lm c.m_zAxis roll
    let xAxis := xyz (D3DXVec3Transform c.m_xAxis rotMtx)
    let yAxis := xyz (D3DXVec3Transform c.m_yAxis rotMtx)
    { c with m_xAxis := xAxis, m_yAxis := yAxis }
  else c

/-- The method `Camera::rotate(headingDegrees, pitchDegrees, rollDegrees)`. -/
def rotate (lm : Libm α) (c : Camera α) (headingDegrees pitchDegrees rollDegrees : α) :
    Camera α :=
  let rollDegrees := -rollDegrees
  let c : Camera α :=
    match c.m_behavior with
    | CAMERA_BEHAVIOR_FIRST_PERSON => rotateFirstPerson lm c headingDegrees pitchDegrees
    | CAMERA_BEHAVIOR_FLIGHT => rotateFlight lm c headingDegrees pitchDegrees rollDegrees
  updateViewMatrix lm c true

/-- The method `Camera::rotateSmoothly(headingDegrees, pitchDegrees, rollDegrees)`. -/
def rotateSmoothly (lm : Libm α) (c : Camera α) (headingDegrees pitchDegrees rollDegrees : α) :
    Camera α :=
  rotate lm c (headingDegrees * c.m_rotationSpeed) (pitchDegrees * c.m_rotationSpeed)
    (rollDegrees * c.m_rotationSpeed)

/-- One axis of `Camera::updateVelocity`: the three blocks of the source are this block
applied to the x, y and z components. -/
def updateVelocityAxis (cur dir accel vel elapsedTimeSec : α) : α :=
  if dir ≠ 0 then
    let cur := cur + dir * accel * elapsedTimeSec
    if cur > vel then vel
    else if cur < -vel then -vel
    else cur
  else
    if cur > 0 then
      let cur := cur - accel * elapsedTimeSec
      if cur < 0 then 0 else cur
    else
      let cur := cur + accel * elapsedTimeSec
      if cur > 0 then 0 else cur

/-- The method `Camera::updateVelocity(direction, elapsedTimeSec)`.  The parameter is a
`const D3DXVECTOR3 &`; each of its components is read before the method writes the component
of `m_currentVelocity` with the same index and no other member, so the method reads the
vector the reference shows at the call. -/
def updateVelocity (c : Camera α) (direction : D3DXVECTOR3 α) (elapsedTimeSec : α) : Camera α :=
  { c with
    m_currentVelocity :=
      ⟨updateVelocityAxis c.m_currentVelocity.x direction.x c.m_acceleration.x c.m_velocity.x
         elapsedTimeSec,
       updateVelocityAxis c.m_currentVelocity.y direction.y c.m_acceleration.y c.m_velocity.y
         elapsedTimeSec,
       updateVelocityAxis c.m_currentVelocity.z direction.z c.m_acceleration.z c.m_velocity.z
         elapsedTimeSec⟩ }

/-- The method `Camera::updatePosition(direction, elapsedTimeSec)`.  The parameter
`direction` is a `const D3DXVECTOR3 &`: it is read for the displacement before `move` runs
and again by `updateVelocity` after it, each time in the state it finds. -/
def updatePosition (lm : Libm α) (c : Camera α) (direction : VecRef α)
    (elapsedTimeSec : α) : Camera α :=
  let c : Camera α :=
    if D3DXVec3LengthSq c.m_currentVelocity ≠ 0 then
      let displacement :=
        (c.m_currentVelocity.scale elapsedTimeSec).add
          (((D3DXVECTOR3.lscale (1 / 2) c.m_acceleration).scale elapsedTimeSec).scale
            elapsedTimeSec)
      let dx :=
        if (direction.read c).x = 0
            ∧ fabsf c.m_currentVelocity.x < 8796093 / 8796093022208 then 0
        else displacement.x
      let dy :=
        if (direction.read c).y = 0
            ∧ fabsf c.m_currentVelocity.y < 8796093 / 8796093022208 then 0
        else displacement.y
      let dz :=
        if (direction.read c).z = 0
            ∧ fabsf c.m_currentVelocity.z < 8796093 / 8796093022208 then 0
        else displacement.z
      move lm c dx dy dz
    else c
  updateVelocity c (direction.read c) elapsedTimeSec

/-- The method `Camera::setAcceleration(const D3DXVECTOR3 &)`; the argument is read once. -/
def setAcceleration (c : Camera α) (acceleration : D3DXVECTOR3 α) : Camera α :=
  { c with m_acceleration := acceleration }

/-- The method `Camera::setAcceleration(float, float, float)`. -/
def setAcceleration3 (c : Camera α) (x y z : α) : Camera α :=
  { c with m_acceleration := ⟨x, y, z⟩ }

/-- The method `Camera::setBehavior(behavior)`. -/
def setBehavior (lm : Libm α) (c : Camera α) (behavior : CameraBehavior) : Camera α :=
  let c : Camera α :=
    if c.m_behavior = CAMERA_BEHAVIOR_FLIGHT ∧ behavior = CAMERA_BEHAVIOR_FIRST_PERSON then
      lookAt lm c .position (.val (c.m_eye.add c.m_zAxis)) (.val WORLD_YAXIS)
    else c
  { c with m_behavior := behavior }

/-- The method `Camera::setCurrentVelocity(const D3DXVECTOR3 &)`; the argument is read
once. -/
def setCurrentVelocity (c : Camera α) (currentVelocity : D3DXVECTOR3 α) : Camera α :=
  { c with m_currentVelocity := currentVelocity }

/-- The method `Camera::setCurrentVelocity(float, float, float)`. -/
def setCurrentVelocity3 (c : Camera α) (x y z : α) : Camera α :=
  { c with m_currentVelocity := ⟨x, y, z⟩ }

/-- The method `Camera::setRotationSpeed(rotationSpeed)`. -/
def setRotationSpeed (c : Camera α) (rotationSpeed : α) : Camera α :=
  { c with m_rotationSpeed := rotationSpeed }

/-- The method `Camera::setVelocity(const D3DXVECTOR3 &)`; the argument is read once. -/
def setVelocity (c : Camera α) (velocity : D3DXVECTOR3 α) : Camera α :=
  { c with m_velocity := velocity }

/-- The method `Camera::setVelocity(float, float, float)`. -/
def setVelocity3 (c : Camera α) (x y z : α) : Camera α :=
  { c with m_velocity := ⟨x, y, z⟩ }

/-! ## Definitions used by the proofs -/

/-- The effect of `lookAt` on three vectors owned by the caller: each argument is read once.
It is `lookAt` applied to `VecRef.val` arguments (`lookAt_val`). -/
def lookAtValues (lm : Libm α) (c : Camera α) (eye target up : D3DXVECTOR3 α) : Camera α :=
  let zAxis := D3DXVec3Normalize lm (target.sub eye)
  let xAxis := D3DXVec3Normalize lm (D3DXVec3Cross up zAxis)
  let yAxis := D3DXVec3Normalize lm (D3DXVec3Cross zAxis xAxis)
  let xAxis := D3DXVec3Normalize lm xAxis
  let vm : D3DXMATRIX α := D3DXMatrixIdentity
  let vm : D3DXMATRIX α :=
    { vm with
      m00 := xAxis.x, m10 := xAxis.y, m20 := xAxis.z, m30 := -D3DXVec3Dot xAxis eye
      m01 := yAxis.x, m11 := yAxis.y, m21 := yAxis.z, m31 := -D3DXVec3Dot yAxis eye
      m02 := zAxis.x, m12 := zAxis.y, m22 := zAxis.z, m32 := -D3DXVec3Dot zAxis eye }
  { c with
    m_eye := eye
    m_zAxis := zAxis
    m_viewDir := zAxis
    m_xAxis := xAxis
    m_yAxis := yAxis
    m_viewMatrix := vm
    m_accumPitchDegrees := D3DXToDegree lm (-lm.asinf vm.m12) }

/-- Rodrigues form of the rotation of `v` about the unit axis `n`, with `s`, `c` the sine and
cosine of the angle. -/
def rotAbout (n : D3DXVECTOR3 α) (s c : α) (v : D3DXVECTOR3 α) : D3DXVECTOR3 α :=
  ⟨c * v.x + (1 - c) * D3DXVec3Dot n v * n.x + s * (D3DXVec3Cross n v).x,
   c * v.y + (1 - c) * D3DXVec3Dot n v * n.y + s * (D3DXVec3Cross n v).y,
   c * v.z + (1 - c) * D3DXVec3Dot n v * n.z + s * (D3DXVec3Cross n v).z⟩

/-- The facts about the math library that the rotation code relies on. -/
structure LibmSound (lm : Libm α) : Prop where
  sqrt_one : lm.sqrtf 1 = 1
  sin_sq_add_cos_sq : ∀ θ, lm.sinf θ * lm.sinf θ + lm.cosf θ * lm.cosf θ = 1
  sin_zero : lm.sinf 0 = 0
  cos_zero : lm.cosf 0 = 1

/-- Unit length and perpendicularity stated with dot products. -/
def OrthoSq (x y z : D3DXVECTOR3 α) : Prop :=
  D3DXVec3Dot x x = 1 ∧ D3DXVec3Dot y y = 1 ∧ D3DXVec3Dot z z = 1 ∧
  D3DXVec3Dot x y = 0 ∧ D3DXVec3Dot y z = 0 ∧ D3DXVec3Dot x z = 0

/-- The heading block of `rotateFlight`. -/
def flightHeading (lm : Libm α) (c : Camera α) (heading : α) : Camera α :=
  if heading ≠ 0 then
    { c with
      m_xAxis := xyz (D3DXVec3Transform c.m_xAxis (D3DXMatrixRotationAxis lm c.m_yAxis heading))
      m_zAxis := xyz (D3DXVec3Transform c.m_zAxis (D3DXMatrixRotationAxis lm c.m_yAxis heading)) }
  else c

/-- The pitch block of `rotateFlight` and of `rotateFirstPerson`. -/
def pitchBlock (lm : Libm α) (c : Camera α) (pitch : α) : Camera α :=
  if pitch ≠ 0 then
    { c with
      m_yAxis := xyz (D3DXVec3Transform c.m_yAxis (D3DXMatrixRotationAxis lm c.m_xAxis pitch))
      m_zAxis := xyz (D3DXVec3Transform c.m_zAxis (D3DXMatrixRotationAxis lm c.m_xAxis pitch)) }
  else c

/-- The roll block of `rotateFlight`. -/
def flightRoll (lm : Libm α) (c : Camera α) (roll : α) : Camera α :=
  if roll ≠ 0 then
    { c with
      m_xAxis := xyz (D3DXVec3Transform c.m_xAxis (D3DXMatrixRotationAxis lm c.m_zAxis roll))
      m_yAxis := xyz (D3DXVec3Transform c.m_yAxis (D3DXMatrixRotationAxis lm c.m_zAxis roll)) }
  else c

/-- The heading block of `rotateFirstPerson`. -/
def fpHeading (lm : Libm α) (c : Camera α) (heading : α) : Camera α :=
  if heading ≠ 0 then
    { c with
      m_xAxis := xyz (D3DXVec3Transform c.m_xAxis (D3DXMatrixRotationY lm heading))
      m_zAxis := xyz (D3DXVec3Transform c.m_zAxis (D3DXMatrixRotationY lm heading)) }
  else c

/-- The accumulated pitch left by the clamping block of `rotateFirstPerson`. -/
def fpAccum (accumPitchDegrees pitchDegrees : α) : α :=
  let accum0 := accumPitchDegrees + pitchDegrees
  let accum1 := if accum0 > 90 then 90 else accum0
  if accum1 < -90 then -90 else accum1

/-- The pitch delta left by the clamping block of `rotateFirstPerson`. -/
def fpPitch (accumPitchDegrees pitchDegrees : α) : α :=
  let accum0 := accumPitchDegrees + pitchDegrees
  let pitchDegrees1 := if accum0 > 90 then 90 - (accum0 - pitchDegrees) else pitchDegrees
  let accum1 := if accum0 > 90 then 90 else accum0
  if accum1 < -90 then -90 - (accum1 - pitchDegrees1) else pitchDegrees1

/-- The three axes have length 1 and their pairwise dot products are 0. -/
def Orthonormal (lm : Libm α) (x y z : D3DXVECTOR3 α) : Prop :=
  D3DXVec3Length lm x = 1 ∧ D3DXVec3Length lm y = 1 ∧ D3DXVec3Length lm z = 1 ∧
  D3DXVec3Dot x y = 0 ∧ D3DXVec3Dot y z = 0 ∧ D3DXVec3Dot z x = 0

/-- A sequence of `rotate` calls, each given as (heading, pitch, roll). -/
def rotateMany (lm : Libm α) (c : Camera α) (rs : List (α × α × α)) : Camera α :=
  rs.foldl (fun c r => rotate lm c r.1 r.2.1 r.2.2) c

/-- The math library computes the exact real functions. -/
structure LibmReal (lm : Libm ℝ) : Prop where
  sqrtf_eq : lm.sqrtf = Real.sqrt
  sinf_eq : lm.sinf = Real.sin
  cosf_eq : lm.cosf = Real.cos
  tanf_eq : lm.tanf = Real.tan
  asinf_eq : lm.asinf = Real.arcsin
  atanf_eq : lm.atanf = Real.arctan
  pi_eq : lm.D3DX_PI = Real.pi

/-- The invariant of the first-person camera: `xAxis` and `zAxis` are unit vectors and
perpendicular, `yAxis` is their cross product, and the accumulated pitch is the pitch angle
of the basis and lies in [-90, 90]. -/
structure FPInv (lm : Libm ℝ) (c : Camera ℝ) : Prop where
  behavior : c.m_behavior = CameraBehavior.CAMERA_BEHAVIOR_FIRST_PERSON
  x_unit : D3DXVec3Dot c.m_xAxis c.m_xAxis = 1
  z_unit : D3DXVec3Dot c.m_zAxis c.m_zAxis = 1
  x_z : D3DXVec3Dot c.m_xAxis c.m_zAxis = 0
  y_eq : c.m_yAxis = D3DXVec3Cross c.m_zAxis c.m_xAxis
  z_y : c.m_zAxis.y = -Real.sin (D3DXToRadian lm c.m_accumPitchDegrees)
  y_y : c.m_yAxis.y = Real.cos (D3DXToRadian lm c.m_accumPitchDegrees)
  lo : -90 ≤ c.m_accumPitchDegrees
  hi : c.m_accumPitchDegrees ≤ 90

/-- The stored view matrix is the one built from the stored axes and position. -/
def ViewCurrent (c : Camera α) : Prop :=
  c.m_viewMatrix =
    { m00 := c.m_xAxis.x, m01 := c.m_yAxis.x, m02 := c.m_zAxis.x, m03 := 0
      m10 := c.m_xAxis.y, m11 := c.m_yAxis.y, m12 := c.m_zAxis.y, m13 := 0
      m20 := c.m_xAxis.z, m21 := c.m_yAxis.z, m22 := c.m_zAxis.z, m23 := 0
      m30 := -D3DXVec3Dot c.m_xAxis c.m_eye, m31 := -D3DXVec3Dot c.m_yAxis c.m_eye
      m32 := -D3DXVec3Dot c.m_zAxis c.m_eye, m33 := 1 }

/-- The public operations of the camera. -/
inductive Op (α : Type) where
  | lookAtTarget (target : VecRef α)
  | lookAt (eye target up : VecRef α)
  | move (dx dy dz : α)
  | moveDir (direction amount : D3DXVECTOR3 α)
  | perspective (fovx aspect znear zfar : α)
  | rotate (headingDegrees pitchDegrees rollDegrees : α)
  | rotateSmoothly (headingDegrees pitchDegrees rollDegrees : α)
  | updatePosition (direction : VecRef α) (elapsedTimeSec : α)
  | setAcceleration (acceleration : D3DXVECTOR3 α)
  | setAcceleration3 (x y z : α)
  | setBehavior (behavior : CameraBehavior)
  | setCurrentVelocity (currentVelocity : D3DXVECTOR3 α)
  | setCurrentVelocity3 (x y z : α)
  | setPosition (eye : D3DXVECTOR3 α)
  | setPosition3 (x y z : α)
  | setRotationSpeed (rotationSpeed : α)
  | setVelocity (velocity : D3DXVECTOR3 α)
  | setVelocity3 (x y z : α)

/-- One public call on the camera. -/
def step (lm : Libm α) (c : Camera α) : Op α → Camera α
  | .lookAtTarget target => lookAtTarget lm c target
  | .lookAt eye target up => lookAt lm c eye target up
  | .move dx dy dz => move lm c dx dy dz
  | .moveDir direction amount => moveDir lm c direction amount
  | .perspective fovx aspect znear zfar => perspective lm c fovx aspect znear zfar
  | .rotate h p r => rotate lm c h p r
  | .rotateSmoothly h p r => rotateSmoothly lm c h p r
  | .updatePosition direction dt => updatePosition lm c direction dt
  | .setAcceleration a => setAcceleration c a
  | .setAcceleration3 x y z => setAcceleration3 c x y z
  | .setBehavior b => setBehavior lm c b
  | .setCurrentVelocity v => setCurrentVelocity c v
  | .setCurrentVelocity3 x y z => setCurrentVelocity3 c x y z
  | .setPosition eye => setPosition lm c eye
  | .setPosition3 x y z => setPosition3 lm c x y z
  | .setRotationSpeed s => setRotationSpeed c s
  | .setVelocity v => setVelocity c v
  | .setVelocity3 x y z => setVelocity3 c x y z

/-- The state reached from the constructor by a sequence of public calls. -/
def run (lm : Libm α) (ops : List (Op α)) : Camera α :=
  ops.foldl (step lm) new

/-- The stored view direction is the stored `zAxis`. -/
def ViewDirIsZ (c : Camera α) : Prop := c.m_viewDir = c.m_zAxis

/-- The displacement that `updatePosition` hands to `move`: constant-acceleration kinematics
from the velocity before the call, zeroed on every axis without intent whose speed is below
`1e-6f`. -/
def physicsDisplacement (c : Camera α) (direction : D3DXVECTOR3 α) (elapsedTimeSec : α) :
    D3DXVECTOR3 α :=
  ⟨if direction.x = 0 ∧ fabsf c.m_currentVelocity.x < 8796093 / 8796093022208 then 0
     else c.m_currentVelocity.x * elapsedTimeSec
       + 1 / 2 * c.m_acceleration.x * elapsedTimeSec * elapsedTimeSec,
   if direction.y = 0 ∧ fabsf c.m_currentVelocity.y < 8796093 / 8796093022208 then 0
     else c.m_currentVelocity.y * elapsedTimeSec
       + 1 / 2 * c.m_acceleration.y * elapsedTimeSec * elapsedTimeSec,
   if direction.z = 0 ∧ fabsf c.m_currentVelocity.z < 8796093 / 8796093022208 then 0
     else c.m_currentVelocity.z * elapsedTimeSec
       + 1 / 2 * c.m_acceleration.z * elapsedTimeSec * elapsedTimeSec⟩

/-- The forward direction used by `move(dx, dy, dz)`. -/
def moveForwards (lm : Libm α) (c : Camera α) : D3DXVECTOR3 α :=
  if c.m_behavior = CameraBehavior.CAMERA_BEHAVIOR_FIRST_PERSON then
    D3DXVec3Normalize lm (D3DXVec3Cross c.m_xAxis WORLD_YAXIS)
  else c.m_viewDir

/-- A number of successive `updatePosition` calls with the same arguments. -/
def updatePositionTimes (lm : Libm α) (c : Camera α) (direction : VecRef α)
    (elapsedTimeSec : α) : Nat → Camera α
  | 0 => c
  | n + 1 => updatePosition lm (updatePositionTimes lm c direction elapsedTimeSec n) direction
      elapsedTimeSec

/-- A number of successive `updateVelocity` calls with the same arguments. -/
def updateVelocityTimes (c : Camera α) (direction : D3DXVECTOR3 α)
    (elapsedTimeSec : α) : Nat → Camera α
  | 0 => c
  | n + 1 => updateVelocity (updateVelocityTimes c direction elapsedTimeSec n) direction
      elapsedTimeSec

/-- The calls of a first-person walk: `rotate(h, p, r)` and `move(dx, 0, dz)`. -/
inductive GroundCall (α : Type) where
  | rotate (headingDegrees pitchDegrees rollDegrees : α)
  | move (dx dz : α)

/-- One call of a first-person walk. -/
def groundStep (lm : Libm α) (c : Camera α) : GroundCall α → Camera α
  | .rotate h p r => rotate lm c h p r
  | .move dx dz => move lm c dx 0 dz

/-- The normalised position edge of `CalcTangentVector` from `pos1` to `pos`. -/
def tangentEdge (lm : Libm α) (pos1 pos : D3DXVECTOR3 α) : D3DXVECTOR3 α :=
  D3DXVec3Normalize lm (pos.sub pos1)

/-- The normalised texture edge of `CalcTangentVector` from `texCoord1` to `texCoord`. -/
def tangentTexEdge (lm : Libm α) (texCoord1 texCoord : D3DXVECTOR2 α) : D3DXVECTOR2 α :=
  D3DXVec2Normalize lm (texCoord.sub texCoord1)

/-- The determinant `det` of `CalcTangentVector` for the two texture edges. -/
def texDet (texEdge1 texEdge2 : D3DXVECTOR2 α) : α :=
  texEdge1.x * texEdge2.y - texEdge1.y * texEdge2.x

/-- The bitangent computed in the non-degenerate branch of `CalcTangentVector`, before
normalisation. -/
def solvedBitangent (edge1 edge2 : D3DXVECTOR3 α) (texEdge1 texEdge2 : D3DXVECTOR2 α) :
    D3DXVECTOR3 α :=
  ⟨(-texEdge2.x * edge1.x + texEdge1.x * edge2.x) * (1 / texDet texEdge1 texEdge2),
   (-texEdge2.x * edge1.y + texEdge1.x * edge2.y) * (1 / texDet texEdge1 texEdge2),
   (-texEdge2.x * edge1.z + texEdge1.x * edge2.z) * (1 / texDet texEdge1 texEdge2)⟩

/-- The local `bitangent` of `CalcTangentVector` when the handedness is computed: the
default (0,1,0) in the degenerate branch, the normalised solved bitangent otherwise. -/
def routineBitangent (lm : Libm α) (pos1 pos2 pos3 : D3DXVECTOR3 α)
    (texCoord1 texCoord2 texCoord3 : D3DXVECTOR2 α) : D3DXVECTOR3 α :=
  if fabsf (texDet (tangentTexEdge lm texCoord1 texCoord2) (tangentTexEdge lm texCoord1 texCoord3))
      < 8796093 / 8796093022208 then
    ⟨0, 1, 0⟩
  else
    D3DXVec3Normalize lm
      (solvedBitangent (tangentEdge lm pos1 pos2) (tangentEdge lm pos1 pos3)
        (tangentTexEdge lm texCoord1 texCoord2) (tangentTexEdge lm texCoord1 texCoord3))

/-- The stored projection matrix is the one `perspective` builds from the stored
parameters. -/
def ProjCurrent (lm : Libm α) (c : Camera α) : Prop :=
  c.m_projMatrix
    = (perspective lm c c.m_fovx c.m_aspectRatio c.m_znear c.m_zfar).m_projMatrix

/-- The camera with view direction and view matrix rebuilt from its axes and position, as the
second half of `updateViewMatrix` leaves them. -/
def rebuilt (c : Camera α) : Camera α :=
  { c with
    m_viewDir := c.m_zAxis
    m_viewMatrix :=
      { m00 := c.m_xAxis.x, m10 := c.m_xAxis.y, m20 := c.m_xAxis.z
        m30 := -D3DXVec3Dot c.m_xAxis c.m_eye
        m01 := c.m_yAxis.x, m11 := c.m_yAxis.y, m21 := c.m_yAxis.z
        m31 := -D3DXVec3Dot c.m_yAxis c.m_eye
        m02 := c.m_zAxis.x, m12 := c.m_zAxis.y, m22 := c.m_zAxis.z
        m32 := -D3DXVec3Dot c.m_zAxis c.m_eye
        m03 := 0, m13 := 0, m23 := 0, m33 := 1 } }

/-- Orthonormal axes with `yAxis = cross(zAxis, xAxis)`, the orientation that
`updateViewMatrix` produces. -/
def RightOrtho (c : Camera α) : Prop :=
  OrthoSq c.m_xAxis c.m_yAxis c.m_zAxis ∧ c.m_yAxis = D3DXVec3Cross c.m_zAxis c.m_xAxis

/-- An `eye` argument that `lookAt` reads with the same value from its first statement to its
last: any vector but a reference to `m_xAxis`, `m_yAxis`, `m_zAxis` or `m_viewDir`, which the
method overwrites before it reads `eye` for the last row of the view matrix. -/
def stableEye : VecRef α → Prop
  | .xAxis => False
  | .yAxis => False
  | .zAxis => False
  | .viewDirection => False
  | _ => True

/-- A `target` argument that `lookAt` reads with the value it had at the call: any vector but
a reference to `m_eye`, which the method assigns before it reads `target`. -/
def stableTarget : VecRef α → Prop
  | .position => False
  | _ => True

/-- An `up` argument that `lookAt` reads with the value it had at the call: any vector but a
reference to `m_eye`, `m_zAxis` or `m_viewDir`, which the method assigns before it reads
`up`. -/
def stableUp : VecRef α → Prop
  | .position => False
  | .zAxis => False
  | .viewDirection => False
  | _ => True

/-- A `direction` argument that `updatePosition` reads with the value it had at the call:
any vector but a reference to `m_eye`, which `move` assigns before `updateVelocity` reads
`direction`. -/
def stableDirection : VecRef α → Prop
  | .position => False
  | _ => True

/-- The `eye` argument of `lookAt` is not a reference to a vector that `lookAt` itself
overwrites (`m_xAxis`, `m_yAxis`, `m_zAxis`, `m_viewDir`). Other operations carry no
condition. -/
def eyeStable (c : Camera α) : Op α → Prop
  | .lookAt eye _ _ => stableEye eye
  | _ => True

/-- The condition of non-degenerate `lookAt` arguments: `target` and `up` are read with the
values they had at the call and `up` is not parallel to `target - eye` (for the one-argument
overload `up` is the current `yAxis` and `eye` the current position). Other operations carry
no condition. -/
def lookAtNonDegenerate (c : Camera α) : Op α → Prop
  | .lookAt eye target up =>
    stableTarget target ∧ stableUp up ∧
      D3DXVec3Cross (up.read c) ((target.read c).sub (eye.read c)) ≠ ⟨0, 0, 0⟩
  | .lookAtTarget target =>
    D3DXVec3Cross c.m_yAxis ((target.read c).sub c.m_eye) ≠ ⟨0, 0, 0⟩
  | _ => True

/-- The condition under which the re-levelling of `setBehavior` is non-degenerate: a switch
from FLIGHT to FIRST_PERSON happens only with `zAxis` not parallel to world Y. Other
operations carry no condition. -/
def switchNonVertical (c : Camera α) : Op α → Prop
  | .setBehavior b =>
    c.m_behavior = CameraBehavior.CAMERA_BEHAVIOR_FLIGHT →
      b = CameraBehavior.CAMERA_BEHAVIOR_FIRST_PERSON →
      D3DXVec3Cross WORLD_YAXIS c.m_zAxis ≠ ⟨0, 0, 0⟩
  | _ => True

/-- Every operation of the sequence satisfies the condition `P` in the state it is applied
to. -/
def eachOp (lm : Libm α) (P : Camera α → Op α → Prop) : Camera α → List (Op α) → Prop
  | _, [] => True
  | c, op :: ops => P c op ∧ eachOp lm P (step lm c op) ops

end Camera

namespace Camera

variable {α : Type} [LinearOrderedField α]

/-- The per-axis velocity rule in the words of the specification (section 4.7): with intent
the velocity is ramped and clamped to the maximum, without intent it moves toward zero and
stops at zero. -/
def velocityRule (v i a vmax dt : α) : α :=
  if i ≠ 0 then min vmax (max (-vmax) (v + i * a * dt))
  else if v > 0 then max (v - a * dt) 0
  else min (v + a * dt) 0

end Camera

/-!
## Binary32

The `float` of the program as IEEE 754 binary32 in the default rounding mode: a value is
`m * 2^e`, an infinity or not-a-number, and every operation computes the exact result and
rounds it once, to nearest with ties to the even significand.  The sign of a zero is not
kept: it decides no comparison and no value computed below.
-/

/-- A binary32 value: the finite number `m * 2^e` (kept with `m` odd, or `m = 0` and `e = 0`),
an infinity, or not-a-number. -/
inductive F32 where
  | fin (m : Int) (e : Int)
  | inf (negative : Bool)
  | nan
deriving DecidableEq

namespace F32

/-- The number of binary digits of `n`, by halving; the first argument bounds the number of
steps. -/
def bitsAux : Nat → Nat → Nat
  | 0, _ => 0
  | fuel + 1, n => if n = 0 then 0 else bitsAux fuel (n / 2) + 1

/-- The number of binary digits of `n` (0 for 0). -/
def bits (n : Nat) : Nat := bitsAux n n

/-- The finite value `m * 2^e` with the trailing zero bits of `m` moved into the exponent. -/
def canon (m e : Int) : F32 :=
  if m = 0 then fin 0 0
  else
    let n := m.natAbs
    let tz := bits (n ^^^ (n - 1)) - 1
    fin (m / (2 ^ tz : Nat)) (e + tz)

/-- Rounding of the exact number `m * 2^e` to binary32: nearest value with a 24-bit
significand on the grid of multiples of `2^-149`, ties to the even significand, and an
infinity from `2^128` on. -/
def round (m e : Int) : F32 :=
  if m = 0 then fin 0 0
  else
    let n := m.natAbs
    let len : Int := (bits n : Nat)
    let q : Int := max (max (len + e - 24) (-149)) e
    let sh := (q - e).toNat
    let k := n >>> sh
    let rem := n % 2 ^ sh
    let k := if 2 * rem > 2 ^ sh ∨ (2 * rem = 2 ^ sh ∧ k % 2 = 1) then k + 1 else k
    if k = 0 then fin 0 0
    else if ((bits k : Nat) : Int) + q > 128 then inf (decide (m < 0))
    else canon (if m < 0 then -(k : Int) else k) q

/-- Sum. -/
def add : F32 → F32 → F32
  | fin m1 e1, fin m2 e2 =>
    let e := min e1 e2
    round (m1 * (2 ^ (e1 - e).toNat : Nat) + m2 * (2 ^ (e2 - e).toNat : Nat)) e
  | nan, _ => nan
  | _, nan => nan
  | inf s, inf t => if s = t then inf s else nan
  | inf s, fin _ _ => inf s
  | fin _ _, inf t => inf t

/-- Negation. -/
def neg : F32 → F32
  | fin m e => fin (-m) e
  | inf s => inf (!s)
  | nan => nan

/-- Product. -/
def mul : F32 → F32 → F32
  | fin m1 e1, fin m2 e2 => round (m1 * m2) (e1 + e2)
  | nan, _ => nan
  | _, nan => nan
  | inf s, inf t => inf (s != t)
  | inf s, fin m _ => if m = 0 then nan else inf (s != decide (m < 0))
  | fin m _, inf t => if m = 0 then nan else inf (decide (m < 0) != t)

/-- Quotient. -/
def div : F32 → F32 → F32
  | fin m1 e1, fin m2 e2 =>
    if m2 = 0 then (if m1 = 0 then nan else inf (decide (m1 < 0)))
    else
      let n := m1.natAbs <<< 64
      let q := n / m2.natAbs
      let qs := 2 * q + (if n % m2.natAbs = 0 then 0 else 1)
      round (if decide (m1 < 0) != decide (m2 < 0) then -(qs : Int) else qs) (e1 - e2 - 65)
  | nan, _ => nan
  | _, nan => nan
  | inf _, inf _ => nan
  | inf s, fin m _ => inf (s != decide (m < 0))
  | fin _ _, inf _ => fin 0 0

/-- The integer square root by binary search on the bits, from bit `i - 1` down. -/
def isqrtAux (n : Nat) : Nat → Nat → Nat
  | 0, r => r
  | i + 1, r => isqrtAux n i (if (r + 2 ^ i) * (r + 2 ^ i) ≤ n then r + 2 ^ i else r)

/-- Square root, `sqrtf`, correctly rounded. -/
def sqrt : F32 → F32
  | fin m e =>
    if m < 0 then nan
    else if m = 0 then fin 0 0
    else
      let p : Nat := if e % 2 = 0 then 64 else 65
      let n := m.natAbs <<< p
      let s := isqrtAux n (bits n / 2 + 1) 0
      round ((2 * s + (if s * s = n then 0 else 1) : Nat)) ((e - p) / 2 - 1)
  | inf s => if s then nan else inf false
  | nan => nan

/-- Comparison `<`. -/
def blt : F32 → F32 → Bool
  | fin m1 e1, fin m2 e2 =>
    let e := min e1 e2
    decide (m1 * (2 ^ (e1 - e).toNat : Nat) < m2 * (2 ^ (e2 - e).toNat : Nat))
  | nan, _ => false
  | _, nan => false
  | inf s, inf t => s && !t
  | inf s, fin _ _ => s
  | fin _ _, inf t => !t

instance : Zero F32 := ⟨fin 0 0⟩
instance : One F32 := ⟨fin 1 0⟩
instance : NatCast F32 := ⟨fun n => round n 0⟩
instance : Add F32 := ⟨add⟩
instance : Neg F32 := ⟨neg⟩
instance : Sub F32 := ⟨fun a b => add a (neg b)⟩
instance : Mul F32 := ⟨mul⟩
instance : Div F32 := ⟨div⟩
instance : LT F32 := ⟨fun a b => blt a b = true⟩
instance (a b : F32) : Decidable (a < b) := inferInstanceAs (Decidable (blt a b = true))

/-- The math library in binary32. `sqrtf` is the correctly rounded square root and `D3DX_PI`
the binary32 number of `((FLOAT) 3.141592654f)`; the values of the other functions are not
fixed by the source, so they are parameters. -/
def libm (sinf cosf tanf asinf atanf : F32 → F32) : Libm F32 :=
  ⟨sqrt, sinf, cosf, tanf, asinf, atanf, 13176795 / 4194304⟩

end F32

/-! ## Lemmas -/

namespace Camera

variable {α : Type} [LinearOrderedField α]

theorem fabsf_eq_abs (x : α) : fabsf x = |x| := by
  unfold fabsf
  by_cases h : x < 0
  · rw [if_pos h, abs_of_neg h]
  · rw [if_neg h, abs_of_nonneg (not_lt.mp h)]

/-- On vectors owned by the caller `lookAt` reads each argument once. -/
theorem lookAt_val (lm : Libm α) (c : Camera α) (eye target up : D3DXVECTOR3 α) :
    lookAt lm c (.val eye) (.val target) (.val up) = lookAtValues lm c eye target up := rfl

/-- The call `lookAt(m_eye, target, up)` made by `setBehavior`. -/
theorem lookAt_position (lm : Libm α) (c : Camera α) (target up : D3DXVECTOR3 α) :
    lookAt lm c .position (.val target) (.val up) = lookAtValues lm c c.m_eye target up := rfl

/-- The call `lookAt(m_eye, target, m_yAxis)` made by `lookAt(target)`. -/
theorem lookAtTarget_val (lm : Libm α) (c : Camera α) (target : D3DXVECTOR3 α) :
    lookAtTarget lm c (.val target) = lookAtValues lm c c.m_eye target c.m_yAxis := rfl

/-- A `target` that `lookAt` reads unchanged may be replaced by the value it shows at the
call. -/
theorem lookAt_target_read (lm : Libm α) (c : Camera α) (eye target up : VecRef α)
    (ht : stableTarget target) :
    lookAt lm c eye target up = lookAt lm c eye (.val (target.read c)) up := by
  cases target with
  | position => exact absurd ht id
  | _ => rfl

/-- An `up` that `lookAt` reads unchanged may be replaced by the value it shows at the
call. -/
theorem lookAt_up_read (lm : Libm α) (c : Camera α) (eye target up : VecRef α)
    (hu : stableUp up) :
    lookAt lm c eye target up = lookAt lm c eye target (.val (up.read c)) := by
  cases up with
  | position => exact absurd hu id
  | zAxis => exact absurd hu id
  | viewDirection => exact absurd hu id
  | _ => rfl

/-- With `target` and `up` given by value, `lookAt` leaves the position, the axes, the view
direction and the accumulated pitch that it leaves on the value `eye` shows at the call. -/
theorem lookAt_eye_read (lm : Libm α) (c : Camera α) (eye : VecRef α)
    (target up : D3DXVECTOR3 α) :
    (lookAt lm c eye (.val target) (.val up)).m_eye = eye.read c ∧
    (lookAt lm c eye (.val target) (.val up)).m_xAxis
      = (lookAtValues lm c (eye.read c) target up).m_xAxis ∧
    (lookAt lm c eye (.val target) (.val up)).m_yAxis
      = (lookAtValues lm c (eye.read c) target up).m_yAxis ∧
    (lookAt lm c eye (.val target) (.val up)).m_zAxis
      = (lookAtValues lm c (eye.read c) target up).m_zAxis ∧
    (lookAt lm c eye (.val target) (.val up)).m_viewDir
      = (lookAtValues lm c (eye.read c) target up).m_viewDir ∧
    (lookAt lm c eye (.val target) (.val up)).m_accumPitchDegrees
      = (lookAtValues lm c (eye.read c) target up).m_accumPitchDegrees := by
  cases eye <;> exact ⟨rfl, rfl, rfl, rfl, rfl, rfl⟩

/-- With `target` and `up` read unchanged, `lookAt` on references leaves the position, the
axes, the view direction and the accumulated pitch that it leaves on the values the references
show at the call. -/
theorem lookAt_axes_of_stable (lm : Libm α) (c : Camera α) (eye target up : VecRef α)
    (ht : stableTarget target) (hu : stableUp up) :
    (lookAt lm c eye target up).m_eye = eye.read c ∧
    (lookAt lm c eye target up).m_xAxis
      = (lookAtValues lm c (eye.read c) (target.read c) (up.read c)).m_xAxis ∧
    (lookAt lm c eye target up).m_yAxis
      = (lookAtValues lm c (eye.read c) (target.read c) (up.read c)).m_yAxis ∧
    (lookAt lm c eye target up).m_zAxis
      = (lookAtValues lm c (eye.read c) (target.read c) (up.read c)).m_zAxis ∧
    (lookAt lm c eye target up).m_viewDir
      = (lookAtValues lm c (eye.read c) (target.read c) (up.read c)).m_viewDir ∧
    (lookAt lm c eye target up).m_accumPitchDegrees
      = (lookAtValues lm c (eye.read c) (target.read c) (up.read c)).m_accumPitchDegrees := by
  rw [lookAt_target_read lm c eye target up ht, lookAt_up_read lm c eye _ up hu]
  exact lookAt_eye_read lm c eye _ _

/-- With all three arguments read unchanged, `lookAt` on references is `lookAt` on the values
the references show at the call. -/
theorem lookAt_of_stable (lm : Libm α) (c : Camera α) (eye target up : VecRef α)
    (he : stableEye eye) (ht : stableTarget target) (hu : stableUp up) :
    lookAt lm c eye target up
      = lookAtValues lm c (eye.read c) (target.read c) (up.read c) := by
  rw [lookAt_target_read lm c eye target up ht, lookAt_up_read lm c eye _ up hu]
  cases eye with
  | xAxis => exact absurd he id
  | yAxis => exact absurd he id
  | zAxis => exact absurd he id
  | viewDirection => exact absurd he id
  | _ => rfl

theorem normalize_of_unit (lm : Libm α) (h1 : lm.sqrtf 1 = 1) (v : D3DXVECTOR3 α)
    (hv : D3DXVec3LengthSq v = 1) : D3DXVec3Normalize lm v = v := by
  simp [D3DXVec3Normalize, D3DXVec3Length, hv, h1]

theorem transform_rotationAxis (lm : Libm α) (h1 : lm.sqrtf 1 = 1) (n : D3DXVECTOR3 α)
    (hn : D3DXVec3LengthSq n = 1) (θ : α) (v : D3DXVECTOR3 α) :
    xyz (D3DXVec3Transform v (D3DXMatrixRotationAxis lm n θ))
      = rotAbout n (lm.sinf θ) (lm.cosf θ) v := by
  simp only [D3DXMatrixRotationAxis, normalize_of_unit lm h1 n hn, D3DXVec3Transform,
    xyz, rotAbout, D3DXVec3Dot, D3DXVec3Cross]
  ext <;> simp only <;> ring

theorem transform_rotationY (lm : Libm α) (θ : α) (v : D3DXVECTOR3 α) :
    xyz (D3DXVec3Transform v (D3DXMatrixRotationY lm θ))
      = rotAbout WORLD_YAXIS (lm.sinf θ) (lm.cosf θ) v := by
  simp only [D3DXMatrixRotationY, D3DXVec3Transform,
    xyz, rotAbout, D3DXVec3Dot, D3DXVec3Cross, WORLD_YAXIS]
  ext <;> simp only <;> ring

theorem rotAbout_dot (n : D3DXVECTOR3 α) (s c : α) (hn : D3DXVec3LengthSq n = 1)
    (hsc : s * s + c * c = 1) (v w : D3DXVECTOR3 α) :
    D3DXVec3Dot (rotAbout n s c v) (rotAbout n s c w) = D3DXVec3Dot v w := by
  simp only [D3DXVec3LengthSq] at hn
  simp only [rotAbout, D3DXVec3Dot, D3DXVec3Cross]
  linear_combination
    ((1 - c) ^ 2 * ((n.x * v.x + n.y * v.y + n.z * v.z) * (n.x * w.x + n.y * w.y + n.z * w.z))
      + s ^ 2 * (v.x * w.x + v.y * w.y + v.z * w.z)) * hn
    + ((v.x * w.x + v.y * w.y + v.z * w.z)
      - (n.x * v.x + n.y * v.y + n.z * v.z) * (n.x * w.x + n.y * w.y + n.z * w.z)) * hsc

theorem rotAbout_self (n : D3DXVECTOR3 α) (s c : α) (hn : D3DXVec3LengthSq n = 1) :
    rotAbout n s c n = n := by
  simp only [D3DXVec3LengthSq] at hn
  ext <;> simp only [rotAbout, D3DXVec3Dot, D3DXVec3Cross]
  · linear_combination (1 - c) * n.x * hn
  · linear_combination (1 - c) * n.y * hn
  · linear_combination (1 - c) * n.z * hn

theorem rotAbout_zero (n v : D3DXVECTOR3 α) : rotAbout n 0 1 v = v := by
  ext <;> simp [rotAbout]

theorem vec3_lengthSq_eq_dot (a : D3DXVECTOR3 α) : D3DXVec3LengthSq a = D3DXVec3Dot a a := rfl

theorem vec3_dot_comm (a b : D3DXVECTOR3 α) : D3DXVec3Dot a b = D3DXVec3Dot b a := by
  simp only [D3DXVec3Dot]; ring

theorem vec3_cross_dot_cross (a b : D3DXVECTOR3 α) :
    D3DXVec3Dot (D3DXVec3Cross a b) (D3DXVec3Cross a b)
      = D3DXVec3Dot a a * D3DXVec3Dot b b - D3DXVec3Dot a b * D3DXVec3Dot a b := by
  simp only [D3DXVec3Dot, D3DXVec3Cross]; ring

theorem vec3_cross_cross_self (z x : D3DXVECTOR3 α) (hz : D3DXVec3Dot z z = 1)
    (hxz : D3DXVec3Dot x z = 0) : D3DXVec3Cross (D3DXVec3Cross z x) z = x := by
  simp only [D3DXVec3Dot] at hz hxz
  ext <;> simp only [D3DXVec3Cross]
  · linear_combination x.x * hz - z.x * hxz
  · linear_combination x.y * hz - z.y * hxz
  · linear_combination x.z * hz - z.z * hxz

theorem vec3_dot_cross_left (z x : D3DXVECTOR3 α) : D3DXVec3Dot (D3DXVec3Cross z x) z = 0 := by
  simp only [D3DXVec3Dot, D3DXVec3Cross]; ring

theorem vec3_dot_cross_right (z x : D3DXVECTOR3 α) : D3DXVec3Dot (D3DXVec3Cross z x) x = 0 := by
  simp only [D3DXVec3Dot, D3DXVec3Cross]; ring

/-- On a unit, perpendicular pair `x`, `z` the re-orthogonalisation keeps `x` and `z` and
sets `y` to `cross z x`. -/
theorem updateViewMatrix_true_axes (lm : Libm α) (h1 : lm.sqrtf 1 = 1) (c : Camera α)
    (hx : D3DXVec3Dot c.m_xAxis c.m_xAxis = 1) (hz : D3DXVec3Dot c.m_zAxis c.m_zAxis = 1)
    (hxz : D3DXVec3Dot c.m_xAxis c.m_zAxis = 0) :
    (updateViewMatrix lm c true).m_xAxis = c.m_xAxis ∧
    (updateViewMatrix lm c true).m_yAxis = D3DXVec3Cross c.m_zAxis c.m_xAxis ∧
    (updateViewMatrix lm c true).m_zAxis = c.m_zAxis ∧
    (updateViewMatrix lm c true).m_viewDir = c.m_zAxis := by
  have hzn : D3DXVec3Normalize lm c.m_zAxis = c.m_zAxis := normalize_of_unit lm h1 _ hz
  have hy : D3DXVec3Normalize lm (D3DXVec3Cross c.m_zAxis c.m_xAxis)
      = D3DXVec3Cross c.m_zAxis c.m_xAxis := by
    apply normalize_of_unit lm h1
    rw [vec3_lengthSq_eq_dot, vec3_cross_dot_cross, hz, hx, vec3_dot_comm, hxz]; ring
  have hxn : D3DXVec3Normalize lm (D3DXVec3Cross (D3DXVec3Cross c.m_zAxis c.m_xAxis) c.m_zAxis)
      = c.m_xAxis := by
    rw [vec3_cross_cross_self _ _ hz hxz]; exact normalize_of_unit lm h1 _ hx
  simp only [updateViewMatrix, if_true, hzn, hy, hxn, and_self]

theorem orthoSq_of_pair (x z : D3DXVECTOR3 α) (hx : D3DXVec3Dot x x = 1)
    (hz : D3DXVec3Dot z z = 1) (hxz : D3DXVec3Dot x z = 0) :
    OrthoSq x (D3DXVec3Cross z x) z := by
  refine ⟨hx, ?_, hz, ?_, ?_, hxz⟩
  · rw [vec3_cross_dot_cross, hz, hx, vec3_dot_comm, hxz]; ring
  · rw [vec3_dot_comm, vec3_dot_cross_right]
  · exact vec3_dot_cross_left z x

theorem orthoSq_rot_y (x y z : D3DXVECTOR3 α) (s c : α) (h : OrthoSq x y z)
    (hsc : s * s + c * c = 1) : OrthoSq (rotAbout y s c x) y (rotAbout y s c z) := by
  obtain ⟨hx, hy, hz, hxy, hyz, hxz⟩ := h
  have hr := rotAbout_dot y s c hy hsc
  have e1 := hr x y
  have e2 := hr y z
  rw [rotAbout_self y s c hy] at e1 e2
  exact ⟨(hr x x).trans hx, hy, (hr z z).trans hz, e1.trans hxy, e2.trans hyz,
    (hr x z).trans hxz⟩

theorem orthoSq_rot_x (x y z : D3DXVECTOR3 α) (s c : α) (h : OrthoSq x y z)
    (hsc : s * s + c * c = 1) : OrthoSq x (rotAbout x s c y) (rotAbout x s c z) := by
  obtain ⟨hx, hy, hz, hxy, hyz, hxz⟩ := h
  have hr := rotAbout_dot x s c hx hsc
  have e1 := hr x y
  have e2 := hr x z
  rw [rotAbout_self x s c hx] at e1 e2
  exact ⟨hx, (hr y y).trans hy, (hr z z).trans hz, e1.trans hxy, (hr y z).trans hyz,
    e2.trans hxz⟩

theorem orthoSq_rot_z (x y z : D3DXVECTOR3 α) (s c : α) (h : OrthoSq x y z)
    (hsc : s * s + c * c = 1) : OrthoSq (rotAbout z s c x) (rotAbout z s c y) z := by
  obtain ⟨hx, hy, hz, hxy, hyz, hxz⟩ := h
  have hr := rotAbout_dot z s c hz hsc
  have e1 := hr y z
  have e2 := hr x z
  rw [rotAbout_self z s c hz] at e1 e2
  exact ⟨(hr x x).trans hx, (hr y y).trans hy, hz, (hr x y).trans hxy, e1.trans hyz,
    e2.trans hxz⟩

theorem rotateFlight_blocks (lm : Libm α) (c : Camera α) (hd pd rd : α) :
    rotateFlight lm c hd pd rd
      = flightRoll lm (pitchBlock lm (flightHeading lm c (D3DXToRadian lm hd))
          (D3DXToRadian lm pd)) (D3DXToRadian lm rd) := rfl

theorem flightHeading_eq (lm : Libm α) (hlm : LibmSound lm) (c : Camera α) (θ : α)
    (hy : D3DXVec3Dot c.m_yAxis c.m_yAxis = 1) :
    flightHeading lm c θ =
      { c with
        m_xAxis := rotAbout c.m_yAxis (lm.sinf θ) (lm.cosf θ) c.m_xAxis
        m_zAxis := rotAbout c.m_yAxis (lm.sinf θ) (lm.cosf θ) c.m_zAxis } := by
  by_cases h : θ = 0
  · simp only [flightHeading, h, ne_eq, not_true_eq_false, if_false, hlm.sin_zero, hlm.cos_zero,
      rotAbout_zero]
  · simp only [flightHeading, h, ne_eq, not_false_eq_true, if_true,
      transform_rotationAxis lm hlm.sqrt_one _ hy]

theorem pitchBlock_eq (lm : Libm α) (hlm : LibmSound lm) (c : Camera α) (θ : α)
    (hx : D3DXVec3Dot c.m_xAxis c.m_xAxis = 1) :
    pitchBlock lm c θ =
      { c with
        m_yAxis := rotAbout c.m_xAxis (lm.sinf θ) (lm.cosf θ) c.m_yAxis
        m_zAxis := rotAbout c.m_xAxis (lm.sinf θ) (lm.cosf θ) c.m_zAxis } := by
  by_cases h : θ = 0
  · simp only [pitchBlock, h, ne_eq, not_true_eq_false, if_false, hlm.sin_zero, hlm.cos_zero,
      rotAbout_zero]
  · simp only [pitchBlock, h, ne_eq, not_false_eq_true, if_true,
      transform_rotationAxis lm hlm.sqrt_one _ hx]

theorem flightRoll_eq (lm : Libm α) (hlm : LibmSound lm) (c : Camera α) (θ : α)
    (hz : D3DXVec3Dot c.m_zAxis c.m_zAxis = 1) :
    flightRoll lm c θ =
      { c with
        m_xAxis := rotAbout c.m_zAxis (lm.sinf θ) (lm.cosf θ) c.m_xAxis
        m_yAxis := rotAbout c.m_zAxis (lm.sinf θ) (lm.cosf θ) c.m_yAxis } := by
  by_cases h : θ = 0
  · simp only [flightRoll, h, ne_eq, not_true_eq_false, if_false, hlm.sin_zero, hlm.cos_zero,
      rotAbout_zero]
  · simp only [flightRoll, h, ne_eq, not_false_eq_true, if_true,
      transform_rotationAxis lm hlm.sqrt_one _ hz]

/-- Closed form of `rotateFlight` on an orthonormal basis: three Rodrigues rotations, each
about the axis left by the previous one. -/
theorem rotateFlight_eq (lm : Libm α) (hlm : LibmSound lm) (c : Camera α)
    (h : OrthoSq c.m_xAxis c.m_yAxis c.m_zAxis) (hd pd rd : α) :
    let sH := lm.sinf (D3DXToRadian lm hd)
    let cH := lm.cosf (D3DXToRadian lm hd)
    let sP := lm.sinf (D3DXToRadian lm pd)
    let cP := lm.cosf (D3DXToRadian lm pd)
    let sR := lm.sinf (D3DXToRadian lm rd)
    let cR := lm.cosf (D3DXToRadian lm rd)
    let x1 := rotAbout c.m_yAxis sH cH c.m_xAxis
    let z1 := rotAbout c.m_yAxis sH cH c.m_zAxis
    let y2 := rotAbout x1 sP cP c.m_yAxis
    let z2 := rotAbout x1 sP cP z1
    let x3 := rotAbout z2 sR cR x1
    let y3 := rotAbout z2 sR cR y2
    rotateFlight lm c hd pd rd = { c with m_xAxis := x3, m_yAxis := y3, m_zAxis := z2 } ∧
      OrthoSq x3 y3 z2 := by
  intro sH cH sP cP sR cR x1 z1 y2 z2 x3 y3
  have h1 : OrthoSq x1 c.m_yAxis z1 := orthoSq_rot_y _ _ _ sH cH h (hlm.sin_sq_add_cos_sq _)
  have h2 : OrthoSq x1 y2 z2 := orthoSq_rot_x _ _ _ sP cP h1 (hlm.sin_sq_add_cos_sq _)
  have h3 : OrthoSq x3 y3 z2 := orthoSq_rot_z _ _ _ sR cR h2 (hlm.sin_sq_add_cos_sq _)
  refine ⟨?_, h3⟩
  rw [rotateFlight_blocks, flightHeading_eq lm hlm c _ h.2.1,
    pitchBlock_eq lm hlm _ _ h1.1, flightRoll_eq lm hlm _ _ h2.2.2.1]

theorem rotateFirstPerson_blocks (lm : Libm α) (c : Camera α) (hd pd : α) :
    rotateFirstPerson lm c hd pd
      = pitchBlock lm
          (fpHeading lm { c with m_accumPitchDegrees := fpAccum c.m_accumPitchDegrees pd }
            (D3DXToRadian lm hd))
          (D3DXToRadian lm (fpPitch c.m_accumPitchDegrees pd)) := rfl

theorem fpAccum_eq (a p : α) : fpAccum a p = min 90 (max (-90) (a + p)) := by
  simp only [fpAccum, gt_iff_lt]
  by_cases h1 : 90 < a + p
  · have h2 : ¬ ((90 : α) < -90) := by norm_num
    have h3 : (-90 : α) ≤ a + p := by linarith
    simp only [h1, if_true, h2, if_false, max_eq_right h3, min_eq_left (le_of_lt h1)]
  · by_cases h2 : a + p < -90
    · simp only [h1, if_false, h2, if_true, max_eq_left (le_of_lt h2)]
      rw [min_eq_right]; norm_num
    · push_neg at h1 h2
      simp only [not_lt.mpr h1, if_false, not_lt.mpr h2, max_eq_right h2, min_eq_right h1]

theorem fpPitch_eq (a p : α) : fpPitch a p = fpAccum a p - a := by
  simp only [fpAccum, fpPitch, gt_iff_lt]
  by_cases h1 : 90 < a + p
  · have h2 : ¬ ((90 : α) < -90) := by norm_num
    simp only [h1, if_true, h2, if_false]; ring
  · by_cases h2 : a + p < -90
    · simp only [h1, if_false, h2, if_true]; ring
    · simp only [h1, if_false, h2]; ring

theorem fpHeading_eq (lm : Libm α) (hlm : LibmSound lm) (c : Camera α) (θ : α) :
    fpHeading lm c θ =
      { c with
        m_xAxis := rotAbout WORLD_YAXIS (lm.sinf θ) (lm.cosf θ) c.m_xAxis
        m_zAxis := rotAbout WORLD_YAXIS (lm.sinf θ) (lm.cosf θ) c.m_zAxis } := by
  by_cases h : θ = 0
  · simp only [fpHeading, h, ne_eq, not_true_eq_false, if_false, hlm.sin_zero, hlm.cos_zero,
      rotAbout_zero]
  · simp only [fpHeading, h, ne_eq, not_false_eq_true, if_true, transform_rotationY]

theorem worldY_unit : D3DXVec3LengthSq (WORLD_YAXIS : D3DXVECTOR3 α) = 1 := by
  simp [D3DXVec3LengthSq, WORLD_YAXIS]

/-- Closed form of `rotateFirstPerson` when `xAxis` is a unit vector. -/
theorem rotateFirstPerson_eq (lm : Libm α) (hlm : LibmSound lm) (c : Camera α)
    (hx : D3DXVec3Dot c.m_xAxis c.m_xAxis = 1) (hd pd : α) :
    let sH := lm.sinf (D3DXToRadian lm hd)
    let cH := lm.cosf (D3DXToRadian lm hd)
    let sP := lm.sinf (D3DXToRadian lm (fpPitch c.m_accumPitchDegrees pd))
    let cP := lm.cosf (D3DXToRadian lm (fpPitch c.m_accumPitchDegrees pd))
    let x1 := rotAbout WORLD_YAXIS sH cH c.m_xAxis
    let z1 := rotAbout WORLD_YAXIS sH cH c.m_zAxis
    rotateFirstPerson lm c hd pd =
      { c with
        m_accumPitchDegrees := fpAccum c.m_accumPitchDegrees pd
        m_xAxis := x1
        m_yAxis := rotAbout x1 sP cP c.m_yAxis
        m_zAxis := rotAbout x1 sP cP z1 } := by
  intro sH cH sP cP x1 z1
  have hx1 : D3DXVec3Dot x1 x1 = 1 :=
    (rotAbout_dot _ sH cH worldY_unit (hlm.sin_sq_add_cos_sq _) _ _).trans hx
  rw [rotateFirstPerson_blocks, fpHeading_eq lm hlm, pitchBlock_eq lm hlm _ _ hx1]

theorem rotate_firstPerson (lm : Libm α) (c : Camera α) (hd pd rd : α)
    (hb : c.m_behavior = CameraBehavior.CAMERA_BEHAVIOR_FIRST_PERSON) :
    rotate lm c hd pd rd = updateViewMatrix lm (rotateFirstPerson lm c hd pd) true := by
  simp only [rotate, hb]

theorem rotate_flight (lm : Libm α) (c : Camera α) (hd pd rd : α)
    (hb : c.m_behavior = CameraBehavior.CAMERA_BEHAVIOR_FLIGHT) :
    rotate lm c hd pd rd = updateViewMatrix lm (rotateFlight lm c hd pd (-rd)) true := by
  simp only [rotate, hb]

/-- After `rotateFirstPerson` on a unit, perpendicular pair `xAxis`, `zAxis` the two are
still unit vectors and perpendicular. -/
theorem rotateFirstPerson_pair (lm : Libm α) (hlm : LibmSound lm) (c : Camera α)
    (hx : D3DXVec3Dot c.m_xAxis c.m_xAxis = 1) (hz : D3DXVec3Dot c.m_zAxis c.m_zAxis = 1)
    (hxz : D3DXVec3Dot c.m_xAxis c.m_zAxis = 0) (hd pd : α) :
    D3DXVec3Dot (rotateFirstPerson lm c hd pd).m_xAxis (rotateFirstPerson lm c hd pd).m_xAxis = 1 ∧
    D3DXVec3Dot (rotateFirstPerson lm c hd pd).m_zAxis (rotateFirstPerson lm c hd pd).m_zAxis = 1 ∧
    D3DXVec3Dot (rotateFirstPerson lm c hd pd).m_xAxis (rotateFirstPerson lm c hd pd).m_zAxis = 0 := by
  rw [rotateFirstPerson_eq lm hlm c hx]
  have hY := rotAbout_dot (WORLD_YAXIS : D3DXVECTOR3 α) _ _ worldY_unit
    (hlm.sin_sq_add_cos_sq (D3DXToRadian lm hd))
  have hx1 := (hY c.m_xAxis c.m_xAxis).trans hx
  have hX := rotAbout_dot _ _ _ hx1
    (hlm.sin_sq_add_cos_sq (D3DXToRadian lm (fpPitch c.m_accumPitchDegrees pd)))
  have e1 := hX (rotAbout WORLD_YAXIS (lm.sinf (D3DXToRadian lm hd))
    (lm.cosf (D3DXToRadian lm hd)) c.m_xAxis)
    (rotAbout WORLD_YAXIS (lm.sinf (D3DXToRadian lm hd))
    (lm.cosf (D3DXToRadian lm hd)) c.m_zAxis)
  rw [rotAbout_self _ _ _ hx1] at e1
  exact ⟨hx1, (hX _ _).trans ((hY _ _).trans hz), e1.trans ((hY _ _).trans hxz)⟩

/-- The block `rotateFlight` keeps an orthonormal basis orthonormal. -/
theorem rotateFlight_orthoSq (lm : Libm α) (hlm : LibmSound lm) (c : Camera α)
    (h : OrthoSq c.m_xAxis c.m_yAxis c.m_zAxis) (hd pd rd : α) :
    OrthoSq (rotateFlight lm c hd pd rd).m_xAxis (rotateFlight lm c hd pd rd).m_yAxis
      (rotateFlight lm c hd pd rd).m_zAxis := by
  obtain ⟨e2, h3⟩ := rotateFlight_eq lm hlm c h hd pd rd
  rw [e2]
  exact h3

/-- After the behaviour-specific rotation and the re-orthogonalisation of `rotate`, an
orthonormal basis is again orthonormal. -/
theorem rotate_orthoSq (lm : Libm α) (hlm : LibmSound lm) (c : Camera α)
    (h : OrthoSq c.m_xAxis c.m_yAxis c.m_zAxis) (hd pd rd : α) :
    OrthoSq (rotate lm c hd pd rd).m_xAxis (rotate lm c hd pd rd).m_yAxis
      (rotate lm c hd pd rd).m_zAxis := by
  cases hb : c.m_behavior with
  | CAMERA_BEHAVIOR_FIRST_PERSON =>
    obtain ⟨hx, hz, hxz⟩ := rotateFirstPerson_pair lm hlm c h.1 h.2.2.1 h.2.2.2.2.2 hd pd
    obtain ⟨ex, ey, ez, _⟩ := updateViewMatrix_true_axes lm hlm.sqrt_one _ hx hz hxz
    rw [rotate_firstPerson lm c hd pd rd hb, ex, ey, ez]
    exact orthoSq_of_pair _ _ hx hz hxz
  | CAMERA_BEHAVIOR_FLIGHT =>
    have h3 := rotateFlight_orthoSq lm hlm c h hd pd (-rd)
    have hx := h3.1
    have hz := h3.2.2.1
    have hxz := h3.2.2.2.2.2
    obtain ⟨ex, ey, ez, _⟩ := updateViewMatrix_true_axes lm hlm.sqrt_one _ hx hz hxz
    rw [rotate_flight lm c hd pd rd hb, ex, ey, ez]
    exact orthoSq_of_pair _ _ hx hz hxz

theorem real_length_eq_one (lm : Libm ℝ) (hs : lm.sqrtf = Real.sqrt) (v : D3DXVECTOR3 ℝ) :
    D3DXVec3Length lm v = 1 ↔ D3DXVec3Dot v v = 1 := by
  simp only [D3DXVec3Length, hs, Real.sqrt_eq_one, vec3_lengthSq_eq_dot]

theorem real_orthonormal_iff (lm : Libm ℝ) (hs : lm.sqrtf = Real.sqrt) (x y z : D3DXVECTOR3 ℝ) :
    Orthonormal lm x y z ↔ OrthoSq x y z := by
  simp only [Orthonormal, OrthoSq, real_length_eq_one lm hs, vec3_dot_comm z x]

@[simp] theorem updateViewMatrix_behavior (lm : Libm α) (c : Camera α) (b : Bool) :
    (updateViewMatrix lm c b).m_behavior = c.m_behavior := by
  cases b <;> rfl

@[simp] theorem updateViewMatrix_accum (lm : Libm α) (c : Camera α) (b : Bool) :
    (updateViewMatrix lm c b).m_accumPitchDegrees = c.m_accumPitchDegrees := by
  cases b <;> rfl

@[simp] theorem pitchBlock_behavior (lm : Libm α) (c : Camera α) (θ : α) :
    (pitchBlock lm c θ).m_behavior = c.m_behavior := by
  unfold pitchBlock; split_ifs <;> rfl

@[simp] theorem pitchBlock_accum (lm : Libm α) (c : Camera α) (θ : α) :
    (pitchBlock lm c θ).m_accumPitchDegrees = c.m_accumPitchDegrees := by
  unfold pitchBlock; split_ifs <;> rfl

@[simp] theorem fpHeading_behavior (lm : Libm α) (c : Camera α) (θ : α) :
    (fpHeading lm c θ).m_behavior = c.m_behavior := by
  unfold fpHeading; split_ifs <;> rfl

@[simp] theorem fpHeading_accum (lm : Libm α) (c : Camera α) (θ : α) :
    (fpHeading lm c θ).m_accumPitchDegrees = c.m_accumPitchDegrees := by
  unfold fpHeading; split_ifs <;> rfl

@[simp] theorem flightHeading_behavior (lm : Libm α) (c : Camera α) (θ : α) :
    (flightHeading lm c θ).m_behavior = c.m_behavior := by
  unfold flightHeading; split_ifs <;> rfl

@[simp] theorem flightRoll_behavior (lm : Libm α) (c : Camera α) (θ : α) :
    (flightRoll lm c θ).m_behavior = c.m_behavior := by
  unfold flightRoll; split_ifs <;> rfl

theorem rotate_behavior (lm : Libm α) (c : Camera α) (hd pd rd : α) :
    (rotate lm c hd pd rd).m_behavior = c.m_behavior := by
  cases hb : c.m_behavior
  · simp [rotate_firstPerson lm c hd pd rd hb, rotateFirstPerson_blocks, hb]
  · simp [rotate_flight lm c hd pd rd hb, rotateFlight_blocks, hb]

theorem rotate_firstPerson_accum (lm : Libm α) (c : Camera α) (hd pd rd : α)
    (hb : c.m_behavior = CameraBehavior.CAMERA_BEHAVIOR_FIRST_PERSON) :
    (rotate lm c hd pd rd).m_accumPitchDegrees = fpAccum c.m_accumPitchDegrees pd := by
  simp [rotate_firstPerson lm c hd pd rd hb, rotateFirstPerson_blocks]

theorem rotateMany_firstPerson_accum (lm : Libm α) (rs : List (α × α × α)) :
    ∀ c : Camera α, c.m_behavior = CameraBehavior.CAMERA_BEHAVIOR_FIRST_PERSON →
      -90 ≤ c.m_accumPitchDegrees → c.m_accumPitchDegrees ≤ 90 →
      -90 ≤ (rotateMany lm c rs).m_accumPitchDegrees ∧
        (rotateMany lm c rs).m_accumPitchDegrees ≤ 90 := by
  induction rs with
  | nil => intro c _ h1 h2; exact ⟨h1, h2⟩
  | cons r rs ih =>
    intro c hb h1 h2
    simp only [rotateMany, List.foldl_cons]
    apply ih
    · rw [rotate_behavior, hb]
    · rw [rotate_firstPerson_accum lm c _ _ _ hb, fpAccum_eq]
      exact le_min (by norm_num) (le_max_left _ _)
    · rw [rotate_firstPerson_accum lm c _ _ _ hb, fpAccum_eq]
      exact min_le_left _ _

theorem real_libm :
    LibmReal ⟨Real.sqrt, Real.sin, Real.cos, Real.tan, Real.arcsin, Real.arctan, Real.pi⟩ :=
  ⟨rfl, rfl, rfl, rfl, rfl, rfl, rfl⟩

theorem LibmReal.sound {lm : Libm ℝ} (h : LibmReal lm) : LibmSound lm where
  sqrt_one := by rw [h.sqrtf_eq]; exact Real.sqrt_one
  sin_sq_add_cos_sq := fun θ => by
    have := Real.sin_sq_add_cos_sq θ
    simp only [sq] at this
    rw [h.sinf_eq, h.cosf_eq]
    exact this
  sin_zero := by rw [h.sinf_eq]; exact Real.sin_zero
  cos_zero := by rw [h.cosf_eq]; exact Real.cos_zero

theorem vec3_dot_self_pos (v : D3DXVECTOR3 ℝ) (hv : v ≠ ⟨0, 0, 0⟩) : 0 < D3DXVec3Dot v v := by
  have hnn : 0 ≤ D3DXVec3Dot v v := by
    simp only [D3DXVec3Dot]; nlinarith [mul_self_nonneg v.x, mul_self_nonneg v.y, mul_self_nonneg v.z]
  rcases hnn.lt_or_eq with h | h
  · exact h
  · exfalso
    apply hv
    simp only [D3DXVec3Dot] at h
    have hx : v.x = 0 := by nlinarith [mul_self_nonneg v.x, mul_self_nonneg v.y, mul_self_nonneg v.z]
    have hy : v.y = 0 := by nlinarith [mul_self_nonneg v.x, mul_self_nonneg v.y, mul_self_nonneg v.z]
    have hz : v.z = 0 := by nlinarith [mul_self_nonneg v.x, mul_self_nonneg v.y, mul_self_nonneg v.z]
    ext <;> assumption

/-- Over the reals a non-zero vector is normalised to itself divided by its length, which
is positive. -/
theorem real_normalize_eq (lm : Libm ℝ) (hs : lm.sqrtf = Real.sqrt) (v : D3DXVECTOR3 ℝ)
    (hv : v ≠ ⟨0, 0, 0⟩) :
    0 < D3DXVec3Length lm v ∧
    D3DXVec3Length lm v * D3DXVec3Length lm v = D3DXVec3Dot v v ∧
    D3DXVec3Normalize lm v =
      ⟨v.x / D3DXVec3Length lm v, v.y / D3DXVec3Length lm v, v.z / D3DXVec3Length lm v⟩ := by
  have hp := vec3_dot_self_pos v hv
  have hL : 0 < D3DXVec3Length lm v := by
    simp only [D3DXVec3Length, hs, vec3_lengthSq_eq_dot]; exact Real.sqrt_pos.mpr hp
  refine ⟨hL, ?_, ?_⟩
  · simp only [D3DXVec3Length, hs, vec3_lengthSq_eq_dot]
    exact Real.mul_self_sqrt hp.le
  · simp only [D3DXVec3Normalize, hL.ne', if_false]

theorem real_normalize_unit (lm : Libm ℝ) (hs : lm.sqrtf = Real.sqrt) (v : D3DXVECTOR3 ℝ)
    (hv : v ≠ ⟨0, 0, 0⟩) :
    D3DXVec3Dot (D3DXVec3Normalize lm v) (D3DXVec3Normalize lm v) = 1 := by
  obtain ⟨hL, hLL, e⟩ := real_normalize_eq lm hs v hv
  rw [e]
  simp only [D3DXVec3Dot] at hLL ⊢
  field_simp
  linarith

/-- The axes computed by `lookAt` for a non-degenerate request. -/
theorem lookAt_axes (lm : Libm ℝ) (hs : lm.sqrtf = Real.sqrt) (c : Camera ℝ)
    (eye target up : D3DXVECTOR3 ℝ)
    (hup : D3DXVec3Cross up (target.sub eye) ≠ ⟨0, 0, 0⟩) :
    (lookAtValues lm c eye target up).m_zAxis = D3DXVec3Normalize lm (target.sub eye) ∧
    (lookAtValues lm c eye target up).m_xAxis
      = D3DXVec3Normalize lm (D3DXVec3Cross up (D3DXVec3Normalize lm (target.sub eye))) ∧
    (lookAtValues lm c eye target up).m_yAxis
      = D3DXVec3Cross (lookAtValues lm c eye target up).m_zAxis (lookAtValues lm c eye target up).m_xAxis ∧
    D3DXVec3Dot (lookAtValues lm c eye target up).m_xAxis (lookAtValues lm c eye target up).m_xAxis = 1 ∧
    D3DXVec3Dot (lookAtValues lm c eye target up).m_zAxis (lookAtValues lm c eye target up).m_zAxis = 1 ∧
    D3DXVec3Dot (lookAtValues lm c eye target up).m_xAxis (lookAtValues lm c eye target up).m_zAxis = 0 := by
  have h1 : lm.sqrtf 1 = 1 := by rw [hs]; exact Real.sqrt_one
  have hd : target.sub eye ≠ ⟨0, 0, 0⟩ := by
    intro h0
    apply hup
    rw [h0]
    ext <;> simp [D3DXVec3Cross]
  obtain ⟨hL, hLL, ez⟩ := real_normalize_eq lm hs _ hd
  have hz := real_normalize_unit lm hs _ hd
  have hcz : D3DXVec3Cross up (D3DXVec3Normalize lm (target.sub eye)) ≠ ⟨0, 0, 0⟩ := by
    intro h0
    apply hup
    rw [ez] at h0
    have hx := congrArg D3DXVECTOR3.x h0
    have hy := congrArg D3DXVECTOR3.y h0
    have hzz := congrArg D3DXVECTOR3.z h0
    simp only [D3DXVec3Cross] at hx hy hzz ⊢
    field_simp at hx hy hzz
    ext <;> simp only <;> linarith
  have hx := real_normalize_unit lm hs _ hcz
  obtain ⟨hLx, _, ex⟩ := real_normalize_eq lm hs _ hcz
  have hxz : D3DXVec3Dot (D3DXVec3Normalize lm (D3DXVec3Cross up
      (D3DXVec3Normalize lm (target.sub eye)))) (D3DXVec3Normalize lm (target.sub eye)) = 0 := by
    have := vec3_dot_cross_right up (D3DXVec3Normalize lm (target.sub eye))
    rw [ex]
    simp only [D3DXVec3Dot] at this ⊢
    field_simp
    linarith
  have hy : D3DXVec3Normalize lm (D3DXVec3Cross (D3DXVec3Normalize lm (target.sub eye))
      (D3DXVec3Normalize lm (D3DXVec3Cross up (D3DXVec3Normalize lm (target.sub eye)))))
      = D3DXVec3Cross (D3DXVec3Normalize lm (target.sub eye))
      (D3DXVec3Normalize lm (D3DXVec3Cross up (D3DXVec3Normalize lm (target.sub eye)))) := by
    apply normalize_of_unit lm h1
    rw [vec3_lengthSq_eq_dot, vec3_cross_dot_cross, hz, hx, vec3_dot_comm, hxz]; ring
  have hxn := normalize_of_unit lm h1 _ hx
  simp only [lookAtValues, hy, hxn]
  exact ⟨trivial, trivial, trivial, hx, hz, hxz⟩

/-- The view matrix stored by `lookAt`, in terms of the axes it stores. -/
theorem lookAt_viewMatrix (lm : Libm α) (c : Camera α) (eye target up : D3DXVECTOR3 α) :
    (lookAtValues lm c eye target up).m_viewMatrix =
      { m00 := (lookAtValues lm c eye target up).m_xAxis.x
        m10 := (lookAtValues lm c eye target up).m_xAxis.y
        m20 := (lookAtValues lm c eye target up).m_xAxis.z
        m30 := -D3DXVec3Dot (lookAtValues lm c eye target up).m_xAxis eye
        m01 := (lookAtValues lm c eye target up).m_yAxis.x
        m11 := (lookAtValues lm c eye target up).m_yAxis.y
        m21 := (lookAtValues lm c eye target up).m_yAxis.z
        m31 := -D3DXVec3Dot (lookAtValues lm c eye target up).m_yAxis eye
        m02 := (lookAtValues lm c eye target up).m_zAxis.x
        m12 := (lookAtValues lm c eye target up).m_zAxis.y
        m22 := (lookAtValues lm c eye target up).m_zAxis.z
        m32 := -D3DXVec3Dot (lookAtValues lm c eye target up).m_zAxis eye
        m03 := 0, m13 := 0, m23 := 0, m33 := 1 } := rfl

/-- Normalising keeps a vector perpendicular to what it is perpendicular to. -/
theorem normalize_dot_zero (lm : Libm α) (v w : D3DXVECTOR3 α) (h : D3DXVec3Dot v w = 0) :
    D3DXVec3Dot (D3DXVec3Normalize lm v) w = 0 := by
  by_cases h0 : D3DXVec3Length lm v = 0
  · simp [D3DXVec3Normalize, h0, D3DXVec3Dot]
  · simp only [D3DXVec3Normalize, h0, if_false, D3DXVec3Dot] at h ⊢
    have e : v.x / D3DXVec3Length lm v * w.x + v.y / D3DXVec3Length lm v * w.y
        + v.z / D3DXVec3Length lm v * w.z
        = (v.x * w.x + v.y * w.y + v.z * w.z) / D3DXVec3Length lm v := by ring
    rw [e, h, zero_div]

/-- Whatever `up` is, the `xAxis` and `yAxis` left by `lookAt` are perpendicular to its
`zAxis`, the normalised direction from `eye` to `target`. -/
theorem lookAt_perp (lm : Libm α) (c : Camera α) (eye target up : D3DXVECTOR3 α) :
    (lookAtValues lm c eye target up).m_zAxis = D3DXVec3Normalize lm (target.sub eye) ∧
    D3DXVec3Dot (lookAtValues lm c eye target up).m_xAxis
      (lookAtValues lm c eye target up).m_zAxis = 0 ∧
    D3DXVec3Dot (lookAtValues lm c eye target up).m_yAxis
      (lookAtValues lm c eye target up).m_zAxis = 0 := by
  refine ⟨rfl, ?_, ?_⟩
  · show D3DXVec3Dot (D3DXVec3Normalize lm (D3DXVec3Normalize lm
      (D3DXVec3Cross up (D3DXVec3Normalize lm (target.sub eye)))))
      (D3DXVec3Normalize lm (target.sub eye)) = 0
    exact normalize_dot_zero lm _ _ (normalize_dot_zero lm _ _ (vec3_dot_cross_right _ _))
  · show D3DXVec3Dot (D3DXVec3Normalize lm (D3DXVec3Cross (D3DXVec3Normalize lm (target.sub eye))
      (D3DXVec3Normalize lm (D3DXVec3Cross up (D3DXVec3Normalize lm (target.sub eye))))))
      (D3DXVec3Normalize lm (target.sub eye)) = 0
    exact normalize_dot_zero lm _ _ (vec3_dot_cross_left _ _)

/-- With `eye` read unchanged and `target` given by value, `lookAt` is `lookAt` on values,
with for `up` the value the reference shows once position, `zAxis` and view direction are
assigned. -/
theorem lookAt_up_effective (lm : Libm α) (c : Camera α) (eye : VecRef α)
    (target : D3DXVECTOR3 α) (up : VecRef α) (he : stableEye eye) :
    lookAt lm c eye (.val target) up
      = lookAtValues lm c (eye.read c) target
          (up.read { c with
            m_eye := eye.read c
            m_zAxis := D3DXVec3Normalize lm (target.sub (eye.read c))
            m_viewDir := D3DXVec3Normalize lm (target.sub (eye.read c)) }) := by
  cases eye with
  | xAxis => exact absurd he id
  | yAxis => exact absurd he id
  | zAxis => exact absurd he id
  | viewDirection => exact absurd he id
  | _ => rfl

theorem lookAt_accum (lm : Libm α) (c : Camera α) (eye target up : D3DXVECTOR3 α) :
    (lookAtValues lm c eye target up).m_accumPitchDegrees
      = D3DXToDegree lm (-lm.asinf (lookAtValues lm c eye target up).m_zAxis.y) := rfl

theorem lookAt_eye (lm : Libm α) (c : Camera α) (eye target up : D3DXVECTOR3 α) :
    (lookAtValues lm c eye target up).m_eye = eye := rfl

theorem lookAt_viewDir (lm : Libm α) (c : Camera α) (eye target up : D3DXVECTOR3 α) :
    (lookAtValues lm c eye target up).m_viewDir = (lookAtValues lm c eye target up).m_zAxis := rfl

theorem vec3_cross_cross_right (x z : D3DXVECTOR3 α) (hx : D3DXVec3Dot x x = 1)
    (hxz : D3DXVec3Dot x z = 0) : D3DXVec3Cross x (D3DXVec3Cross z x) = z := by
  simp only [D3DXVec3Dot] at hx hxz
  ext <;> simp only [D3DXVec3Cross]
  · linear_combination z.x * hx - x.x * hxz
  · linear_combination z.y * hx - x.y * hxz
  · linear_combination z.z * hx - x.z * hxz

theorem rotAbout_worldY_y (s c : α) (v : D3DXVECTOR3 α) :
    (rotAbout WORLD_YAXIS s c v).y = v.y := by
  simp only [rotAbout, WORLD_YAXIS, D3DXVec3Dot, D3DXVec3Cross]; ring

theorem rotAbout_worldY_cross_y (s c : α) (hsc : s * s + c * c = 1) (z x : D3DXVECTOR3 α) :
    (D3DXVec3Cross (rotAbout WORLD_YAXIS s c z) (rotAbout WORLD_YAXIS s c x)).y
      = (D3DXVec3Cross z x).y := by
  simp only [rotAbout, WORLD_YAXIS, D3DXVec3Dot, D3DXVec3Cross]
  linear_combination (z.z * x.x - z.x * x.z) * hsc

theorem rotAbout_pitch_y (x z : D3DXVECTOR3 α) (s c : α)
    (hxz : D3DXVec3Dot x z = 0) :
    (rotAbout x s c z).y = c * z.y - s * (D3DXVec3Cross z x).y := by
  simp only [D3DXVec3Dot] at hxz
  simp only [rotAbout, D3DXVec3Dot, D3DXVec3Cross]
  linear_combination (1 - c) * x.y * hxz

theorem rotAbout_pitch_cross_y (x z : D3DXVECTOR3 α) (s c : α)
    (hx : D3DXVec3Dot x x = 1) (hxz : D3DXVec3Dot x z = 0) :
    (D3DXVec3Cross (rotAbout x s c z) x).y = c * (D3DXVec3Cross z x).y + s * z.y := by
  simp only [D3DXVec3Dot] at hx hxz
  simp only [rotAbout, D3DXVec3Dot, D3DXVec3Cross]
  linear_combination s * z.y * hx - s * x.y * hxz

theorem real_toRadian (lm : Libm ℝ) (hlm : LibmReal lm) (d : ℝ) :
    D3DXToRadian lm d = d * (Real.pi / 180) := by
  simp only [D3DXToRadian, hlm.pi_eq]

theorem real_cos_toRadian_nonneg (lm : Libm ℝ) (hlm : LibmReal lm) (d : ℝ) (hlo : -90 ≤ d)
    (hhi : d ≤ 90) : 0 ≤ Real.cos (D3DXToRadian lm d) := by
  rw [real_toRadian lm hlm]
  have hp := Real.pi_pos
  apply Real.cos_nonneg_of_neg_pi_div_two_le_of_le
  · nlinarith
  · nlinarith

/-- One `rotate` call keeps the first-person invariant. -/
theorem FPInv.rotate {lm : Libm ℝ} (hlm : LibmReal lm) {c : Camera ℝ} (h : FPInv lm c)
    (hd pd rd : ℝ) : FPInv lm (Camera.rotate lm c hd pd rd) := by
  have hs := hlm.sound
  obtain ⟨hx', hz', hxz'⟩ := rotateFirstPerson_pair lm hs c h.x_unit h.z_unit h.x_z hd pd
  obtain ⟨ex, ey, ez, _⟩ := updateViewMatrix_true_axes lm hs.sqrt_one _ hx' hz' hxz'
  have eacc : (Camera.rotate lm c hd pd rd).m_accumPitchDegrees
      = fpAccum c.m_accumPitchDegrees pd := by
    rw [rotate_firstPerson lm c hd pd rd h.behavior, updateViewMatrix_accum,
      rotateFirstPerson_eq lm hs c h.x_unit]
  have hrange : -90 ≤ fpAccum c.m_accumPitchDegrees pd ∧ fpAccum c.m_accumPitchDegrees pd ≤ 90 := by
    rw [fpAccum_eq]
    exact ⟨le_min (by norm_num) (le_max_left _ _), min_le_left _ _⟩
  have hH := hs.sin_sq_add_cos_sq (D3DXToRadian lm hd)
  have hY := rotAbout_dot (WORLD_YAXIS : D3DXVECTOR3 ℝ) _ _ worldY_unit hH
  have hx1 := (hY c.m_xAxis c.m_xAxis).trans h.x_unit
  have hx1z1 := (hY c.m_xAxis c.m_zAxis).trans h.x_z
  -- the angles
  have hang : D3DXToRadian lm (fpAccum c.m_accumPitchDegrees pd)
      = D3DXToRadian lm c.m_accumPitchDegrees
        + D3DXToRadian lm (fpPitch c.m_accumPitchDegrees pd) := by
    rw [fpPitch_eq]; simp only [D3DXToRadian]; ring
  have hyy : (D3DXVec3Cross c.m_zAxis c.m_xAxis).y
      = Real.cos (D3DXToRadian lm c.m_accumPitchDegrees) := by
    rw [← h.y_eq]; exact h.y_y
  -- the new axes
  have ezx : (rotateFirstPerson lm c hd pd).m_xAxis
      = rotAbout WORLD_YAXIS (lm.sinf (D3DXToRadian lm hd)) (lm.cosf (D3DXToRadian lm hd))
          c.m_xAxis := by
    rw [rotateFirstPerson_eq lm hs c h.x_unit]
  have ezz : (rotateFirstPerson lm c hd pd).m_zAxis
      = rotAbout (rotAbout WORLD_YAXIS (lm.sinf (D3DXToRadian lm hd))
          (lm.cosf (D3DXToRadian lm hd)) c.m_xAxis)
          (lm.sinf (D3DXToRadian lm (fpPitch c.m_accumPitchDegrees pd)))
          (lm.cosf (D3DXToRadian lm (fpPitch c.m_accumPitchDegrees pd)))
          (rotAbout WORLD_YAXIS (lm.sinf (D3DXToRadian lm hd)) (lm.cosf (D3DXToRadian lm hd))
            c.m_zAxis) := by
    rw [rotateFirstPerson_eq lm hs c h.x_unit]
  have hzy : (rotateFirstPerson lm c hd pd).m_zAxis.y
      = -Real.sin (D3DXToRadian lm (fpAccum c.m_accumPitchDegrees pd)) := by
    rw [ezz, rotAbout_pitch_y _ _ _ _ hx1z1, rotAbout_worldY_y, rotAbout_worldY_cross_y _ _ hH,
      hyy, h.z_y, hang, Real.sin_add, hlm.sinf_eq, hlm.cosf_eq]
    ring
  have hcy : (D3DXVec3Cross (rotateFirstPerson lm c hd pd).m_zAxis
      (rotateFirstPerson lm c hd pd).m_xAxis).y
      = Real.cos (D3DXToRadian lm (fpAccum c.m_accumPitchDegrees pd)) := by
    rw [ezz, ezx, rotAbout_pitch_cross_y _ _ _ _ hx1 hx1z1, rotAbout_worldY_y,
      rotAbout_worldY_cross_y _ _ hH, hyy, h.z_y, hang, Real.cos_add, hlm.sinf_eq, hlm.cosf_eq]
    ring
  rw [rotate_firstPerson lm c hd pd rd h.behavior] at eacc ⊢
  refine ⟨?_, ?_, ?_, ?_, ?_, ?_, ?_, ?_, ?_⟩
  · rw [updateViewMatrix_behavior, rotateFirstPerson_blocks]
    simp only [pitchBlock_behavior, fpHeading_behavior]
    exact h.behavior
  · rw [ex]; exact hx'
  · rw [ez]; exact hz'
  · rw [ex, ez]; exact hxz'
  · rw [ex, ey, ez]
  · rw [ez, eacc]; exact hzy
  · rw [ey, eacc]; exact hcy
  · rw [eacc]; exact hrange.1
  · rw [eacc]; exact hrange.2

theorem FPInv.rotateMany {lm : Libm ℝ} (hlm : LibmReal lm) (rs : List (ℝ × ℝ × ℝ)) :
    ∀ c : Camera ℝ, FPInv lm c → FPInv lm (Camera.rotateMany lm c rs) := by
  induction rs with
  | nil => intro c h; exact h
  | cons r rs ih =>
    intro c h
    simp only [Camera.rotateMany, List.foldl_cons]
    exact ih _ (h.rotate hlm _ _ _)

theorem FPInv.up_nonneg {lm : Libm ℝ} (hlm : LibmReal lm) {c : Camera ℝ} (h : FPInv lm c) :
    0 ≤ c.m_yAxis.y := by
  rw [h.y_y]
  exact real_cos_toRadian_nonneg lm hlm _ h.lo h.hi

theorem setBehavior_flight_to_firstPerson (lm : Libm α) (c : Camera α)
    (hb : c.m_behavior = CameraBehavior.CAMERA_BEHAVIOR_FLIGHT) :
    setBehavior lm c CameraBehavior.CAMERA_BEHAVIOR_FIRST_PERSON =
      { lookAtValues lm c c.m_eye (c.m_eye.add c.m_zAxis) WORLD_YAXIS with
        m_behavior := CameraBehavior.CAMERA_BEHAVIOR_FIRST_PERSON } := by
  simp only [setBehavior, hb, and_self, if_true]
  rfl

theorem vec3_add_sub_cancel (a b : D3DXVECTOR3 α) : (a.add b).sub a = b := by
  ext <;> simp [D3DXVECTOR3.add, D3DXVECTOR3.sub]

theorem real_accum_range (lm : Libm ℝ) (hlm : LibmReal lm) (t : ℝ) :
    -90 ≤ D3DXToDegree lm (-lm.asinf t) ∧ D3DXToDegree lm (-lm.asinf t) ≤ 90 := by
  simp only [D3DXToDegree, hlm.asinf_eq, hlm.pi_eq]
  have h1 := Real.arcsin_le_pi_div_two t
  have h2 := Real.neg_pi_div_two_le_arcsin t
  have hp := Real.pi_pos
  have hk : 0 < 180 / Real.pi := by positivity
  have e1 : -90 = -(Real.pi / 2) * (180 / Real.pi) := by field_simp; ring
  have e2 : 90 = (Real.pi / 2) * (180 / Real.pi) := by field_simp; ring
  constructor
  · rw [e1]; exact mul_le_mul_of_nonneg_right (by linarith) hk.le
  · rw [e2]; exact mul_le_mul_of_nonneg_right (by linarith) hk.le

/-- Switching a FLIGHT camera with unit, non-vertical `zAxis` to FIRST_PERSON establishes
the first-person invariant. -/
theorem FPInv.of_setBehavior {lm : Libm ℝ} (hlm : LibmReal lm) (c : Camera ℝ)
    (hb : c.m_behavior = CameraBehavior.CAMERA_BEHAVIOR_FLIGHT)
    (hz : D3DXVec3Dot c.m_zAxis c.m_zAxis = 1)
    (hv : D3DXVec3Cross WORLD_YAXIS c.m_zAxis ≠ ⟨0, 0, 0⟩) :
    FPInv lm (setBehavior lm c CameraBehavior.CAMERA_BEHAVIOR_FIRST_PERSON) := by
  have h1 : lm.sqrtf 1 = 1 := hlm.sound.sqrt_one
  rw [setBehavior_flight_to_firstPerson lm c hb]
  have hup : D3DXVec3Cross WORLD_YAXIS ((c.m_eye.add c.m_zAxis).sub c.m_eye) ≠ ⟨0, 0, 0⟩ := by
    rw [vec3_add_sub_cancel]; exact hv
  obtain ⟨ez, ex, ey, hx', hz', hxz'⟩ :=
    lookAt_axes lm hlm.sqrtf_eq c c.m_eye (c.m_eye.add c.m_zAxis) WORLD_YAXIS hup
  have eacc := lookAt_accum lm c c.m_eye (c.m_eye.add c.m_zAxis) WORLD_YAXIS
  rw [vec3_add_sub_cancel, normalize_of_unit lm h1 _ hz] at ez ex
  obtain ⟨hL, hLL, en⟩ := real_normalize_eq lm hlm.sqrtf_eq _ hv
  have hzy1 : -1 ≤ c.m_zAxis.y ∧ c.m_zAxis.y ≤ 1 := by
    simp only [D3DXVec3Dot] at hz
    constructor <;> nlinarith [mul_self_nonneg c.m_zAxis.x, mul_self_nonneg c.m_zAxis.z]
  have hrad : D3DXToRadian lm (D3DXToDegree lm (-lm.asinf c.m_zAxis.y))
      = -Real.arcsin c.m_zAxis.y := by
    simp only [D3DXToRadian, D3DXToDegree, hlm.asinf_eq, hlm.pi_eq]
    have hp := Real.pi_pos
    field_simp
    ring
  have hLsq : D3DXVec3Length lm (D3DXVec3Cross WORLD_YAXIS c.m_zAxis)
      = Real.sqrt (1 - c.m_zAxis.y ^ 2) := by
    simp only [D3DXVec3Length, hlm.sqrtf_eq, D3DXVec3LengthSq, D3DXVec3Cross, WORLD_YAXIS]
    congr 1
    simp only [D3DXVec3Dot] at hz
    linear_combination hz
  refine ⟨rfl, hx', hz', hxz', ey, ?_, ?_, ?_, ?_⟩
  · show (lookAtValues lm c c.m_eye (c.m_eye.add c.m_zAxis) WORLD_YAXIS).m_zAxis.y
      = -Real.sin (D3DXToRadian lm
          (lookAtValues lm c c.m_eye (c.m_eye.add c.m_zAxis) WORLD_YAXIS).m_accumPitchDegrees)
    rw [eacc, ez, hrad, Real.sin_neg, Real.sin_arcsin hzy1.1 hzy1.2, neg_neg]
  · show (lookAtValues lm c c.m_eye (c.m_eye.add c.m_zAxis) WORLD_YAXIS).m_yAxis.y
      = Real.cos (D3DXToRadian lm
          (lookAtValues lm c c.m_eye (c.m_eye.add c.m_zAxis) WORLD_YAXIS).m_accumPitchDegrees)
    rw [eacc, ey, ex, ez, hrad, Real.cos_neg, Real.cos_arcsin, ← hLsq, en]
    have hLL' : D3DXVec3Length lm (D3DXVec3Cross WORLD_YAXIS c.m_zAxis)
        * D3DXVec3Length lm (D3DXVec3Cross WORLD_YAXIS c.m_zAxis)
        = c.m_zAxis.z * c.m_zAxis.z + c.m_zAxis.x * c.m_zAxis.x := by
      rw [hLL]; simp only [D3DXVec3Dot, D3DXVec3Cross, WORLD_YAXIS]; ring
    generalize D3DXVec3Length lm (D3DXVec3Cross WORLD_YAXIS c.m_zAxis) = L at hL hLL' ⊢
    simp only [D3DXVec3Cross, WORLD_YAXIS]
    field_simp
    linear_combination -hLL'
  · show -90 ≤ (lookAtValues lm c c.m_eye (c.m_eye.add c.m_zAxis) WORLD_YAXIS).m_accumPitchDegrees
    rw [eacc]; exact (real_accum_range lm hlm _).1
  · show (lookAtValues lm c c.m_eye (c.m_eye.add c.m_zAxis) WORLD_YAXIS).m_accumPitchDegrees ≤ 90
    rw [eacc]; exact (real_accum_range lm hlm _).2

theorem viewCurrent_new : ViewCurrent (new : Camera α) := by
  simp [ViewCurrent, new, D3DXMatrixIdentity, D3DXVec3Dot]

theorem viewCurrent_updateViewMatrix (lm : Libm α) (c : Camera α) (b : Bool) :
    ViewCurrent (updateViewMatrix lm c b) := by
  cases b <;> rfl

theorem viewCurrent_lookAt (lm : Libm α) (c : Camera α) (eye target up : D3DXVECTOR3 α) :
    ViewCurrent (lookAtValues lm c eye target up) := rfl

theorem viewCurrent_step (lm : Libm α) (c : Camera α) (h : ViewCurrent c) (op : Op α)
    (hop : eyeStable c op) : ViewCurrent (step lm c op) := by
  cases op with
  | lookAtTarget target => exact rfl
  | lookAt eye target up =>
    cases eye with
    | val v => exact rfl
    | position => exact rfl
    | xAxis => exact absurd hop id
    | yAxis => exact absurd hop id
    | zAxis => exact absurd hop id
    | viewDirection => exact absurd hop id
    | acceleration => exact rfl
    | currentVelocity => exact rfl
    | velocity => exact rfl
  | move dx dy dz => exact viewCurrent_updateViewMatrix lm _ _
  | moveDir direction amount => exact viewCurrent_updateViewMatrix lm _ _
  | perspective fovx aspect znear zfar => exact h
  | rotate hd pd rd => exact viewCurrent_updateViewMatrix lm _ _
  | rotateSmoothly hd pd rd => exact viewCurrent_updateViewMatrix lm _ _
  | updatePosition direction dt =>
    show ViewCurrent (updatePosition lm c direction dt)
    unfold updatePosition
    by_cases hv : D3DXVec3LengthSq c.m_currentVelocity ≠ 0
    · rw [if_pos hv]
      exact viewCurrent_updateViewMatrix lm _ _
    · rw [if_neg hv]
      exact h
  | setAcceleration a => exact h
  | setAcceleration3 x y z => exact h
  | setBehavior b =>
    show ViewCurrent (setBehavior lm c b)
    unfold setBehavior
    by_cases hv : c.m_behavior = CameraBehavior.CAMERA_BEHAVIOR_FLIGHT
        ∧ b = CameraBehavior.CAMERA_BEHAVIOR_FIRST_PERSON
    · rw [if_pos hv]
      exact viewCurrent_lookAt lm c _ _ _
    · rw [if_neg hv]
      exact h
  | setCurrentVelocity v => exact h
  | setCurrentVelocity3 x y z => exact h
  | setPosition eye => exact viewCurrent_updateViewMatrix lm _ _
  | setPosition3 x y z => exact viewCurrent_updateViewMatrix lm _ _
  | setRotationSpeed s => exact h
  | setVelocity v => exact h
  | setVelocity3 x y z => exact h

theorem viewCurrent_foldl (lm : Libm α) (ops : List (Op α)) :
    ∀ c : Camera α, ViewCurrent c → eachOp lm eyeStable c ops →
      ViewCurrent (ops.foldl (step lm) c) := by
  induction ops with
  | nil => intro c h _; exact h
  | cons op ops ih => intro c h hok; exact ih _ (viewCurrent_step lm c h op hok.1) hok.2

/-- The two scale entries built by `perspective`, over the reals. -/
theorem real_perspective_scales (lm : Libm ℝ) (hlm : LibmReal lm) (c : Camera ℝ)
    (fovx aspect znear zfar : ℝ) :
    (perspective lm c fovx aspect znear zfar).m_projMatrix.m00
      = aspect / Real.tan (D3DXToRadian lm fovx / 2) ∧
    (perspective lm c fovx aspect znear zfar).m_projMatrix.m11
      = aspect * aspect / Real.tan (D3DXToRadian lm fovx / 2) := by
  have e : Real.tan (1 / 2 * (2 * Real.arctan (1 / aspect / (1 / Real.tan (D3DXToRadian lm fovx / 2)))))
      = 1 / aspect / (1 / Real.tan (D3DXToRadian lm fovx / 2)) := by
    rw [show (1 : ℝ) / 2 * (2 * Real.arctan (1 / aspect / (1 / Real.tan (D3DXToRadian lm fovx / 2))))
      = Real.arctan (1 / aspect / (1 / Real.tan (D3DXToRadian lm fovx / 2))) by ring]
    exact Real.tan_arctan _
  simp only [perspective, hlm.tanf_eq, hlm.atanf_eq, e]
  constructor
  · simp only [one_div, div_inv_eq_mul, mul_inv_rev, inv_inv]; ring
  · simp only [one_div, div_inv_eq_mul, mul_inv_rev, inv_inv]; ring

theorem viewDirIsZ_new : ViewDirIsZ (new : Camera α) := rfl

theorem viewDirIsZ_updateViewMatrix (lm : Libm α) (c : Camera α) (b : Bool)
    (h : ViewDirIsZ c) : ViewDirIsZ (updateViewMatrix lm c b) := by
  cases b
  · exact h
  · rfl

theorem viewDirIsZ_updateViewMatrix_true (lm : Libm α) (c : Camera α) :
    ViewDirIsZ (updateViewMatrix lm c true) := rfl

theorem viewDirIsZ_lookAt (lm : Libm α) (c : Camera α) (eye target up : D3DXVECTOR3 α) :
    ViewDirIsZ (lookAtValues lm c eye target up) := rfl

theorem viewDirIsZ_step (lm : Libm α) (c : Camera α) (h : ViewDirIsZ c) (op : Op α) :
    ViewDirIsZ (step lm c op) := by
  cases op with
  | lookAtTarget target => exact rfl
  | lookAt eye target up => exact rfl
  | move dx dy dz => exact viewDirIsZ_updateViewMatrix lm _ _ h
  | moveDir direction amount => exact viewDirIsZ_updateViewMatrix lm _ _ h
  | perspective fovx aspect znear zfar => exact h
  | rotate hd pd rd => exact viewDirIsZ_updateViewMatrix_true lm _
  | rotateSmoothly hd pd rd => exact viewDirIsZ_updateViewMatrix_true lm _
  | updatePosition direction dt =>
    show ViewDirIsZ (updatePosition lm c direction dt)
    unfold updatePosition
    by_cases hv : D3DXVec3LengthSq c.m_currentVelocity ≠ 0
    · rw [if_pos hv]
      exact viewDirIsZ_updateViewMatrix lm _ _ h
    · rw [if_neg hv]
      exact h
  | setAcceleration a => exact h
  | setAcceleration3 x y z => exact h
  | setBehavior b =>
    show ViewDirIsZ (setBehavior lm c b)
    unfold setBehavior
    by_cases hv : c.m_behavior = CameraBehavior.CAMERA_BEHAVIOR_FLIGHT
        ∧ b = CameraBehavior.CAMERA_BEHAVIOR_FIRST_PERSON
    · rw [if_pos hv]
      rfl
    · rw [if_neg hv]
      exact h
  | setCurrentVelocity v => exact h
  | setCurrentVelocity3 x y z => exact h
  | setPosition eye => exact viewDirIsZ_updateViewMatrix lm _ _ h
  | setPosition3 x y z => exact viewDirIsZ_updateViewMatrix lm _ _ h
  | setRotationSpeed s => exact h
  | setVelocity v => exact h
  | setVelocity3 x y z => exact h

theorem viewDirIsZ_foldl (lm : Libm α) (ops : List (Op α)) :
    ∀ c : Camera α, ViewDirIsZ c → ViewDirIsZ (ops.foldl (step lm) c) := by
  induction ops with
  | nil => intro c h; exact h
  | cons op ops ih => intro c h; exact ih _ (viewDirIsZ_step lm c h op)

theorem viewDirIsZ_run (lm : Libm α) (ops : List (Op α)) : ViewDirIsZ (run lm ops) :=
  viewDirIsZ_foldl lm ops new viewDirIsZ_new

@[simp] theorem updateViewMatrix_eye (lm : Libm α) (c : Camera α) (b : Bool) :
    (updateViewMatrix lm c b).m_eye = c.m_eye := by
  cases b <;> rfl

/-- The position left by `move(dx, dy, dz)`. -/
theorem move_eye (lm : Libm α) (c : Camera α) (dx dy dz : α) :
    (move lm c dx dy dz).m_eye
      = ((c.m_eye.add (c.m_xAxis.scale dx)).add ((WORLD_YAXIS : D3DXVECTOR3 α).scale dy)).add
          ((moveForwards lm c).scale dz) := rfl

theorem updateVelocity_eye (c : Camera α) (direction : D3DXVECTOR3 α) (dt : α) :
    (updateVelocity c direction dt).m_eye = c.m_eye := rfl

/-- The position left by `updatePosition`: unchanged when the squared speed is zero, else
that of `move` by the physics displacement, for the direction the reference shows at the
call. -/
theorem updatePosition_eye (lm : Libm α) (c : Camera α) (direction : VecRef α) (dt : α) :
    (updatePosition lm c direction dt).m_eye
      = if D3DXVec3LengthSq c.m_currentVelocity ≠ 0 then
          (move lm c (physicsDisplacement c (direction.read c) dt).x
            (physicsDisplacement c (direction.read c) dt).y
            (physicsDisplacement c (direction.read c) dt).z).m_eye
        else c.m_eye := by
  unfold updatePosition
  by_cases hv : D3DXVec3LengthSq c.m_currentVelocity ≠ 0
  · rw [if_pos hv, if_pos hv]
    rfl
  · rw [if_neg hv, if_neg hv]
    rfl

/-- A `direction` read unchanged may be replaced by the value it shows at the call. -/
theorem updatePosition_of_stable (lm : Libm α) (c : Camera α) (direction : VecRef α) (dt : α)
    (hd : stableDirection direction) :
    updatePosition lm c direction dt = updatePosition lm c (.val (direction.read c)) dt := by
  cases direction with
  | position => exact absurd hd id
  | val v => rfl
  | _ =>
    unfold updatePosition
    by_cases hv : D3DXVec3LengthSq c.m_currentVelocity ≠ 0
    · simp only [if_pos hv]
      rfl
    · simp only [if_neg hv]
      rfl

/-- The members that `updatePosition` leaves as they are. -/
theorem updatePosition_kept (lm : Libm α) (c : Camera α) (direction : VecRef α) (dt : α) :
    (updatePosition lm c direction dt).m_xAxis = c.m_xAxis ∧
    (updatePosition lm c direction dt).m_yAxis = c.m_yAxis ∧
    (updatePosition lm c direction dt).m_zAxis = c.m_zAxis ∧
    (updatePosition lm c direction dt).m_viewDir = c.m_viewDir ∧
    (updatePosition lm c direction dt).m_acceleration = c.m_acceleration ∧
    (updatePosition lm c direction dt).m_velocity = c.m_velocity := by
  unfold updatePosition
  by_cases hv : D3DXVec3LengthSq c.m_currentVelocity ≠ 0
  · simp only [if_pos hv]
    exact ⟨rfl, rfl, rfl, rfl, rfl, rfl⟩
  · simp only [if_neg hv]
    exact ⟨rfl, rfl, rfl, rfl, rfl, rfl⟩

theorem vec3_lengthSq_eq_zero_iff (v : D3DXVECTOR3 α) :
    D3DXVec3LengthSq v = 0 ↔ v = ⟨0, 0, 0⟩ := by
  constructor
  · intro h
    simp only [D3DXVec3LengthSq] at h
    have hx : v.x = 0 := by
      nlinarith [mul_self_nonneg v.x, mul_self_nonneg v.y, mul_self_nonneg v.z]
    have hy : v.y = 0 := by
      nlinarith [mul_self_nonneg v.x, mul_self_nonneg v.y, mul_self_nonneg v.z]
    have hz : v.z = 0 := by
      nlinarith [mul_self_nonneg v.x, mul_self_nonneg v.y, mul_self_nonneg v.z]
    ext <;> assumption
  · intro h
    rw [h]
    simp [D3DXVec3LengthSq]

theorem updateVelocityAxis_eq_rule (v i a vmax dt : α) (hvmax : 0 ≤ vmax) :
    updateVelocityAxis v i a vmax dt = velocityRule v i a vmax dt := by
  unfold updateVelocityAxis velocityRule
  by_cases hi : i ≠ 0
  · rw [if_pos hi, if_pos hi]
    simp only [gt_iff_lt]
    by_cases h1 : vmax < v + i * a * dt
    · rw [if_pos h1, max_eq_right (by linarith), min_eq_left h1.le]
    · rw [if_neg h1]
      push_neg at h1
      by_cases h2 : v + i * a * dt < -vmax
      · rw [if_pos h2, max_eq_left h2.le, min_eq_right (by linarith)]
      · rw [if_neg h2]
        push_neg at h2
        rw [max_eq_right h2, min_eq_right h1]
  · rw [if_neg hi, if_neg hi]
    simp only [gt_iff_lt]
    by_cases hv : 0 < v
    · rw [if_pos hv, if_pos hv]
      by_cases h1 : v - a * dt < 0
      · rw [if_pos h1, max_eq_right h1.le]
      · rw [if_neg h1]
        push_neg at h1
        rw [max_eq_left h1]
    · rw [if_neg hv, if_neg hv]
      by_cases h1 : 0 < v + a * dt
      · rw [if_pos h1, min_eq_right h1.le]
      · rw [if_neg h1]
        push_neg at h1
        rw [min_eq_left h1]

theorem lookAt_idem (lm : Libm α) (c : Camera α) (eye target up : D3DXVECTOR3 α) :
    lookAtValues lm (lookAtValues lm c eye target up) eye target up = lookAtValues lm c eye target up := rfl

/-- The axes left by the re-levelling `lookAt(position, position + zAxis, worldUp)` on a unit
`zAxis`. -/
theorem relevel_axes (lm : Libm α) (h1 : lm.sqrtf 1 = 1) (c : Camera α)
    (hz : D3DXVec3Dot c.m_zAxis c.m_zAxis = 1) :
    (lookAtValues lm c c.m_eye (c.m_eye.add c.m_zAxis) WORLD_YAXIS).m_zAxis = c.m_zAxis ∧
    (lookAtValues lm c c.m_eye (c.m_eye.add c.m_zAxis) WORLD_YAXIS).m_xAxis.y = 0 := by
  have ez : D3DXVec3Normalize lm ((c.m_eye.add c.m_zAxis).sub c.m_eye) = c.m_zAxis := by
    rw [vec3_add_sub_cancel]; exact normalize_of_unit lm h1 _ hz
  constructor
  · exact ez
  · show (D3DXVec3Normalize lm (D3DXVec3Normalize lm (D3DXVec3Cross WORLD_YAXIS
      (D3DXVec3Normalize lm ((c.m_eye.add c.m_zAxis).sub c.m_eye))))).y = 0
    rw [ez]
    have hn : ∀ v : D3DXVECTOR3 α, v.y = 0 → (D3DXVec3Normalize lm v).y = 0 := by
      intro v hv
      unfold D3DXVec3Normalize
      by_cases h0 : D3DXVec3Length lm v = 0
      · simp only [h0, if_true]
      · simp only [h0, if_false, hv, zero_div]
    apply hn
    apply hn
    simp [D3DXVec3Cross, WORLD_YAXIS]

theorem updatePosition_velocity_fields (lm : Libm α) (c : Camera α) (direction : VecRef α)
    (dt : α) (hd : stableDirection direction) :
    (updatePosition lm c direction dt).m_currentVelocity
        = (updateVelocity c (direction.read c) dt).m_currentVelocity ∧
    (updatePosition lm c direction dt).m_acceleration = c.m_acceleration ∧
    (updatePosition lm c direction dt).m_velocity = c.m_velocity := by
  rw [updatePosition_of_stable lm c direction dt hd]
  unfold updatePosition
  by_cases hv : D3DXVec3LengthSq c.m_currentVelocity ≠ 0
  · rw [if_pos hv]; exact ⟨rfl, rfl, rfl⟩
  · rw [if_neg hv]; exact ⟨rfl, rfl, rfl⟩

/-- One deceleration step (no intent) from `max w 0` gives `max (w - a*dt) 0`. -/
theorem updateVelocityAxis_decel (w a vmax dt : α) (had : 0 < a * dt) :
    updateVelocityAxis (max w 0) 0 a vmax dt = max (w - a * dt) 0 := by
  unfold updateVelocityAxis
  rw [if_neg (by simp)]
  simp only [gt_iff_lt]
  by_cases hw : 0 < w
  · rw [max_eq_left hw.le, if_pos hw]
    by_cases h1 : w - a * dt < 0
    · rw [if_pos h1, max_eq_right h1.le]
    · rw [if_neg h1]
      push_neg at h1
      rw [max_eq_left h1]
  · push_neg at hw
    rw [max_eq_right hw, if_neg (lt_irrefl 0), zero_add, if_pos had, max_eq_right (by linarith)]

theorem updateVelocityTimes_decel (c : Camera α) (direction : D3DXVECTOR3 α) (dt : α)
    (hd : direction.x = 0) (hv : 0 ≤ c.m_currentVelocity.x)
    (had : 0 < c.m_acceleration.x * dt) (n : Nat) :
    (updateVelocityTimes c direction dt n).m_acceleration = c.m_acceleration ∧
    (updateVelocityTimes c direction dt n).m_currentVelocity.x
      = max (c.m_currentVelocity.x - n * c.m_acceleration.x * dt) 0 := by
  induction n with
  | zero =>
    refine ⟨rfl, ?_⟩
    show c.m_currentVelocity.x = _
    simp only [Nat.cast_zero, zero_mul, sub_zero, max_eq_left hv]
  | succ n ih =>
    refine ⟨ih.1, ?_⟩
    show updateVelocityAxis (updateVelocityTimes c direction dt n).m_currentVelocity.x direction.x
      (updateVelocityTimes c direction dt n).m_acceleration.x
      (updateVelocityTimes c direction dt n).m_velocity.x dt = _
    rw [ih.2, ih.1, hd, updateVelocityAxis_decel _ _ _ _ had]
    congr 1
    push_cast
    ring

theorem updatePositionTimes_decel (lm : Libm α) (c : Camera α) (direction : D3DXVECTOR3 α)
    (dt : α) (hd : direction.x = 0) (hv : 0 ≤ c.m_currentVelocity.x)
    (had : 0 < c.m_acceleration.x * dt) (n : Nat) :
    (updatePositionTimes lm c (.val direction) dt n).m_acceleration = c.m_acceleration ∧
    (updatePositionTimes lm c (.val direction) dt n).m_currentVelocity.x
      = max (c.m_currentVelocity.x - n * c.m_acceleration.x * dt) 0 := by
  induction n with
  | zero =>
    refine ⟨rfl, ?_⟩
    show c.m_currentVelocity.x = _
    simp only [Nat.cast_zero, zero_mul, sub_zero, max_eq_left hv]
  | succ n ih =>
    obtain ⟨e1, e2, _⟩ := updatePosition_velocity_fields lm
      (updatePositionTimes lm c (.val direction) dt n) (.val direction) dt trivial
    refine ⟨e2.trans ih.1, ?_⟩
    show (updatePosition lm (updatePositionTimes lm c (.val direction) dt n) (.val direction)
      dt).m_currentVelocity.x = _
    rw [e1]
    show updateVelocityAxis (updatePositionTimes lm c (.val direction) dt n).m_currentVelocity.x
      direction.x (updatePositionTimes lm c (.val direction) dt n).m_acceleration.x
      (updatePositionTimes lm c (.val direction) dt n).m_velocity.x dt = _
    rw [ih.2, ih.1, hd, updateVelocityAxis_decel _ _ _ _ had]
    congr 1
    push_cast
    ring

/-- A reference to a member that `updatePosition` leaves as it is. -/
theorem read_updatePosition (lm : Libm α) (c : Camera α) (direction : VecRef α) (dt : α)
    (hp : direction ≠ .position) (hc : direction ≠ .currentVelocity) (r : VecRef α) :
    direction.read (updatePosition lm c r dt) = direction.read c := by
  obtain ⟨k1, k2, k3, k4, k5, k6⟩ := updatePosition_kept lm c r dt
  cases direction with
  | position => exact absurd rfl hp
  | currentVelocity => exact absurd rfl hc
  | val v => rfl
  | xAxis => exact k1
  | yAxis => exact k2
  | zAxis => exact k3
  | viewDirection => exact k4
  | acceleration => exact k5
  | velocity => exact k6

/-- Successive `updatePosition` calls with a reference to a member that they leave as it is
are the calls with the vector it shows at the first call. -/
theorem updatePositionTimes_read (lm : Libm α) (c : Camera α) (direction : VecRef α) (dt : α)
    (hp : direction ≠ .position) (hc : direction ≠ .currentVelocity) (n : Nat) :
    updatePositionTimes lm c direction dt n
        = updatePositionTimes lm c (.val (direction.read c)) dt n ∧
    direction.read (updatePositionTimes lm c direction dt n) = direction.read c := by
  have hs : stableDirection direction := by
    cases direction with
    | position => exact absurd rfl hp
    | _ => exact trivial
  induction n with
  | zero => exact ⟨rfl, rfl⟩
  | succ n ih =>
    obtain ⟨i1, i2⟩ := ih
    constructor
    · show updatePosition lm (updatePositionTimes lm c direction dt n) direction dt
        = updatePosition lm (updatePositionTimes lm c (.val (direction.read c)) dt n)
            (.val (direction.read c)) dt
      rw [updatePosition_of_stable lm _ direction dt hs, i2, i1]
    · show direction.read (updatePosition lm (updatePositionTimes lm c direction dt n)
        direction dt) = direction.read c
      rw [read_updatePosition lm _ direction dt hp hc, i2]

theorem normalize_y_zero (lm : Libm α) (v : D3DXVECTOR3 α) (hv : v.y = 0) :
    (D3DXVec3Normalize lm v).y = 0 := by
  unfold D3DXVec3Normalize
  by_cases h0 : D3DXVec3Length lm v = 0
  · simp only [h0, if_true]
  · simp only [h0, if_false, hv, zero_div]

@[simp] theorem pitchBlock_eye (lm : Libm α) (c : Camera α) (θ : α) :
    (pitchBlock lm c θ).m_eye = c.m_eye := by
  unfold pitchBlock; split_ifs <;> rfl

@[simp] theorem fpHeading_eye (lm : Libm α) (c : Camera α) (θ : α) :
    (fpHeading lm c θ).m_eye = c.m_eye := by
  unfold fpHeading; split_ifs <;> rfl

theorem rotate_firstPerson_eye (lm : Libm α) (c : Camera α) (hd pd rd : α)
    (hb : c.m_behavior = CameraBehavior.CAMERA_BEHAVIOR_FIRST_PERSON) :
    (rotate lm c hd pd rd).m_eye = c.m_eye := by
  simp [rotate_firstPerson lm c hd pd rd hb, rotateFirstPerson_blocks]

/-- In first person `move(dx, 0, dz)` keeps the height when `xAxis` is level. -/
theorem move_firstPerson_height (lm : Libm α) (c : Camera α) (dx dz : α)
    (hb : c.m_behavior = CameraBehavior.CAMERA_BEHAVIOR_FIRST_PERSON)
    (hxy : c.m_xAxis.y = 0) : (move lm c dx 0 dz).m_eye.y = c.m_eye.y := by
  have hf : (moveForwards lm c).y = 0 := by
    simp only [moveForwards, hb, if_true]
    apply normalize_y_zero
    simp [D3DXVec3Cross, WORLD_YAXIS]
  rw [move_eye]
  simp [D3DXVECTOR3.add, D3DXVECTOR3.scale, hxy, hf]

theorem FPInv.move {lm : Libm ℝ} {c : Camera ℝ} (h : FPInv lm c) (dx dy dz : ℝ) :
    FPInv lm (Camera.move lm c dx dy dz) :=
  ⟨h.behavior, h.x_unit, h.z_unit, h.x_z, h.y_eq, h.z_y, h.y_y, h.lo, h.hi⟩

/-- In first person `rotate` keeps the y-component of `xAxis`. -/
theorem FPInv.rotate_xAxis_y {lm : Libm ℝ} (hlm : LibmReal lm) {c : Camera ℝ} (h : FPInv lm c)
    (hd pd rd : ℝ) : (Camera.rotate lm c hd pd rd).m_xAxis.y = c.m_xAxis.y := by
  have hs := hlm.sound
  obtain ⟨hx', hz', hxz'⟩ := rotateFirstPerson_pair lm hs c h.x_unit h.z_unit h.x_z hd pd
  obtain ⟨ex, _, _, _⟩ := updateViewMatrix_true_axes lm hs.sqrt_one _ hx' hz' hxz'
  rw [rotate_firstPerson lm c hd pd rd h.behavior, ex, rotateFirstPerson_eq lm hs c h.x_unit]
  exact rotAbout_worldY_y _ _ _

/-- A first-person walk keeps the invariant, a level `xAxis` and the height. -/
theorem ground_walk {lm : Libm ℝ} (hlm : LibmReal lm) (calls : List (GroundCall ℝ)) :
    ∀ c : Camera ℝ, FPInv lm c → c.m_xAxis.y = 0 →
      (calls.foldl (groundStep lm) c).m_eye.y = c.m_eye.y := by
  induction calls with
  | nil => intro c _ _; rfl
  | cons call calls ih =>
    intro c h hxy
    rw [List.foldl_cons]
    cases call with
    | rotate hd pd rd =>
      have e := ih (Camera.rotate lm c hd pd rd) (h.rotate hlm hd pd rd)
        ((h.rotate_xAxis_y hlm hd pd rd).trans hxy)
      exact e.trans (congrArg D3DXVECTOR3.y (rotate_firstPerson_eye lm c hd pd rd h.behavior))
    | move dx dz =>
      have e := ih (Camera.move lm c dx 0 dz) (h.move dx 0 dz) hxy
      exact e.trans (move_firstPerson_height lm c dx dz h.behavior hxy)

/-- The handedness stored by `CalcTangentVector`. -/
theorem calcTangentVector_w (lm : Libm α) (pos1 pos2 pos3 : D3DXVECTOR3 α)
    (tc1 tc2 tc3 : D3DXVECTOR2 α) (normal : D3DXVECTOR3 α) (tangent : D3DXVECTOR4 α) :
    (CalcTangentVector lm pos1 pos2 pos3 tc1 tc2 tc3 normal tangent).w
      = if D3DXVec3Dot
            (D3DXVec3Cross normal (xyz (CalcTangentVector lm pos1 pos2 pos3 tc1 tc2 tc3 normal
              tangent)))
            (routineBitangent lm pos1 pos2 pos3 tc1 tc2 tc3) < 0 then -1 else 1 := rfl

/-- The result of `CalcTangentVector` in the degenerate branch. -/
theorem calcTangentVector_degenerate (lm : Libm α) (pos1 pos2 pos3 : D3DXVECTOR3 α)
    (tc1 tc2 tc3 : D3DXVECTOR2 α) (normal : D3DXVECTOR3 α) (tangent : D3DXVECTOR4 α)
    (hdet : |texDet (tangentTexEdge lm tc1 tc2) (tangentTexEdge lm tc1 tc3)| < 8796093 / 8796093022208) :
    CalcTangentVector lm pos1 pos2 pos3 tc1 tc2 tc3 normal tangent
      = ⟨1, 0, 0, if normal.z < 0 then -1 else 1⟩ ∧
    routineBitangent lm pos1 pos2 pos3 tc1 tc2 tc3 = ⟨0, 1, 0⟩ := by
  have hdet2 : |(D3DXVec2Normalize lm (tc2.sub tc1)).x * (D3DXVec2Normalize lm (tc3.sub tc1)).y
      - (D3DXVec2Normalize lm (tc2.sub tc1)).y * (D3DXVec2Normalize lm (tc3.sub tc1)).x|
      < 8796093 / 8796093022208 := hdet
  constructor
  · simp only [CalcTangentVector, fabsf_eq_abs, if_pos hdet2]
    simp [D3DXVec3Cross, D3DXVec3Dot]
  · simp only [routineBitangent, fabsf_eq_abs, if_pos hdet]

theorem projCurrent_perspective (lm : Libm α) (c : Camera α) (fovx aspect znear zfar : α) :
    ProjCurrent lm (perspective lm c fovx aspect znear zfar) := rfl

theorem projCurrent_updateViewMatrix (lm : Libm α) (c : Camera α) (b : Bool)
    (h : ProjCurrent lm c) : ProjCurrent lm (updateViewMatrix lm c b) := by
  cases b <;> exact h

theorem projCurrent_pitchBlock (lm : Libm α) (c : Camera α) (θ : α) (h : ProjCurrent lm c) :
    ProjCurrent lm (pitchBlock lm c θ) := by
  unfold pitchBlock; split_ifs <;> exact h

theorem projCurrent_fpHeading (lm : Libm α) (c : Camera α) (θ : α) (h : ProjCurrent lm c) :
    ProjCurrent lm (fpHeading lm c θ) := by
  unfold fpHeading; split_ifs <;> exact h

theorem projCurrent_flightHeading (lm : Libm α) (c : Camera α) (θ : α) (h : ProjCurrent lm c) :
    ProjCurrent lm (flightHeading lm c θ) := by
  unfold flightHeading; split_ifs <;> exact h

theorem projCurrent_flightRoll (lm : Libm α) (c : Camera α) (θ : α) (h : ProjCurrent lm c) :
    ProjCurrent lm (flightRoll lm c θ) := by
  unfold flightRoll; split_ifs <;> exact h

theorem projCurrent_rotate (lm : Libm α) (c : Camera α) (hd pd rd : α) (h : ProjCurrent lm c) :
    ProjCurrent lm (rotate lm c hd pd rd) := by
  cases hb : c.m_behavior with
  | CAMERA_BEHAVIOR_FIRST_PERSON =>
    rw [rotate_firstPerson lm c hd pd rd hb, rotateFirstPerson_blocks]
    exact projCurrent_updateViewMatrix lm _ _
      (projCurrent_pitchBlock lm _ _ (projCurrent_fpHeading lm _ _ h))
  | CAMERA_BEHAVIOR_FLIGHT =>
    rw [rotate_flight lm c hd pd rd hb, rotateFlight_blocks]
    exact projCurrent_updateViewMatrix lm _ _
      (projCurrent_flightRoll lm _ _
        (projCurrent_pitchBlock lm _ _ (projCurrent_flightHeading lm _ _ h)))

theorem projCurrent_step (lm : Libm α) (c : Camera α) (h : ProjCurrent lm c) (op : Op α) :
    ProjCurrent lm (step lm c op) := by
  cases op with
  | lookAtTarget target => exact h
  | lookAt eye target up => exact h
  | move dx dy dz => exact projCurrent_updateViewMatrix lm _ _ h
  | moveDir direction amount => exact projCurrent_updateViewMatrix lm _ _ h
  | perspective fovx aspect znear zfar => exact projCurrent_perspective lm c _ _ _ _
  | rotate hd pd rd => exact projCurrent_rotate lm c _ _ _ h
  | rotateSmoothly hd pd rd => exact projCurrent_rotate lm c _ _ _ h
  | updatePosition direction dt =>
    show ProjCurrent lm (updatePosition lm c direction dt)
    unfold updatePosition
    by_cases hv : D3DXVec3LengthSq c.m_currentVelocity ≠ 0
    · rw [if_pos hv]
      exact projCurrent_updateViewMatrix lm _ false h
    · rw [if_neg hv]
      exact h
  | setAcceleration a => exact h
  | setAcceleration3 x y z => exact h
  | setBehavior b =>
    show ProjCurrent lm (setBehavior lm c b)
    unfold setBehavior
    by_cases hv : c.m_behavior = CameraBehavior.CAMERA_BEHAVIOR_FLIGHT
        ∧ b = CameraBehavior.CAMERA_BEHAVIOR_FIRST_PERSON
    · rw [if_pos hv]
      exact h
    · rw [if_neg hv]
      exact h
  | setCurrentVelocity v => exact h
  | setCurrentVelocity3 x y z => exact h
  | setPosition eye => exact projCurrent_updateViewMatrix lm _ _ h
  | setPosition3 x y z => exact projCurrent_updateViewMatrix lm _ _ h
  | setRotationSpeed s => exact h
  | setVelocity v => exact h
  | setVelocity3 x y z => exact h

theorem projCurrent_foldl (lm : Libm α) (ops : List (Op α)) :
    ∀ c : Camera α, ProjCurrent lm c → ProjCurrent lm (ops.foldl (step lm) c) := by
  induction ops with
  | nil => intro c h; exact h
  | cons op ops ih => intro c h; exact ih _ (projCurrent_step lm c h op)

/-- On orthonormal axes with `yAxis = cross(zAxis, xAxis)` the call `updateViewMatrix(true)`
only rebuilds the view direction and the view matrix. -/
theorem updateViewMatrix_true_eq (lm : Libm α) (h1 : lm.sqrtf 1 = 1) (c : Camera α)
    (h : RightOrtho c) : updateViewMatrix lm c true = rebuilt c := by
  obtain ⟨⟨hx, _, hz, _, _, hxz⟩, hy⟩ := h
  have hzn : D3DXVec3Normalize lm c.m_zAxis = c.m_zAxis := normalize_of_unit lm h1 _ hz
  have hyn : D3DXVec3Normalize lm (D3DXVec3Cross c.m_zAxis c.m_xAxis) = c.m_yAxis := by
    rw [← hy]
    apply normalize_of_unit lm h1
    rw [vec3_lengthSq_eq_dot, hy, vec3_cross_dot_cross, hz, hx, vec3_dot_comm, hxz]; ring
  have hxn : D3DXVec3Normalize lm (D3DXVec3Cross c.m_yAxis c.m_zAxis) = c.m_xAxis := by
    rw [hy, vec3_cross_cross_self _ _ hz hxz]; exact normalize_of_unit lm h1 _ hx
  simp only [updateViewMatrix, if_true, hzn, hyn, hxn]
  rfl

theorem rightOrtho_of_cross (c : Camera α) (h : OrthoSq c.m_xAxis c.m_yAxis c.m_zAxis)
    (hc : D3DXVec3Cross c.m_xAxis c.m_yAxis = c.m_zAxis) : RightOrtho c := by
  refine ⟨h, ?_⟩
  rw [← hc]
  exact (vec3_cross_cross_self c.m_xAxis c.m_yAxis h.1
    ((vec3_dot_comm _ _).trans h.2.2.2.1)).symm

/-- A rotation about the first vector of a right-handed frame `n = cross a b`,
`a = cross b n`, `b = cross n a` keeps `n = cross a b`. -/
theorem frame_rot (n a b : D3DXVECTOR3 α) (s c : α) (hsc : s * s + c * c = 1)
    (hab : D3DXVec3Cross a b = n) (hbn : D3DXVec3Cross b n = a) (hna : D3DXVec3Cross n a = b)
    (da : D3DXVec3Dot n a = 0) (db : D3DXVec3Dot n b = 0) :
    D3DXVec3Cross (rotAbout n s c a) (rotAbout n s c b) = n := by
  have hab1 := congrArg D3DXVECTOR3.x hab
  have hab2 := congrArg D3DXVECTOR3.y hab
  have hab3 := congrArg D3DXVECTOR3.z hab
  have hbn1 := congrArg D3DXVECTOR3.x hbn
  have hbn2 := congrArg D3DXVECTOR3.y hbn
  have hbn3 := congrArg D3DXVECTOR3.z hbn
  have hna1 := congrArg D3DXVECTOR3.x hna
  have hna2 := congrArg D3DXVECTOR3.y hna
  have hna3 := congrArg D3DXVECTOR3.z hna
  simp only [D3DXVec3Cross] at hab1 hab2 hab3 hbn1 hbn2 hbn3 hna1 hna2 hna3
  simp only [D3DXVec3Dot] at da db
  have ea : rotAbout n s c a = ⟨c * a.x + s * b.x, c * a.y + s * b.y, c * a.z + s * b.z⟩ := by
    ext <;> simp only [rotAbout, D3DXVec3Dot, D3DXVec3Cross]
    · linear_combination (1 - c) * n.x * da + s * hna1
    · linear_combination (1 - c) * n.y * da + s * hna2
    · linear_combination (1 - c) * n.z * da + s * hna3
  have eb : rotAbout n s c b = ⟨c * b.x - s * a.x, c * b.y - s * a.y, c * b.z - s * a.z⟩ := by
    ext <;> simp only [rotAbout, D3DXVec3Dot, D3DXVec3Cross]
    · linear_combination (1 - c) * n.x * db - s * hbn1
    · linear_combination (1 - c) * n.y * db - s * hbn2
    · linear_combination (1 - c) * n.z * db - s * hbn3
  rw [ea, eb]
  ext <;> simp only [D3DXVec3Cross]
  · linear_combination (c * c + s * s) * hab1 + n.x * hsc
  · linear_combination (c * c + s * s) * hab2 + n.y * hsc
  · linear_combination (c * c + s * s) * hab3 + n.z * hsc

theorem rightOrtho_flightHeading (lm : Libm α) (hlm : LibmSound lm) (c : Camera α) (θ : α)
    (h : RightOrtho c) : RightOrtho (flightHeading lm c θ) := by
  obtain ⟨ho, hy⟩ := h
  have hsc := hlm.sin_sq_add_cos_sq θ
  rw [flightHeading_eq lm hlm c θ ho.2.1]
  refine ⟨orthoSq_rot_y _ _ _ _ _ ho hsc, ?_⟩
  show c.m_yAxis = D3DXVec3Cross (rotAbout c.m_yAxis (lm.sinf θ) (lm.cosf θ) c.m_zAxis)
    (rotAbout c.m_yAxis (lm.sinf θ) (lm.cosf θ) c.m_xAxis)
  have hxy : D3DXVec3Cross c.m_xAxis c.m_yAxis = c.m_zAxis := by
    rw [hy]; exact vec3_cross_cross_right _ _ ho.1 ho.2.2.2.2.2
  have hyz : D3DXVec3Cross c.m_yAxis c.m_zAxis = c.m_xAxis := by
    rw [hy]; exact vec3_cross_cross_self _ _ ho.2.2.1 ho.2.2.2.2.2
  exact (frame_rot c.m_yAxis c.m_zAxis c.m_xAxis _ _ hsc hy.symm hxy hyz ho.2.2.2.2.1
    ((vec3_dot_comm _ _).trans ho.2.2.2.1)).symm

theorem rightOrtho_pitchBlock (lm : Libm α) (hlm : LibmSound lm) (c : Camera α) (θ : α)
    (h : RightOrtho c) : RightOrtho (pitchBlock lm c θ) := by
  obtain ⟨ho, hy⟩ := h
  have hsc := hlm.sin_sq_add_cos_sq θ
  rw [pitchBlock_eq lm hlm c θ ho.1]
  have ho2 := orthoSq_rot_x _ _ _ _ _ ho hsc
  refine ⟨ho2, ?_⟩
  show rotAbout c.m_xAxis (lm.sinf θ) (lm.cosf θ) c.m_yAxis
    = D3DXVec3Cross (rotAbout c.m_xAxis (lm.sinf θ) (lm.cosf θ) c.m_zAxis) c.m_xAxis
  have hxy : D3DXVec3Cross c.m_xAxis c.m_yAxis = c.m_zAxis := by
    rw [hy]; exact vec3_cross_cross_right _ _ ho.1 ho.2.2.2.2.2
  have hyz : D3DXVec3Cross c.m_yAxis c.m_zAxis = c.m_xAxis := by
    rw [hy]; exact vec3_cross_cross_self _ _ ho.2.2.1 ho.2.2.2.2.2
  have hf := frame_rot c.m_xAxis c.m_yAxis c.m_zAxis _ _ hsc hyz hy.symm hxy ho.2.2.2.1
    ho.2.2.2.2.2
  -- `x = cross y2 z2`, hence `cross z2 x = y2`
  have e := vec3_cross_cross_right (rotAbout c.m_xAxis (lm.sinf θ) (lm.cosf θ) c.m_zAxis)
    (rotAbout c.m_xAxis (lm.sinf θ) (lm.cosf θ) c.m_yAxis) ho2.2.2.1
    ((vec3_dot_comm _ _).trans ho2.2.2.2.2.1)
  rw [hf] at e
  exact e.symm

theorem rightOrtho_flightRoll (lm : Libm α) (hlm : LibmSound lm) (c : Camera α) (θ : α)
    (h : RightOrtho c) : RightOrtho (flightRoll lm c θ) := by
  obtain ⟨ho, hy⟩ := h
  have hsc := hlm.sin_sq_add_cos_sq θ
  rw [flightRoll_eq lm hlm c θ ho.2.2.1]
  have ho2 := orthoSq_rot_z _ _ _ _ _ ho hsc
  refine ⟨ho2, ?_⟩
  show rotAbout c.m_zAxis (lm.sinf θ) (lm.cosf θ) c.m_yAxis
    = D3DXVec3Cross c.m_zAxis (rotAbout c.m_zAxis (lm.sinf θ) (lm.cosf θ) c.m_xAxis)
  have hxy : D3DXVec3Cross c.m_xAxis c.m_yAxis = c.m_zAxis := by
    rw [hy]; exact vec3_cross_cross_right _ _ ho.1 ho.2.2.2.2.2
  have hyz : D3DXVec3Cross c.m_yAxis c.m_zAxis = c.m_xAxis := by
    rw [hy]; exact vec3_cross_cross_self _ _ ho.2.2.1 ho.2.2.2.2.2
  have hf := frame_rot c.m_zAxis c.m_xAxis c.m_yAxis _ _ hsc hxy hyz hy.symm
    ((vec3_dot_comm _ _).trans ho.2.2.2.2.2) ((vec3_dot_comm _ _).trans ho.2.2.2.2.1)
  -- `z = cross x3 y3`, hence `cross z x3 = y3`
  have e := vec3_cross_cross_self (rotAbout c.m_zAxis (lm.sinf θ) (lm.cosf θ) c.m_xAxis)
    (rotAbout c.m_zAxis (lm.sinf θ) (lm.cosf θ) c.m_yAxis) ho2.1
    ((vec3_dot_comm _ _).trans ho2.2.2.2.1)
  rw [hf] at e
  exact e.symm

theorem rightOrtho_rebuilt (c : Camera α) (h : RightOrtho c) : RightOrtho (rebuilt c) := h

theorem rebuilt_pitchBlock_rebuilt (lm : Libm α) (c : Camera α) (θ : α) :
    rebuilt (pitchBlock lm (rebuilt c) θ) = rebuilt (pitchBlock lm c θ) := by
  unfold pitchBlock; split_ifs <;> rfl

theorem rebuilt_flightRoll_rebuilt (lm : Libm α) (c : Camera α) (θ : α) :
    rebuilt (flightRoll lm (rebuilt c) θ) = rebuilt (flightRoll lm c θ) := by
  unfold flightRoll; split_ifs <;> rfl

theorem pitchBlock_zero (lm : Libm α) (c : Camera α) : pitchBlock lm c 0 = c := by
  simp [pitchBlock]

theorem flightHeading_zero (lm : Libm α) (c : Camera α) : flightHeading lm c 0 = c := by
  simp [flightHeading]

theorem flightRoll_zero (lm : Libm α) (c : Camera α) : flightRoll lm c 0 = c := by
  simp [flightRoll]

theorem fpHeading_zero (lm : Libm α) (c : Camera α) : fpHeading lm c 0 = c := by
  simp [fpHeading]

theorem toRadian_zero (lm : Libm α) : D3DXToRadian lm 0 = 0 := by
  simp [D3DXToRadian]

theorem toRadian_neg_zero (lm : Libm α) : D3DXToRadian lm (-0) = 0 := by
  simp [D3DXToRadian]

/-- In FLIGHT behaviour, on orthonormal axes with `yAxis = cross(zAxis, xAxis)`, `rotate` is
the three rotation blocks followed by the rebuild of view direction and view matrix. -/
theorem rotate_flight_rebuilt (lm : Libm α) (hlm : LibmSound lm) (c : Camera α)
    (hb : c.m_behavior = CameraBehavior.CAMERA_BEHAVIOR_FLIGHT) (h : RightOrtho c)
    (hd pd rd : α) :
    rotate lm c hd pd rd
      = rebuilt (flightRoll lm (pitchBlock lm (flightHeading lm c (D3DXToRadian lm hd))
          (D3DXToRadian lm pd)) (D3DXToRadian lm (-rd))) := by
  rw [rotate_flight lm c hd pd rd hb, rotateFlight_blocks]
  exact updateViewMatrix_true_eq lm hlm.sqrt_one _
    (rightOrtho_flightRoll lm hlm _ _
      (rightOrtho_pitchBlock lm hlm _ _ (rightOrtho_flightHeading lm hlm _ _ h)))

theorem rebuilt_behavior (c : Camera α) : (rebuilt c).m_behavior = c.m_behavior := rfl

theorem flight_blocks_accum (lm : Libm α) (c : Camera α) (a b d : α) :
    (rebuilt (flightRoll lm (pitchBlock lm (flightHeading lm c a) b) d)).m_accumPitchDegrees
      = c.m_accumPitchDegrees := by
  show (flightRoll lm (pitchBlock lm (flightHeading lm c a) b) d).m_accumPitchDegrees = _
  have e1 : ∀ (c : Camera α) (θ : α),
      (flightRoll lm c θ).m_accumPitchDegrees = c.m_accumPitchDegrees := by
    intro c θ; unfold flightRoll; split_ifs <;> rfl
  have e2 : ∀ (c : Camera α) (θ : α),
      (flightHeading lm c θ).m_accumPitchDegrees = c.m_accumPitchDegrees := by
    intro c θ; unfold flightHeading; split_ifs <;> rfl
  rw [e1, pitchBlock_accum, e2]

/-- A camera whose view direction and view matrix are current is its own rebuild. -/
theorem rebuilt_eq_self (c : Camera α) (hv : ViewDirIsZ c) (hm : ViewCurrent c) :
    rebuilt c = c := by
  cases c
  simp only [ViewDirIsZ, ViewCurrent] at hv hm
  subst hv
  subst hm
  rfl

/-- In FIRST_PERSON behaviour a `rotate` with zero heading whose pitch request leaves the
accumulated pitch where it is changes nothing, on a camera with orthonormal right-handed axes
and current view direction and view matrix. -/
theorem rotate_firstPerson_fixed (lm : Libm α) (hlm : LibmSound lm) (c : Camera α)
    (hb : c.m_behavior = CameraBehavior.CAMERA_BEHAVIOR_FIRST_PERSON) (h : RightOrtho c)
    (hv : ViewDirIsZ c) (hm : ViewCurrent c) (p r : α)
    (hfix : fpAccum c.m_accumPitchDegrees p = c.m_accumPitchDegrees) :
    rotate lm c 0 p r = c := by
  have hc : ({ c with m_accumPitchDegrees := c.m_accumPitchDegrees } : Camera α) = c := rfl
  rw [rotate_firstPerson lm c 0 p r hb, rotateFirstPerson_blocks, fpPitch_eq, hfix, sub_self,
    toRadian_zero, fpHeading_zero, pitchBlock_zero, hc,
    updateViewMatrix_true_eq lm hlm.sqrt_one c h, rebuilt_eq_self c hv hm]

theorem viewCurrent_run (lm : Libm α) (ops : List (Op α)) (hok : eachOp lm eyeStable new ops) :
    ViewCurrent (run lm ops) :=
  viewCurrent_foldl lm ops new viewCurrent_new hok

theorem lookAt_orthoSq (lm : Libm ℝ) (hs : lm.sqrtf = Real.sqrt) (c : Camera ℝ)
    (eye target up : D3DXVECTOR3 ℝ)
    (hup : D3DXVec3Cross up (target.sub eye) ≠ ⟨0, 0, 0⟩) :
    OrthoSq (lookAtValues lm c eye target up).m_xAxis (lookAtValues lm c eye target up).m_yAxis
      (lookAtValues lm c eye target up).m_zAxis := by
  obtain ⟨_, _, ey, hx, hz, hxz⟩ := lookAt_axes lm hs c eye target up hup
  rw [ey]
  exact orthoSq_of_pair _ _ hx hz hxz

theorem setBehavior_orthoSq (lm : Libm ℝ) (hs : lm.sqrtf = Real.sqrt) (c : Camera ℝ)
    (b : CameraBehavior) (h : OrthoSq c.m_xAxis c.m_yAxis c.m_zAxis)
    (hv : c.m_behavior = CameraBehavior.CAMERA_BEHAVIOR_FLIGHT →
      b = CameraBehavior.CAMERA_BEHAVIOR_FIRST_PERSON →
      D3DXVec3Cross WORLD_YAXIS c.m_zAxis ≠ ⟨0, 0, 0⟩) :
    OrthoSq (setBehavior lm c b).m_xAxis (setBehavior lm c b).m_yAxis
      (setBehavior lm c b).m_zAxis := by
  unfold setBehavior
  by_cases hc : c.m_behavior = CameraBehavior.CAMERA_BEHAVIOR_FLIGHT
      ∧ b = CameraBehavior.CAMERA_BEHAVIOR_FIRST_PERSON
  · rw [if_pos hc]
    have hup : D3DXVec3Cross WORLD_YAXIS ((c.m_eye.add c.m_zAxis).sub c.m_eye) ≠ ⟨0, 0, 0⟩ := by
      rw [vec3_add_sub_cancel]; exact hv hc.1 hc.2
    exact lookAt_orthoSq lm hs c _ _ _ hup
  · rw [if_neg hc]
    exact h

theorem orthoSq_step (lm : Libm ℝ) (hlm : LibmReal lm) (c : Camera ℝ)
    (h : OrthoSq c.m_xAxis c.m_yAxis c.m_zAxis) (op : Op ℝ)
    (h1 : lookAtNonDegenerate c op) (h2 : switchNonVertical c op) :
    OrthoSq (step lm c op).m_xAxis (step lm c op).m_yAxis (step lm c op).m_zAxis := by
  cases op with
  | lookAtTarget target =>
    have ht : stableTarget target := by
      cases target with
      | position =>
        exfalso
        apply h1
        show D3DXVec3Cross c.m_yAxis (c.m_eye.sub c.m_eye) = ⟨0, 0, 0⟩
        ext <;> simp [D3DXVec3Cross, D3DXVECTOR3.sub]
      | _ => exact trivial
    obtain ⟨_, ex, ey, ez, _, _⟩ :=
      lookAt_axes_of_stable lm c VecRef.position target VecRef.yAxis ht trivial
    show OrthoSq (lookAt lm c VecRef.position target VecRef.yAxis).m_xAxis
      (lookAt lm c VecRef.position target VecRef.yAxis).m_yAxis
      (lookAt lm c VecRef.position target VecRef.yAxis).m_zAxis
    rw [ex, ey, ez]
    exact lookAt_orthoSq lm hlm.sqrtf_eq c _ _ _ h1
  | lookAt eye target up =>
    obtain ⟨ht, hu, hne⟩ := h1
    obtain ⟨_, ex, ey, ez, _, _⟩ := lookAt_axes_of_stable lm c eye target up ht hu
    show OrthoSq (lookAt lm c eye target up).m_xAxis (lookAt lm c eye target up).m_yAxis
      (lookAt lm c eye target up).m_zAxis
    rw [ex, ey, ez]
    exact lookAt_orthoSq lm hlm.sqrtf_eq c _ _ _ hne
  | move dx dy dz => exact h
  | moveDir direction amount => exact h
  | perspective fovx aspect znear zfar => exact h
  | rotate hd pd rd => exact rotate_orthoSq lm hlm.sound c h _ _ _
  | rotateSmoothly hd pd rd => exact rotate_orthoSq lm hlm.sound c h _ _ _
  | updatePosition direction dt =>
    show OrthoSq (updatePosition lm c direction dt).m_xAxis
      (updatePosition lm c direction dt).m_yAxis (updatePosition lm c direction dt).m_zAxis
    unfold updatePosition
    by_cases hv : D3DXVec3LengthSq c.m_currentVelocity ≠ 0
    · rw [if_pos hv]
      exact h
    · rw [if_neg hv]
      exact h
  | setAcceleration a => exact h
  | setAcceleration3 x y z => exact h
  | setBehavior b => exact setBehavior_orthoSq lm hlm.sqrtf_eq c b h h2
  | setCurrentVelocity v => exact h
  | setCurrentVelocity3 x y z => exact h
  | setPosition eye => exact h
  | setPosition3 x y z => exact h
  | setRotationSpeed s => exact h
  | setVelocity v => exact h
  | setVelocity3 x y z => exact h

theorem orthoSq_foldl (lm : Libm ℝ) (hlm : LibmReal lm) (ops : List (Op ℝ)) :
    ∀ c : Camera ℝ, OrthoSq c.m_xAxis c.m_yAxis c.m_zAxis →
      eachOp lm (fun c op => lookAtNonDegenerate c op ∧ switchNonVertical c op) c ops →
      OrthoSq (ops.foldl (step lm) c).m_xAxis (ops.foldl (step lm) c).m_yAxis
        (ops.foldl (step lm) c).m_zAxis := by
  induction ops with
  | nil => intro c h _; exact h
  | cons op ops ih =>
    intro c h hok
    exact ih _ (orthoSq_step lm hlm c h op hok.1.1 hok.1.2) hok.2

theorem orthoSq_new : OrthoSq (new : Camera α).m_xAxis (new : Camera α).m_yAxis
    (new : Camera α).m_zAxis := by
  simp [OrthoSq, new, D3DXVec3Dot]

end Camera

namespace Camera

section anyNumbers

variable {α : Type} [Zero α] [One α] [NatCast α] [Add α] [Sub α] [Mul α] [Div α] [Neg α]
  [LT α] [DecidableEq α] [∀ a b : α, Decidable (a < b)]

/-- The velocity fields after `updatePosition` are those after `updateVelocity`, over any
number type. -/
theorem updatePosition_velocity_any (lm : Libm α) (c : Camera α) (direction : D3DXVECTOR3 α)
    (dt : α) :
    (updatePosition lm c (.val direction) dt).m_currentVelocity
        = (updateVelocity c direction dt).m_currentVelocity ∧
    (updatePosition lm c (.val direction) dt).m_acceleration = c.m_acceleration ∧
    (updatePosition lm c (.val direction) dt).m_velocity = c.m_velocity := by
  unfold updatePosition
  by_cases hv : D3DXVec3LengthSq c.m_currentVelocity ≠ 0
  · rw [if_pos hv]; exact ⟨rfl, rfl, rfl⟩
  · rw [if_neg hv]; exact ⟨rfl, rfl, rfl⟩

/-- Repeated `updatePosition` and repeated `updateVelocity` leave the same velocity fields,
over any number type and with any math library. -/
theorem updatePositionTimes_velocity_any (lm : Libm α) (c : Camera α)
    (direction : D3DXVECTOR3 α) (dt : α) (n : Nat) :
    (updatePositionTimes lm c (.val direction) dt n).m_currentVelocity
        = (updateVelocityTimes c direction dt n).m_currentVelocity ∧
    (updatePositionTimes lm c (.val direction) dt n).m_acceleration
        = (updateVelocityTimes c direction dt n).m_acceleration ∧
    (updatePositionTimes lm c (.val direction) dt n).m_velocity
        = (updateVelocityTimes c direction dt n).m_velocity := by
  induction n with
  | zero => exact ⟨rfl, rfl, rfl⟩
  | succ n ih =>
    obtain ⟨e1, e2, e3⟩ := updatePosition_velocity_any lm
      (updatePositionTimes lm c (.val direction) dt n) direction dt
    obtain ⟨i1, i2, i3⟩ := ih
    refine ⟨?_, e2.trans i2, e3.trans i3⟩
    show (updatePosition lm (updatePositionTimes lm c (.val direction) dt n) (.val direction)
      dt).m_currentVelocity = (updateVelocity (updateVelocityTimes c direction dt n) direction
      dt).m_currentVelocity
    rw [e1]
    show (⟨_, _, _⟩ : D3DXVECTOR3 α) = ⟨_, _, _⟩
    rw [i1, i2, i3]

/-- The `zAxis` left by `rotate` in first-person behaviour, over any number type: the clamping
block, the heading block and the pitch block of `rotateFirstPerson`, then the normalisation of
`updateViewMatrix(true)`. -/
theorem rotate_firstPerson_zAxis_any (lm : Libm α) (c : Camera α) (hd pd rd : α)
    (hb : c.m_behavior = CameraBehavior.CAMERA_BEHAVIOR_FIRST_PERSON) :
    (rotate lm c hd pd rd).m_zAxis
      = D3DXVec3Normalize lm
          (pitchBlock lm
            (fpHeading lm { c with m_accumPitchDegrees := fpAccum c.m_accumPitchDegrees pd }
              (D3DXToRadian lm hd))
            (D3DXToRadian lm (fpPitch c.m_accumPitchDegrees pd))).m_zAxis := by
  have e : rotate lm c hd pd rd = updateViewMatrix lm (rotateFirstPerson lm c hd pd) true := by
    simp only [rotate, hb]
  rw [e]
  rfl

/-- The pitch block with a non-zero angle rotates `zAxis` about `xAxis`, over any number
type. -/
theorem pitchBlock_zAxis_any (lm : Libm α) (c : Camera α) (θ : α) (h : θ ≠ 0) :
    (pitchBlock lm c θ).m_zAxis
      = xyz (D3DXVec3Transform c.m_zAxis (D3DXMatrixRotationAxis lm c.m_xAxis θ)) := by
  simp only [pitchBlock, if_pos h]

/-- The heading block with a zero angle does nothing, over any number type. -/
theorem fpHeading_zero_any (lm : Libm α) (c : Camera α) : fpHeading lm c 0 = c := by
  simp [fpHeading]

/-- The fields that `lookAt` writes when its arguments are vectors owned by the caller, over
any number type. -/
theorem lookAt_val_fields_any (lm : Libm α) (c : Camera α) (eye target up : D3DXVECTOR3 α) :
    (lookAt lm c (.val eye) (.val target) (.val up)).m_behavior = c.m_behavior ∧
    (lookAt lm c (.val eye) (.val target) (.val up)).m_zAxis
      = D3DXVec3Normalize lm (target.sub eye) ∧
    (lookAt lm c (.val eye) (.val target) (.val up)).m_xAxis
      = D3DXVec3Normalize lm (D3DXVec3Normalize lm
          (D3DXVec3Cross up (D3DXVec3Normalize lm (target.sub eye)))) ∧
    (lookAt lm c (.val eye) (.val target) (.val up)).m_yAxis
      = D3DXVec3Normalize lm (D3DXVec3Cross (D3DXVec3Normalize lm (target.sub eye))
          (D3DXVec3Normalize lm (D3DXVec3Cross up (D3DXVec3Normalize lm (target.sub eye))))) ∧
    (lookAt lm c (.val eye) (.val target) (.val up)).m_accumPitchDegrees
      = D3DXToDegree lm (-lm.asinf (D3DXVec3Normalize lm (target.sub eye)).y) :=
  ⟨rfl, rfl, rfl, rfl, rfl⟩

/-- The behaviour tag after `setBehavior`, over any number type. -/
theorem setBehavior_behavior_any (lm : Libm α) (c : Camera α) (b : CameraBehavior) :
    (setBehavior lm c b).m_behavior = b := rfl

/-- The position left by `lookAt` when its arguments are vectors owned by the caller, over
any number type. -/
theorem lookAt_val_eye_any (lm : Libm α) (c : Camera α) (eye target up : D3DXVECTOR3 α) :
    (lookAt lm c (.val eye) (.val target) (.val up)).m_eye = eye := rfl

/-- The fields left by the re-levelling switch `setBehavior(FIRST_PERSON)` on a FLIGHT
camera, over any number type. -/
theorem setBehavior_relevel_fields_any (lm : Libm α) (c : Camera α)
    (hb : c.m_behavior = CameraBehavior.CAMERA_BEHAVIOR_FLIGHT) :
    (setBehavior lm c CameraBehavior.CAMERA_BEHAVIOR_FIRST_PERSON).m_behavior
      = CameraBehavior.CAMERA_BEHAVIOR_FIRST_PERSON ∧
    (setBehavior lm c CameraBehavior.CAMERA_BEHAVIOR_FIRST_PERSON).m_eye = c.m_eye ∧
    (setBehavior lm c CameraBehavior.CAMERA_BEHAVIOR_FIRST_PERSON).m_zAxis
      = D3DXVec3Normalize lm ((c.m_eye.add c.m_zAxis).sub c.m_eye) ∧
    (setBehavior lm c CameraBehavior.CAMERA_BEHAVIOR_FIRST_PERSON).m_xAxis
      = D3DXVec3Normalize lm (D3DXVec3Normalize lm (D3DXVec3Cross WORLD_YAXIS
          (D3DXVec3Normalize lm ((c.m_eye.add c.m_zAxis).sub c.m_eye)))) ∧
    (setBehavior lm c CameraBehavior.CAMERA_BEHAVIOR_FIRST_PERSON).m_accumPitchDegrees
      = D3DXToDegree lm
          (-lm.asinf (D3DXVec3Normalize lm ((c.m_eye.add c.m_zAxis).sub c.m_eye)).y) := by
  have e : setBehavior lm c CameraBehavior.CAMERA_BEHAVIOR_FIRST_PERSON
      = { lookAt lm c .position (.val (c.m_eye.add c.m_zAxis)) (.val WORLD_YAXIS) with
          m_behavior := CameraBehavior.CAMERA_BEHAVIOR_FIRST_PERSON } := by
    simp only [setBehavior, hb, and_self, if_true]
  rw [e]
  exact ⟨rfl, rfl, rfl, rfl, rfl⟩

/-- The pitch block with a zero angle does nothing, over any number type. -/
theorem pitchBlock_zero_any (lm : Libm α) (c : Camera α) : pitchBlock lm c 0 = c := by
  simp [pitchBlock]

/-- In first-person behaviour `rotate(0, 0, r)` with an accumulated pitch inside the clamp
range only re-orthogonalises the axes, over any number type. -/
theorem rotate_firstPerson_still_any (lm : Libm α) (c : Camera α) (r : α)
    (hb : c.m_behavior = CameraBehavior.CAMERA_BEHAVIOR_FIRST_PERSON)
    (h1 : ¬ c.m_accumPitchDegrees + 0 > 90) (h2 : ¬ c.m_accumPitchDegrees + 0 < -90)
    (h0 : D3DXToRadian lm 0 = 0) :
    (rotate lm c 0 0 r).m_behavior = CameraBehavior.CAMERA_BEHAVIOR_FIRST_PERSON ∧
    (rotate lm c 0 0 r).m_eye = c.m_eye ∧
    (rotate lm c 0 0 r).m_xAxis
      = D3DXVec3Normalize lm
          (D3DXVec3Cross
            (D3DXVec3Normalize lm (D3DXVec3Cross (D3DXVec3Normalize lm c.m_zAxis) c.m_xAxis))
            (D3DXVec3Normalize lm c.m_zAxis)) := by
  have e : rotate lm c 0 0 r = updateViewMatrix lm (rotateFirstPerson lm c 0 0) true := by
    simp only [rotate, hb]
  have hp : fpPitch c.m_accumPitchDegrees 0 = 0 := by
    simp only [fpPitch, h1, h2, if_false]
  have e2 : rotateFirstPerson lm c 0 0
      = { c with m_accumPitchDegrees := fpAccum c.m_accumPitchDegrees 0 } := by
    have e3 : rotateFirstPerson lm c 0 0
        = pitchBlock lm
            (fpHeading lm { c with m_accumPitchDegrees := fpAccum c.m_accumPitchDegrees 0 }
              (D3DXToRadian lm 0))
            (D3DXToRadian lm (fpPitch c.m_accumPitchDegrees 0)) := rfl
    rw [e3, hp, h0, fpHeading_zero_any, pitchBlock_zero_any]
  rw [e, e2]
  exact ⟨hb, rfl, rfl⟩

/-- The position left by `move(dx, dy, dz)` in first-person behaviour, over any number
type. -/
theorem move_firstPerson_eye_any (lm : Libm α) (c : Camera α) (dx dy dz : α)
    (hb : c.m_behavior = CameraBehavior.CAMERA_BEHAVIOR_FIRST_PERSON) :
    (move lm c dx dy dz).m_eye
      = ((c.m_eye.add (c.m_xAxis.scale dx)).add ((WORLD_YAXIS : D3DXVECTOR3 α).scale dy)).add
          ((D3DXVec3Normalize lm (D3DXVec3Cross c.m_xAxis WORLD_YAXIS)).scale dz) := by
  have e : (move lm c dx dy dz).m_eye
      = ((c.m_eye.add (c.m_xAxis.scale dx)).add ((WORLD_YAXIS : D3DXVECTOR3 α).scale dy)).add
          ((if c.m_behavior = CameraBehavior.CAMERA_BEHAVIOR_FIRST_PERSON then
              D3DXVec3Normalize lm (D3DXVec3Cross c.m_xAxis WORLD_YAXIS)
            else c.m_viewDir).scale dz) := rfl
  rw [e, if_pos hb]

end anyNumbers

variable {α : Type} [LinearOrderedField α]

end Camera

/-! ## The claims -/

open Camera CameraBehavior

/-- C1: from any camera state with orthonormal axes, in either behaviour and for all angles,
`rotate` leaves each of `xAxis`, `yAxis`, `zAxis` with length 1 and the three pairwise dot
products equal to 0 (exact real arithmetic). -/
theorem Camera.rotate_orthonormal (c : Camera ℝ) (hd pd rd : ℝ)
    (hc : Orthonormal ⟨Real.sqrt, Real.sin, Real.cos, Real.tan, Real.arcsin, Real.arctan, Real.pi⟩
      c.m_xAxis c.m_yAxis c.m_zAxis) :
    Orthonormal ⟨Real.sqrt, Real.sin, Real.cos, Real.tan, Real.arcsin, Real.arctan, Real.pi⟩
      (rotate ⟨Real.sqrt, Real.sin, Real.cos, Real.tan, Real.arcsin, Real.arctan, Real.pi⟩
        c hd pd rd).m_xAxis
      (rotate ⟨Real.sqrt, Real.sin, Real.cos, Real.tan, Real.arcsin, Real.arctan, Real.pi⟩
        c hd pd rd).m_yAxis
      (rotate ⟨Real.sqrt, Real.sin, Real.cos, Real.tan, Real.arcsin, Real.arctan, Real.pi⟩
        c hd pd rd).m_zAxis := by
  rw [real_orthonormal_iff _ real_libm.sqrtf_eq] at hc ⊢
  exact rotate_orthoSq _ real_libm.sound c hc hd pd rd

/-- A concrete instance of C1: the freshly constructed camera turned by (30, 20, 10). -/
theorem Camera.rotate_orthonormal_witness :
    Orthonormal ⟨Real.sqrt, Real.sin, Real.cos, Real.tan, Real.arcsin, Real.arctan, Real.pi⟩
      (rotate ⟨Real.sqrt, Real.sin, Real.cos, Real.tan, Real.arcsin, Real.arctan, Real.pi⟩
        Camera.new 30 20 10).m_xAxis
      (rotate ⟨Real.sqrt, Real.sin, Real.cos, Real.tan, Real.arcsin, Real.arctan, Real.pi⟩
        Camera.new 30 20 10).m_yAxis
      (rotate ⟨Real.sqrt, Real.sin, Real.cos, Real.tan, Real.arcsin, Real.arctan, Real.pi⟩
        Camera.new 30 20 10).m_zAxis :=
  Camera.rotate_orthonormal Camera.new 30 20 10
    (by simp [Orthonormal, Camera.new, D3DXVec3Length, D3DXVec3LengthSq, D3DXVec3Dot])

/-- C2: in FIRST_PERSON behaviour, from a state with accumulated pitch in [-90, 90],
`rotate(h, p, r)` leaves the accumulated pitch equal to `min 90 (max (-90) (old + p))`; it is
exactly 90 (resp. -90) when `old + p` exceeds the bound, and it stays in [-90, 90] after any
sequence of `rotate` calls. -/
theorem Camera.rotate_firstPerson_pitch_clamped {α : Type} [LinearOrderedField α] (lm : Libm α)
    (c : Camera α) (hb : c.m_behavior = CAMERA_BEHAVIOR_FIRST_PERSON)
    (hlo : -90 ≤ c.m_accumPitchDegrees) (hhi : c.m_accumPitchDegrees ≤ 90) (h p r : α) :
    (rotate lm c h p r).m_accumPitchDegrees = min 90 (max (-90) (c.m_accumPitchDegrees + p)) ∧
    (90 < c.m_accumPitchDegrees + p → (rotate lm c h p r).m_accumPitchDegrees = 90) ∧
    (c.m_accumPitchDegrees + p < -90 → (rotate lm c h p r).m_accumPitchDegrees = -90) ∧
    ∀ rs : List (α × α × α),
      -90 ≤ (rotateMany lm c rs).m_accumPitchDegrees ∧
        (rotateMany lm c rs).m_accumPitchDegrees ≤ 90 := by
  have e := rotate_firstPerson_accum lm c h p r hb
  rw [fpAccum_eq] at e
  refine ⟨e, ?_, ?_, fun rs => rotateMany_firstPerson_accum lm rs c hb hlo hhi⟩
  · intro h1
    rw [e, max_eq_right (by linarith), min_eq_left (le_of_lt h1)]
  · intro h1
    rw [e, max_eq_left (le_of_lt h1), min_eq_right (by norm_num)]

/-- A concrete instance of C2: at pitch 80 a request of 25 degrees stops at exactly 90. -/
theorem Camera.rotate_firstPerson_pitch_clamped_witness :
    (rotate ⟨Real.sqrt, Real.sin, Real.cos, Real.tan, Real.arcsin, Real.arctan, Real.pi⟩
      { (Camera.new : Camera ℝ) with
        m_behavior := CAMERA_BEHAVIOR_FIRST_PERSON, m_accumPitchDegrees := 80 }
      0 25 0).m_accumPitchDegrees = 90 :=
  (Camera.rotate_firstPerson_pitch_clamped
    ⟨Real.sqrt, Real.sin, Real.cos, Real.tan, Real.arcsin, Real.arctan, Real.pi⟩
    { (Camera.new : Camera ℝ) with
      m_behavior := CAMERA_BEHAVIOR_FIRST_PERSON, m_accumPitchDegrees := 80 }
    rfl (by norm_num) (by norm_num) 0 25 0).2.1 (by norm_num)

/-- C3: the first-person camera never flips past vertical: starting from the state produced
by `setBehavior(FIRST_PERSON)` on a FLIGHT camera with orthonormal basis and non-vertical
`zAxis`, after any finite sequence of `rotate(h, p, r)` calls the up axis has
`yAxis.y >= 0` (exact real arithmetic). -/
theorem Camera.firstPerson_never_flips (c : Camera ℝ)
    (hb : c.m_behavior = CAMERA_BEHAVIOR_FLIGHT)
    (hc : Orthonormal ⟨Real.sqrt, Real.sin, Real.cos, Real.tan, Real.arcsin, Real.arctan, Real.pi⟩
      c.m_xAxis c.m_yAxis c.m_zAxis)
    (hv : D3DXVec3Cross WORLD_YAXIS c.m_zAxis ≠ ⟨0, 0, 0⟩) (rs : List (ℝ × ℝ × ℝ)) :
    0 ≤ (rotateMany ⟨Real.sqrt, Real.sin, Real.cos, Real.tan, Real.arcsin, Real.arctan, Real.pi⟩
      (setBehavior ⟨Real.sqrt, Real.sin, Real.cos, Real.tan, Real.arcsin, Real.arctan, Real.pi⟩
        c CAMERA_BEHAVIOR_FIRST_PERSON) rs).m_yAxis.y := by
  rw [real_orthonormal_iff _ real_libm.sqrtf_eq] at hc
  exact ((FPInv.of_setBehavior real_libm c hb hc.2.2.1 hv).rotateMany real_libm rs).up_nonneg
    real_libm

/-- A concrete instance of C3: the default camera switched to first person and then asked to
pitch up by 60 degrees three times. -/
theorem Camera.firstPerson_never_flips_witness :
    0 ≤ (rotateMany ⟨Real.sqrt, Real.sin, Real.cos, Real.tan, Real.arcsin, Real.arctan, Real.pi⟩
      (setBehavior ⟨Real.sqrt, Real.sin, Real.cos, Real.tan, Real.arcsin, Real.arctan, Real.pi⟩
        Camera.new CAMERA_BEHAVIOR_FIRST_PERSON)
      [(10, 60, 0), (0, 60, 5), (-20, 60, 0)]).m_yAxis.y :=
  Camera.firstPerson_never_flips Camera.new rfl
    (by simp [Orthonormal, Camera.new, D3DXVec3Length, D3DXVec3LengthSq, D3DXVec3Dot])
    (fun h => by
      have := congrArg D3DXVECTOR3.x h
      simp [D3DXVec3Cross, Camera.new, WORLD_YAXIS] at this)
    [(10, 60, 0), (0, 60, 5), (-20, 60, 0)]

/-- C4 (counterexample): on the fresh camera the call `lookAt(getZAxis(), (1,0,1), (0,1,0))`
passes `eye` as a reference to `m_zAxis`. The position becomes the old `zAxis` (0,0,1), the
axes become x = (0,0,-1), y = (0,1,0), z = (1,0,0), and the last row of the view matrix is
built from the new `zAxis` the reference now shows: entry (3,0) is 0 where `-dot(x, eye)` is
1, and entry (3,2) is -1 where `-dot(z, eye)` is 0. The view matrix is stale. -/
theorem Camera.lookAt_aliased_eye_stale_view :
    (run ⟨Real.sqrt, Real.sin, Real.cos, Real.tan, Real.arcsin, Real.arctan, Real.pi⟩
      [Op.lookAt .zAxis (.val ⟨1, 0, 1⟩) (.val ⟨0, 1, 0⟩)]).m_eye = ⟨0, 0, 1⟩ ∧
    (run ⟨Real.sqrt, Real.sin, Real.cos, Real.tan, Real.arcsin, Real.arctan, Real.pi⟩
      [Op.lookAt .zAxis (.val ⟨1, 0, 1⟩) (.val ⟨0, 1, 0⟩)]).m_xAxis = ⟨0, 0, -1⟩ ∧
    (run ⟨Real.sqrt, Real.sin, Real.cos, Real.tan, Real.arcsin, Real.arctan, Real.pi⟩
      [Op.lookAt .zAxis (.val ⟨1, 0, 1⟩) (.val ⟨0, 1, 0⟩)]).m_zAxis = ⟨1, 0, 0⟩ ∧
    (run ⟨Real.sqrt, Real.sin, Real.cos, Real.tan, Real.arcsin, Real.arctan, Real.pi⟩
      [Op.lookAt .zAxis (.val ⟨1, 0, 1⟩) (.val ⟨0, 1, 0⟩)]).m_viewMatrix.m30 = 0 ∧
    -D3DXVec3Dot
      (run ⟨Real.sqrt, Real.sin, Real.cos, Real.tan, Real.arcsin, Real.arctan, Real.pi⟩
        [Op.lookAt .zAxis (.val ⟨1, 0, 1⟩) (.val ⟨0, 1, 0⟩)]).m_xAxis
      (run ⟨Real.sqrt, Real.sin, Real.cos, Real.tan, Real.arcsin, Real.arctan, Real.pi⟩
        [Op.lookAt .zAxis (.val ⟨1, 0, 1⟩) (.val ⟨0, 1, 0⟩)]).m_eye = 1 ∧
    (run ⟨Real.sqrt, Real.sin, Real.cos, Real.tan, Real.arcsin, Real.arctan, Real.pi⟩
      [Op.lookAt .zAxis (.val ⟨1, 0, 1⟩) (.val ⟨0, 1, 0⟩)]).m_viewMatrix.m32 = -1 ∧
    -D3DXVec3Dot
      (run ⟨Real.sqrt, Real.sin, Real.cos, Real.tan, Real.arcsin, Real.arctan, Real.pi⟩
        [Op.lookAt .zAxis (.val ⟨1, 0, 1⟩) (.val ⟨0, 1, 0⟩)]).m_zAxis
      (run ⟨Real.sqrt, Real.sin, Real.cos, Real.tan, Real.arcsin, Real.arctan, Real.pi⟩
        [Op.lookAt .zAxis (.val ⟨1, 0, 1⟩) (.val ⟨0, 1, 0⟩)]).m_eye = 0 := by
  have hz : (run ⟨Real.sqrt, Real.sin, Real.cos, Real.tan, Real.arcsin, Real.arctan, Real.pi⟩
      [Op.lookAt .zAxis (.val ⟨1, 0, 1⟩) (.val ⟨0, 1, 0⟩)]).m_zAxis = ⟨1, 0, 0⟩ := by
    simp [run, step, lookAt, VecRef.read, Camera.new, D3DXVec3Normalize, D3DXVec3Length,
      D3DXVec3LengthSq, D3DXVECTOR3.sub]
  have hx : (run ⟨Real.sqrt, Real.sin, Real.cos, Real.tan, Real.arcsin, Real.arctan, Real.pi⟩
      [Op.lookAt .zAxis (.val ⟨1, 0, 1⟩) (.val ⟨0, 1, 0⟩)]).m_xAxis = ⟨0, 0, -1⟩ := by
    simp [run, step, lookAt, VecRef.read, Camera.new, D3DXVec3Normalize, D3DXVec3Length,
      D3DXVec3LengthSq, D3DXVec3Cross, D3DXVECTOR3.sub]
  have he : (run ⟨Real.sqrt, Real.sin, Real.cos, Real.tan, Real.arcsin, Real.arctan, Real.pi⟩
      [Op.lookAt .zAxis (.val ⟨1, 0, 1⟩) (.val ⟨0, 1, 0⟩)]).m_eye = ⟨0, 0, 1⟩ := rfl
  have h30 : (run ⟨Real.sqrt, Real.sin, Real.cos, Real.tan, Real.arcsin, Real.arctan, Real.pi⟩
      [Op.lookAt .zAxis (.val ⟨1, 0, 1⟩) (.val ⟨0, 1, 0⟩)]).m_viewMatrix.m30
      = -D3DXVec3Dot
          (run ⟨Real.sqrt, Real.sin, Real.cos, Real.tan, Real.arcsin, Real.arctan, Real.pi⟩
            [Op.lookAt .zAxis (.val ⟨1, 0, 1⟩) (.val ⟨0, 1, 0⟩)]).m_xAxis
          (run ⟨Real.sqrt, Real.sin, Real.cos, Real.tan, Real.arcsin, Real.arctan, Real.pi⟩
            [Op.lookAt .zAxis (.val ⟨1, 0, 1⟩) (.val ⟨0, 1, 0⟩)]).m_zAxis := rfl
  have h32 : (run ⟨Real.sqrt, Real.sin, Real.cos, Real.tan, Real.arcsin, Real.arctan, Real.pi⟩
      [Op.lookAt .zAxis (.val ⟨1, 0, 1⟩) (.val ⟨0, 1, 0⟩)]).m_viewMatrix.m32
      = -D3DXVec3Dot
          (run ⟨Real.sqrt, Real.sin, Real.cos, Real.tan, Real.arcsin, Real.arctan, Real.pi⟩
            [Op.lookAt .zAxis (.val ⟨1, 0, 1⟩) (.val ⟨0, 1, 0⟩)]).m_zAxis
          (run ⟨Real.sqrt, Real.sin, Real.cos, Real.tan, Real.arcsin, Real.arctan, Real.pi⟩
            [Op.lookAt .zAxis (.val ⟨1, 0, 1⟩) (.val ⟨0, 1, 0⟩)]).m_zAxis := rfl
  refine ⟨he, hx, hz, ?_, ?_, ?_, ?_⟩
  · rw [h30, hx, hz]; simp [D3DXVec3Dot]
  · rw [hx, he]; simp [D3DXVec3Dot]
  · rw [h32, hz]; simp [D3DXVec3Dot]
  · rw [hz, he]; simp [D3DXVec3Dot]

/-- C4 (amended): in every state reachable from the constructor by a sequence of public
operations in which no `lookAt(eye, target, up)` is given, as `eye`, a reference to the
camera's own `xAxis`, `yAxis`, `zAxis` or view direction, the view matrix has rows
`[x.x, y.x, z.x, 0]`, `[x.y, y.y, z.y, 0]`, `[x.z, y.z, z.z, 0]`,
`[-dot(x,eye), -dot(y,eye), -dot(z,eye), 1]` for the current axes and position: it is never
stale. -/
theorem Camera.viewMatrix_never_stale {α : Type} [LinearOrderedField α] (lm : Libm α)
    (ops : List (Op α)) (hops : eachOp lm eyeStable Camera.new ops) :
    (run lm ops).m_viewMatrix =
      { m00 := (run lm ops).m_xAxis.x, m01 := (run lm ops).m_yAxis.x
        m02 := (run lm ops).m_zAxis.x, m03 := 0
        m10 := (run lm ops).m_xAxis.y, m11 := (run lm ops).m_yAxis.y
        m12 := (run lm ops).m_zAxis.y, m13 := 0
        m20 := (run lm ops).m_xAxis.z, m21 := (run lm ops).m_yAxis.z
        m22 := (run lm ops).m_zAxis.z, m23 := 0
        m30 := -D3DXVec3Dot (run lm ops).m_xAxis (run lm ops).m_eye
        m31 := -D3DXVec3Dot (run lm ops).m_yAxis (run lm ops).m_eye
        m32 := -D3DXVec3Dot (run lm ops).m_zAxis (run lm ops).m_eye
        m33 := 1 } :=
  viewCurrent_foldl lm ops Camera.new viewCurrent_new hops

/-- A concrete instance of the amended C4: a `lookAt` whose `eye` is the camera's own
position and whose `up` is its own `yAxis`, then a move, a rotation, a switch to first person
and a physics update; entry (3,3) of the view matrix is 1. -/
theorem Camera.viewMatrix_never_stale_witness :
    (run ⟨Real.sqrt, Real.sin, Real.cos, Real.tan, Real.arcsin, Real.arctan, Real.pi⟩
      [Op.lookAt .position (.val ⟨1, 0, 1⟩) .yAxis, Op.move 1 2 3, Op.rotate 10 20 30,
        Op.setBehavior CAMERA_BEHAVIOR_FIRST_PERSON,
        Op.updatePosition (.val ⟨0, 0, 1⟩) 1]).m_viewMatrix.m33 = 1 :=
  congrArg D3DXMATRIX.m33
    (Camera.viewMatrix_never_stale
      ⟨Real.sqrt, Real.sin, Real.cos, Real.tan, Real.arcsin, Real.arctan, Real.pi⟩
      [Op.lookAt .position (.val ⟨1, 0, 1⟩) .yAxis, Op.move 1 2 3, Op.rotate 10 20 30,
        Op.setBehavior CAMERA_BEHAVIOR_FIRST_PERSON, Op.updatePosition (.val ⟨0, 0, 1⟩) 1]
      ⟨trivial, trivial, trivial, trivial, trivial, trivial⟩)

/-- C5 (counterexample): three calls on the fresh camera that meet the conditions of the
claim. First, in exact arithmetic, `lookAt((0,0,-1), getPosition(), (0,1,0))`: `target`
refers to the position (0,0,0), which differs from `eye` and lies in the direction (0,0,1)
not parallel to `up`; the method first assigns the position and then reads `target` as equal
to `eye`, and all three axes are (0,0,0). Second, in exact arithmetic,
`lookAt((0,0,0), (1,0,0), getZAxis())`: `up` refers to `m_zAxis` = (0,0,1), not parallel to
the direction (1,0,0); the method reads `up` after it has assigned `zAxis` = (1,0,0), and
`xAxis` and `yAxis` are (0,0,0). Third, in binary32,
`lookAt((0,0,0), (2^70,0,0), (0,1,0))`: the squared length of `target - eye` overflows to
infinity and the division by the infinite length gives zero axes. -/
theorem Camera.lookAt_basis_fails :
    ((Camera.new : Camera ℝ).m_eye ≠ ⟨0, 0, -1⟩ ∧
      D3DXVec3Cross (⟨0, 1, 0⟩ : D3DXVECTOR3 ℝ)
        ((Camera.new : Camera ℝ).m_eye.sub ⟨0, 0, -1⟩) ≠ ⟨0, 0, 0⟩ ∧
      (lookAt ⟨Real.sqrt, Real.sin, Real.cos, Real.tan, Real.arcsin, Real.arctan, Real.pi⟩
        Camera.new (.val ⟨0, 0, -1⟩) .position (.val ⟨0, 1, 0⟩)).m_eye = ⟨0, 0, -1⟩ ∧
      (lookAt ⟨Real.sqrt, Real.sin, Real.cos, Real.tan, Real.arcsin, Real.arctan, Real.pi⟩
        Camera.new (.val ⟨0, 0, -1⟩) .position (.val ⟨0, 1, 0⟩)).m_xAxis = ⟨0, 0, 0⟩ ∧
      (lookAt ⟨Real.sqrt, Real.sin, Real.cos, Real.tan, Real.arcsin, Real.arctan, Real.pi⟩
        Camera.new (.val ⟨0, 0, -1⟩) .position (.val ⟨0, 1, 0⟩)).m_yAxis = ⟨0, 0, 0⟩ ∧
      (lookAt ⟨Real.sqrt, Real.sin, Real.cos, Real.tan, Real.arcsin, Real.arctan, Real.pi⟩
        Camera.new (.val ⟨0, 0, -1⟩) .position (.val ⟨0, 1, 0⟩)).m_zAxis = ⟨0, 0, 0⟩) ∧
    (D3DXVec3Cross (Camera.new : Camera ℝ).m_zAxis (D3DXVECTOR3.sub ⟨1, 0, 0⟩ ⟨0, 0, 0⟩)
        ≠ ⟨0, 0, 0⟩ ∧
      (lookAt ⟨Real.sqrt, Real.sin, Real.cos, Real.tan, Real.arcsin, Real.arctan, Real.pi⟩
        Camera.new (.val ⟨0, 0, 0⟩) (.val ⟨1, 0, 0⟩) .zAxis).m_zAxis = ⟨1, 0, 0⟩ ∧
      (lookAt ⟨Real.sqrt, Real.sin, Real.cos, Real.tan, Real.arcsin, Real.arctan, Real.pi⟩
        Camera.new (.val ⟨0, 0, 0⟩) (.val ⟨1, 0, 0⟩) .zAxis).m_xAxis = ⟨0, 0, 0⟩ ∧
      (lookAt ⟨Real.sqrt, Real.sin, Real.cos, Real.tan, Real.arcsin, Real.arctan, Real.pi⟩
        Camera.new (.val ⟨0, 0, 0⟩) (.val ⟨1, 0, 0⟩) .zAxis).m_yAxis = ⟨0, 0, 0⟩) ∧
    (∀ (sinf cosf tanf asinf atanf : F32 → F32) (pi : F32),
      (⟨F32.fin 1 70, 0, 0⟩ : D3DXVECTOR3 F32) ≠ ⟨0, 0, 0⟩ ∧
      D3DXVec3Cross (⟨0, 1, 0⟩ : D3DXVECTOR3 F32)
        (D3DXVECTOR3.sub ⟨F32.fin 1 70, 0, 0⟩ ⟨0, 0, 0⟩) = ⟨0, 0, F32.fin (-1) 70⟩ ∧
      D3DXVec3LengthSq (D3DXVECTOR3.sub ⟨F32.fin 1 70, 0, 0⟩ ⟨0, 0, 0⟩) = F32.inf false ∧
      (lookAt ⟨F32.sqrt, sinf, cosf, tanf, asinf, atanf, pi⟩
        Camera.new (.val ⟨0, 0, 0⟩) (.val ⟨F32.fin 1 70, 0, 0⟩) (.val ⟨0, 1, 0⟩)).m_xAxis = ⟨0, 0, 0⟩ ∧
      (lookAt ⟨F32.sqrt, sinf, cosf, tanf, asinf, atanf, pi⟩
        Camera.new (.val ⟨0, 0, 0⟩) (.val ⟨F32.fin 1 70, 0, 0⟩) (.val ⟨0, 1, 0⟩)).m_yAxis = ⟨0, 0, 0⟩ ∧
      (lookAt ⟨F32.sqrt, sinf, cosf, tanf, asinf, atanf, pi⟩
        Camera.new (.val ⟨0, 0, 0⟩) (.val ⟨F32.fin 1 70, 0, 0⟩) (.val ⟨0, 1, 0⟩)).m_zAxis = ⟨0, 0, 0⟩) := by
  refine ⟨⟨?_, ?_, rfl, ?_, ?_, ?_⟩, ⟨?_, ?_, ?_, ?_⟩, ?_⟩
  · intro h
    have := congrArg D3DXVECTOR3.z h
    simp [Camera.new] at this
  · intro h
    have := congrArg D3DXVECTOR3.x h
    simp [D3DXVec3Cross, D3DXVECTOR3.sub, Camera.new] at this
  · simp [lookAt, VecRef.read, D3DXVec3Normalize, D3DXVec3Length, D3DXVec3LengthSq,
      D3DXVec3Cross, D3DXVECTOR3.sub]
  · simp [lookAt, VecRef.read, D3DXVec3Normalize, D3DXVec3Length, D3DXVec3LengthSq,
      D3DXVec3Cross, D3DXVECTOR3.sub]
  · simp [lookAt, VecRef.read, D3DXVec3Normalize, D3DXVec3Length, D3DXVec3LengthSq,
      D3DXVECTOR3.sub]
  · intro h
    have := congrArg D3DXVECTOR3.y h
    simp [D3DXVec3Cross, D3DXVECTOR3.sub, Camera.new] at this
  · simp [lookAt, VecRef.read, D3DXVec3Normalize, D3DXVec3Length, D3DXVec3LengthSq,
      D3DXVECTOR3.sub]
  · simp [lookAt, VecRef.read, D3DXVec3Normalize, D3DXVec3Length, D3DXVec3LengthSq,
      D3DXVec3Cross, D3DXVECTOR3.sub]
  · simp [lookAt, VecRef.read, D3DXVec3Normalize, D3DXVec3Length, D3DXVec3LengthSq,
      D3DXVec3Cross, D3DXVECTOR3.sub]
  · intro sinf cosf tanf asinf atanf pi
    refine ⟨?_, rfl, rfl, rfl, rfl, rfl⟩
    intro h
    have h1 : F32.fin 1 70 = 0 := congrArg D3DXVECTOR3.x h
    exact absurd h1 (by decide!)

/-- C5 (amended): in exact real arithmetic, for all `eye`, `target`, `up`, each a vector of
the caller or a reference to a vector of the camera, where `target` is not a reference to the
camera's position and `up` is not a reference to its position, `zAxis` or view direction (the
members `lookAt` assigns before it reads these arguments), with `target ≠ eye` and `up` not
parallel to `target - eye`: `lookAt(eye, target, up)` leaves position = eye,
zAxis = viewDirection = normalize(target - eye), xAxis = normalize(cross(up, zAxis)),
yAxis = cross(zAxis, xAxis), an orthonormal set of axes and cross(xAxis, yAxis) = zAxis. -/
theorem Camera.lookAt_basis (c : Camera ℝ) (eye target up : VecRef ℝ)
    (hst : stableTarget target) (hsu : stableUp up)
    (ht : target.read c ≠ eye.read c)
    (hup : D3DXVec3Cross (up.read c) ((target.read c).sub (eye.read c)) ≠ ⟨0, 0, 0⟩) :
    (lookAt ⟨Real.sqrt, Real.sin, Real.cos, Real.tan, Real.arcsin, Real.arctan, Real.pi⟩
        c eye target up).m_eye = eye.read c ∧
    (lookAt ⟨Real.sqrt, Real.sin, Real.cos, Real.tan, Real.arcsin, Real.arctan, Real.pi⟩
        c eye target up).m_zAxis
      = D3DXVec3Normalize ⟨Real.sqrt, Real.sin, Real.cos, Real.tan, Real.arcsin, Real.arctan, Real.pi⟩
          ((target.read c).sub (eye.read c)) ∧
    (lookAt ⟨Real.sqrt, Real.sin, Real.cos, Real.tan, Real.arcsin, Real.arctan, Real.pi⟩
        c eye target up).m_viewDir
      = D3DXVec3Normalize ⟨Real.sqrt, Real.sin, Real.cos, Real.tan, Real.arcsin, Real.arctan, Real.pi⟩
          ((target.read c).sub (eye.read c)) ∧
    (lookAt ⟨Real.sqrt, Real.sin, Real.cos, Real.tan, Real.arcsin, Real.arctan, Real.pi⟩
        c eye target up).m_xAxis
      = D3DXVec3Normalize ⟨Real.sqrt, Real.sin, Real.cos, Real.tan, Real.arcsin, Real.arctan, Real.pi⟩
          (D3DXVec3Cross (up.read c)
            (lookAt ⟨Real.sqrt, Real.sin, Real.cos, Real.tan, Real.arcsin, Real.arctan, Real.pi⟩
        c eye target up).m_zAxis) ∧
    (lookAt ⟨Real.sqrt, Real.sin, Real.cos, Real.tan, Real.arcsin, Real.arctan, Real.pi⟩
        c eye target up).m_yAxis
      = D3DXVec3Cross
          (lookAt ⟨Real.sqrt, Real.sin, Real.cos, Real.tan, Real.arcsin, Real.arctan, Real.pi⟩
        c eye target up).m_zAxis
          (lookAt ⟨Real.sqrt, Real.sin, Real.cos, Real.tan, Real.arcsin, Real.arctan, Real.pi⟩
        c eye target up).m_xAxis ∧
    Orthonormal ⟨Real.sqrt, Real.sin, Real.cos, Real.tan, Real.arcsin, Real.arctan, Real.pi⟩
      (lookAt ⟨Real.sqrt, Real.sin, Real.cos, Real.tan, Real.arcsin, Real.arctan, Real.pi⟩
        c eye target up).m_xAxis
      (lookAt ⟨Real.sqrt, Real.sin, Real.cos, Real.tan, Real.arcsin, Real.arctan, Real.pi⟩
        c eye target up).m_yAxis
      (lookAt ⟨Real.sqrt, Real.sin, Real.cos, Real.tan, Real.arcsin, Real.arctan, Real.pi⟩
        c eye target up).m_zAxis ∧
    D3DXVec3Cross
      (lookAt ⟨Real.sqrt, Real.sin, Real.cos, Real.tan, Real.arcsin, Real.arctan, Real.pi⟩
        c eye target up).m_xAxis
      (lookAt ⟨Real.sqrt, Real.sin, Real.cos, Real.tan, Real.arcsin, Real.arctan, Real.pi⟩
        c eye target up).m_yAxis
      = (lookAt ⟨Real.sqrt, Real.sin, Real.cos, Real.tan, Real.arcsin, Real.arctan, Real.pi⟩
        c eye target up).m_zAxis := by
  obtain ⟨fe, fx, fy, fz, fv, _⟩ := lookAt_axes_of_stable
    ⟨Real.sqrt, Real.sin, Real.cos, Real.tan, Real.arcsin, Real.arctan, Real.pi⟩ c eye target up
    hst hsu
  rw [fe, fx, fy, fz, fv]
  obtain ⟨ez, ex, ey, hx, hz, hxz⟩ := lookAt_axes _ real_libm.sqrtf_eq c (eye.read c)
    (target.read c) (up.read c) hup
  refine ⟨rfl, ez, ?_, ?_, ey, ?_, ?_⟩
  · rw [lookAt_viewDir, ez]
  · rw [ex, ez]
  · rw [real_orthonormal_iff _ real_libm.sqrtf_eq, ey]
    exact orthoSq_of_pair _ _ hx hz hxz
  · rw [ey]
    exact vec3_cross_cross_right _ _ hx hxz

/-- A concrete instance of the amended C5: on the fresh camera, `lookAt` from the camera's
own position (passed as the reference `getPosition()` returns) towards (0,0,1) with the
camera's own `yAxis` as `up` gives a right-handed basis. -/
theorem Camera.lookAt_basis_witness :
    D3DXVec3Cross
      (lookAt ⟨Real.sqrt, Real.sin, Real.cos, Real.tan, Real.arcsin, Real.arctan, Real.pi⟩
        Camera.new .position (.val ⟨0, 0, 1⟩) .yAxis).m_xAxis
      (lookAt ⟨Real.sqrt, Real.sin, Real.cos, Real.tan, Real.arcsin, Real.arctan, Real.pi⟩
        Camera.new .position (.val ⟨0, 0, 1⟩) .yAxis).m_yAxis
      = (lookAt ⟨Real.sqrt, Real.sin, Real.cos, Real.tan, Real.arcsin, Real.arctan, Real.pi⟩
        Camera.new .position (.val ⟨0, 0, 1⟩) .yAxis).m_zAxis :=
  (Camera.lookAt_basis Camera.new .position (.val ⟨0, 0, 1⟩) .yAxis trivial trivial
    (fun h => one_ne_zero (congrArg D3DXVECTOR3.z h))
    (fun h => by
      have := congrArg D3DXVECTOR3.x h
      simp [D3DXVec3Cross, D3DXVECTOR3.sub, VecRef.read, Camera.new] at this)).2.2.2.2.2.2

/-- C6 (counterexample): three non-degenerate calls on the fresh camera. First, in exact
arithmetic, `lookAt(getZAxis(), (1,0,1), (0,1,0))`: `eye` refers to `m_zAxis` = (0,0,1); the
last row of the view matrix is built after `m_zAxis` has been overwritten, and the matrix
maps the point (0,0,1) given as `eye` to (-1, 0, -1), not to the origin. Second, in exact
arithmetic, `lookAt((0,0,-1), getPosition(), (0,1,0))`: `target` refers to the position
(0,0,0), at distance 1 from `eye`; the method assigns the position before it reads `target`,
the axes are zero and the matrix maps (0,0,0) to (0,0,0), not to (0,0,1). Third, in binary32,
`lookAt((0,0,0), (2^70,0,0), (0,1,0))`: the squared length overflows, the axes are zero and
the matrix maps `target` to (0, 0, 0), not to distance 2^70 on the camera z axis. -/
theorem Camera.lookAt_view_maps_fails :
    ((⟨1, 0, 1⟩ : D3DXVECTOR3 ℝ) ≠ (Camera.new : Camera ℝ).m_zAxis ∧
      D3DXVec3Cross (⟨0, 1, 0⟩ : D3DXVECTOR3 ℝ)
        (D3DXVECTOR3.sub ⟨1, 0, 1⟩ (Camera.new : Camera ℝ).m_zAxis) ≠ ⟨0, 0, 0⟩ ∧
      D3DXVec3Transform (Camera.new : Camera ℝ).m_zAxis
        (lookAt ⟨Real.sqrt, Real.sin, Real.cos, Real.tan, Real.arcsin, Real.arctan, Real.pi⟩
          Camera.new .zAxis (.val ⟨1, 0, 1⟩) (.val ⟨0, 1, 0⟩)).m_viewMatrix
        = ⟨-1, 0, -1, 1⟩) ∧
    ((Camera.new : Camera ℝ).m_eye ≠ ⟨0, 0, -1⟩ ∧
      D3DXVec3Cross (⟨0, 1, 0⟩ : D3DXVECTOR3 ℝ)
        ((Camera.new : Camera ℝ).m_eye.sub ⟨0, 0, -1⟩) ≠ ⟨0, 0, 0⟩ ∧
      D3DXVec3Length ⟨Real.sqrt, Real.sin, Real.cos, Real.tan, Real.arcsin, Real.arctan, Real.pi⟩
        ((Camera.new : Camera ℝ).m_eye.sub ⟨0, 0, -1⟩) = 1 ∧
      D3DXVec3Transform (Camera.new : Camera ℝ).m_eye
        (lookAt ⟨Real.sqrt, Real.sin, Real.cos, Real.tan, Real.arcsin, Real.arctan, Real.pi⟩
          Camera.new (.val ⟨0, 0, -1⟩) .position (.val ⟨0, 1, 0⟩)).m_viewMatrix
        = ⟨0, 0, 0, 1⟩) ∧
    (∀ (sinf cosf tanf asinf atanf : F32 → F32) (pi : F32),
      (⟨F32.fin 1 70, 0, 0⟩ : D3DXVECTOR3 F32) ≠ ⟨0, 0, 0⟩ ∧
      D3DXVec3Cross (⟨0, 1, 0⟩ : D3DXVECTOR3 F32)
        (D3DXVECTOR3.sub ⟨F32.fin 1 70, 0, 0⟩ ⟨0, 0, 0⟩) = ⟨0, 0, F32.fin (-1) 70⟩ ∧
      D3DXVec3Transform ⟨F32.fin 1 70, 0, 0⟩
        (lookAt ⟨F32.sqrt, sinf, cosf, tanf, asinf, atanf, pi⟩
          Camera.new (.val ⟨0, 0, 0⟩) (.val ⟨F32.fin 1 70, 0, 0⟩)
          (.val ⟨0, 1, 0⟩)).m_viewMatrix
        = ⟨0, 0, 0, 1⟩) := by
  refine ⟨⟨?_, ?_, ?_⟩, ⟨?_, ?_, ?_, ?_⟩, ?_⟩
  · intro h
    have := congrArg D3DXVECTOR3.x h
    simp [Camera.new] at this
  · intro h
    have := congrArg D3DXVECTOR3.z h
    simp [D3DXVec3Cross, D3DXVECTOR3.sub, Camera.new] at this
  · ext <;> simp [lookAt, VecRef.read, Camera.new, D3DXVec3Normalize, D3DXVec3Length,
      D3DXVec3LengthSq, D3DXVec3Cross, D3DXVec3Dot, D3DXVec3Transform, D3DXVECTOR3.sub,
      D3DXMatrixIdentity]
  · intro h
    have := congrArg D3DXVECTOR3.z h
    simp [Camera.new] at this
  · intro h
    have := congrArg D3DXVECTOR3.x h
    simp [D3DXVec3Cross, D3DXVECTOR3.sub, Camera.new] at this
  · simp [D3DXVec3Length, D3DXVec3LengthSq, D3DXVECTOR3.sub, Camera.new]
  · ext <;> simp [lookAt, VecRef.read, Camera.new, D3DXVec3Normalize, D3DXVec3Length,
      D3DXVec3LengthSq, D3DXVec3Cross, D3DXVec3Dot, D3DXVec3Transform, D3DXVECTOR3.sub,
      D3DXMatrixIdentity]
  · intro sinf cosf tanf asinf atanf pi
    refine ⟨?_, rfl, rfl⟩
    intro h
    have h1 : F32.fin 1 70 = 0 := congrArg D3DXVECTOR3.x h
    exact absurd h1 (by decide!)

/-- C6 (amended): in exact real arithmetic, for every non-degenerate `lookAt(eye, target, up)`
(`target ≠ eye`, `up` not parallel to `target - eye`) whose `eye` is not a reference to the
camera's own `xAxis`, `yAxis`, `zAxis` or view direction and whose `target` is not a reference
to its position, the resulting view matrix, applied to row vectors on the left, maps the world
point `eye` to the camera-space origin and the world point `target` to
`(0, 0, |target - eye|)`. -/
theorem Camera.lookAt_view_maps (c : Camera ℝ) (eye target up : VecRef ℝ)
    (hse : stableEye eye) (hst : stableTarget target)
    (ht : target.read c ≠ eye.read c)
    (hup : D3DXVec3Cross (up.read c) ((target.read c).sub (eye.read c)) ≠ ⟨0, 0, 0⟩) :
    D3DXVec3Transform (eye.read c)
      (lookAt ⟨Real.sqrt, Real.sin, Real.cos, Real.tan, Real.arcsin, Real.arctan, Real.pi⟩
        c eye target up).m_viewMatrix = ⟨0, 0, 0, 1⟩ ∧
    D3DXVec3Transform (target.read c)
      (lookAt ⟨Real.sqrt, Real.sin, Real.cos, Real.tan, Real.arcsin, Real.arctan, Real.pi⟩
        c eye target up).m_viewMatrix
      = ⟨0, 0, D3DXVec3Length ⟨Real.sqrt, Real.sin, Real.cos, Real.tan, Real.arcsin, Real.arctan, Real.pi⟩
          ((target.read c).sub (eye.read c)), 1⟩ := by
  rw [lookAt_target_read _ c eye target up hst, lookAt_up_effective _ c eye _ up hse]
  generalize up.read _ = u
  generalize eye.read c = e at *
  generalize target.read c = t at *
  obtain ⟨ez, hxz, hyz⟩ := lookAt_perp
    ⟨Real.sqrt, Real.sin, Real.cos, Real.tan, Real.arcsin, Real.arctan, Real.pi⟩ c e t u
  have hd : t.sub e ≠ ⟨0, 0, 0⟩ := by
    intro h0
    apply ht
    have h1 := congrArg D3DXVECTOR3.x h0
    have h2 := congrArg D3DXVECTOR3.y h0
    have h3 := congrArg D3DXVECTOR3.z h0
    simp only [D3DXVECTOR3.sub] at h1 h2 h3
    ext <;> linarith
  obtain ⟨hL, hLL, en⟩ := real_normalize_eq _ real_libm.sqrtf_eq _ hd
  have hz : D3DXVec3Dot
      (lookAtValues ⟨Real.sqrt, Real.sin, Real.cos, Real.tan, Real.arcsin, Real.arctan, Real.pi⟩ c e t u).m_zAxis
      (lookAtValues ⟨Real.sqrt, Real.sin, Real.cos, Real.tan, Real.arcsin, Real.arctan, Real.pi⟩ c e t u).m_zAxis
      = 1 := by
    rw [ez]
    exact real_normalize_unit _ real_libm.sqrtf_eq _ hd
  rw [lookAt_viewMatrix]
  generalize (lookAtValues ⟨Real.sqrt, Real.sin, Real.cos, Real.tan, Real.arcsin, Real.arctan, Real.pi⟩
    c e t u).m_xAxis = x at *
  generalize (lookAtValues ⟨Real.sqrt, Real.sin, Real.cos, Real.tan, Real.arcsin, Real.arctan, Real.pi⟩
    c e t u).m_yAxis = y at *
  generalize (lookAtValues ⟨Real.sqrt, Real.sin, Real.cos, Real.tan, Real.arcsin, Real.arctan, Real.pi⟩
    c e t u).m_zAxis = z at *
  generalize D3DXVec3Length ⟨Real.sqrt, Real.sin, Real.cos, Real.tan, Real.arcsin, Real.arctan, Real.pi⟩
    (t.sub e) = L at *
  rw [en] at ez
  have e1 : t.x - e.x = L * z.x := by rw [ez]; simp only [D3DXVECTOR3.sub]; field_simp
  have e2 : t.y - e.y = L * z.y := by rw [ez]; simp only [D3DXVECTOR3.sub]; field_simp
  have e3 : t.z - e.z = L * z.z := by rw [ez]; simp only [D3DXVECTOR3.sub]; field_simp
  simp only [D3DXVec3Dot] at hz hxz hyz
  constructor
  · ext <;> simp only [D3DXVec3Transform, D3DXVec3Dot] <;> ring
  · ext <;> simp only [D3DXVec3Transform, D3DXVec3Dot]
    · linear_combination x.x * e1 + x.y * e2 + x.z * e3 + L * hxz
    · linear_combination y.x * e1 + y.y * e2 + y.z * e3 + L * hyz
    · linear_combination z.x * e1 + z.y * e2 + z.z * e3 + L * hz
    · ring

/-- A concrete instance of the amended C6: from the fresh camera's own position, passed as
the reference `getPosition()` returns, towards the point three units down world z, with the
camera's own `yAxis` as `up`. -/
theorem Camera.lookAt_view_maps_witness :
    D3DXVec3Transform (⟨0, 0, 3⟩ : D3DXVECTOR3 ℝ)
      (lookAt ⟨Real.sqrt, Real.sin, Real.cos, Real.tan, Real.arcsin, Real.arctan, Real.pi⟩
        Camera.new .position (.val ⟨0, 0, 3⟩) .yAxis).m_viewMatrix
      = ⟨0, 0, D3DXVec3Length ⟨Real.sqrt, Real.sin, Real.cos, Real.tan, Real.arcsin, Real.arctan, Real.pi⟩
          (D3DXVECTOR3.sub ⟨0, 0, 3⟩ (Camera.new : Camera ℝ).m_eye), 1⟩ :=
  (Camera.lookAt_view_maps Camera.new .position (.val ⟨0, 0, 3⟩) .yAxis trivial trivial
    (fun h => by
      have := congrArg D3DXVECTOR3.z h
      simp [VecRef.read, Camera.new] at this)
    (fun h => by
      have := congrArg D3DXVECTOR3.x h
      simp [D3DXVec3Cross, D3DXVECTOR3.sub, VecRef.read, Camera.new] at this)).2

/-- C9 (evaluation of the code): with `fovX = 90` and aspect 2 the horizontal scale
`projectionMatrix[0][0]` is 2, while `1/tan(fovX_radians/2)` is 1; the view-space point with
`x = z*tan(fovX/2)` at depth `z = 1` projects to normalized x = 2, not 1. -/
theorem Camera.perspective_horizontal_scale_at_aspect_two :
    (perspective ⟨Real.sqrt, Real.sin, Real.cos, Real.tan, Real.arcsin, Real.arctan, Real.pi⟩
        Camera.new 90 2 (1 / 10) 1000).m_projMatrix.m00 = 2 ∧
    1 / Real.tan (D3DXToRadian ⟨Real.sqrt, Real.sin, Real.cos, Real.tan, Real.arcsin,
        Real.arctan, Real.pi⟩ 90 / 2) = 1 ∧
    (1 * Real.tan (D3DXToRadian ⟨Real.sqrt, Real.sin, Real.cos, Real.tan, Real.arcsin,
        Real.arctan, Real.pi⟩ 90 / 2))
      * (perspective ⟨Real.sqrt, Real.sin, Real.cos, Real.tan, Real.arcsin, Real.arctan, Real.pi⟩
        Camera.new 90 2 (1 / 10) 1000).m_projMatrix.m00
      / (1 * (perspective ⟨Real.sqrt, Real.sin, Real.cos, Real.tan, Real.arcsin, Real.arctan,
        Real.pi⟩ Camera.new 90 2 (1 / 10) 1000).m_projMatrix.m23) = 2 := by
  have ht : Real.tan (D3DXToRadian ⟨Real.sqrt, Real.sin, Real.cos, Real.tan, Real.arcsin,
      Real.arctan, Real.pi⟩ 90 / 2) = 1 := by
    rw [real_toRadian _ real_libm,
      show (90 : ℝ) * (Real.pi / 180) / 2 = Real.pi / 4 by ring]
    exact Real.tan_pi_div_four
  have e := (real_perspective_scales _ real_libm Camera.new 90 2 (1 / 10) 1000).1
  rw [ht] at e
  refine ⟨by rw [e]; norm_num, by rw [ht]; norm_num, ?_⟩
  rw [e, ht]
  simp [perspective]

/-- C11: in every state reachable from the constructor through public operations,
`move(dx, dy, dz)` sets the position to `position + dx*xAxis + dy*(0,1,0) + dz*f`, where
`f = zAxis` in FLIGHT behaviour and `f = normalize(cross(xAxis, (0,1,0)))` in FIRST_PERSON
behaviour. -/
theorem Camera.move_position {α : Type} [LinearOrderedField α] (lm : Libm α)
    (ops : List (Op α)) (dx dy dz : α) :
    (move lm (run lm ops) dx dy dz).m_eye
      = (((run lm ops).m_eye.add ((run lm ops).m_xAxis.scale dx)).add
          (D3DXVECTOR3.scale ⟨0, 1, 0⟩ dy)).add
          (D3DXVECTOR3.scale
            (match (run lm ops).m_behavior with
              | CAMERA_BEHAVIOR_FLIGHT => (run lm ops).m_zAxis
              | CAMERA_BEHAVIOR_FIRST_PERSON =>
                D3DXVec3Normalize lm (D3DXVec3Cross (run lm ops).m_xAxis ⟨0, 1, 0⟩))
            dz) := by
  have hv : (run lm ops).m_viewDir = (run lm ops).m_zAxis := viewDirIsZ_run lm ops
  rw [move_eye]
  cases hb : (run lm ops).m_behavior <;>
    simp [moveForwards, hb, hv, WORLD_YAXIS]

/-- C13 (counterexample): in binary32, the FLIGHT camera after
`lookAt((0,0,0), (7,5,8), (0,1,0))` has an orthonormal basis with `xAxis.y = 0` and a
non-vertical `zAxis`, and `setBehavior(FIRST_PERSON)` leaves it at height 0. For every math
library whose `asinf` keeps the accumulated pitch stored by the switch inside the clamp range
(with the correctly rounded `asinf(0.42562827) = 0.43965608` it is about -25.2 degrees),
`rotate(0, 0, 0)` re-orthogonalises the axes, the rounded cross
product leaves `xAxis.y = 2^-26`, and `move(1, 0, 0)` raises the position to height 2^-26. -/
theorem Camera.firstPerson_walk_binary32_drifts :
    F32.fin 1 (-26) ≠ 0 ∧
    (∀ sinf cosf tanf asinf atanf : F32 → F32,
      asinf (F32.fin 14281715 (-25)) = F32.fin 7376205 (-24) →
      ¬ (D3DXToDegree (F32.libm sinf cosf tanf asinf atanf)
        (-asinf (F32.fin 14281715 (-25))) + 0 > 90) ∧
      ¬ (D3DXToDegree (F32.libm sinf cosf tanf asinf atanf)
        (-asinf (F32.fin 14281715 (-25))) + 0 < -90)) ∧
    ∀ sinf cosf tanf asinf atanf : F32 → F32,
      ¬ (D3DXToDegree (F32.libm sinf cosf tanf asinf atanf)
        (-asinf (F32.fin 14281715 (-25))) + 0 > 90) →
      ¬ (D3DXToDegree (F32.libm sinf cosf tanf asinf atanf)
        (-asinf (F32.fin 14281715 (-25))) + 0 < -90) →
      (lookAt (F32.libm sinf cosf tanf asinf atanf) Camera.new
        (.val ⟨0, 0, 0⟩) (.val ⟨7, 5, 8⟩) (.val ⟨0, 1, 0⟩)).m_behavior = CAMERA_BEHAVIOR_FLIGHT ∧
      (lookAt (F32.libm sinf cosf tanf asinf atanf) Camera.new
        (.val ⟨0, 0, 0⟩) (.val ⟨7, 5, 8⟩) (.val ⟨0, 1, 0⟩)).m_xAxis
        = ⟨F32.fin 6313071 (-23), 0, F32.fin (-5523937) (-23)⟩ ∧
      (lookAt (F32.libm sinf cosf tanf asinf atanf) Camera.new
        (.val ⟨0, 0, 0⟩) (.val ⟨7, 5, 8⟩) (.val ⟨0, 1, 0⟩)).m_yAxis
        = ⟨F32.fin (-9404575) (-25), F32.fin 15181671 (-24), F32.fin (-5374043) (-24)⟩ ∧
      (lookAt (F32.libm sinf cosf tanf asinf atanf) Camera.new
        (.val ⟨0, 0, 0⟩) (.val ⟨7, 5, 8⟩) (.val ⟨0, 1, 0⟩)).m_zAxis
        = ⟨F32.fin 624825 (-20), F32.fin 14281715 (-25), F32.fin 2856343 (-22)⟩ ∧
      Orthonormal (F32.libm sinf cosf tanf asinf atanf)
        (lookAt (F32.libm sinf cosf tanf asinf atanf) Camera.new
        (.val ⟨0, 0, 0⟩) (.val ⟨7, 5, 8⟩) (.val ⟨0, 1, 0⟩)).m_xAxis
        (lookAt (F32.libm sinf cosf tanf asinf atanf) Camera.new
        (.val ⟨0, 0, 0⟩) (.val ⟨7, 5, 8⟩) (.val ⟨0, 1, 0⟩)).m_yAxis
        (lookAt (F32.libm sinf cosf tanf asinf atanf) Camera.new
        (.val ⟨0, 0, 0⟩) (.val ⟨7, 5, 8⟩) (.val ⟨0, 1, 0⟩)).m_zAxis ∧
      D3DXVec3Cross WORLD_YAXIS
        (lookAt (F32.libm sinf cosf tanf asinf atanf) Camera.new
        (.val ⟨0, 0, 0⟩) (.val ⟨7, 5, 8⟩) (.val ⟨0, 1, 0⟩)).m_zAxis
        = ⟨F32.fin 2856343 (-22), 0, F32.fin (-624825) (-20)⟩ ∧
      (setBehavior (F32.libm sinf cosf tanf asinf atanf)
        (lookAt (F32.libm sinf cosf tanf asinf atanf) Camera.new
        (.val ⟨0, 0, 0⟩) (.val ⟨7, 5, 8⟩) (.val ⟨0, 1, 0⟩))
        CAMERA_BEHAVIOR_FIRST_PERSON).m_eye.y = 0 ∧
      ([GroundCall.rotate 0 0 0, GroundCall.move 1 0].foldl
        (groundStep (F32.libm sinf cosf tanf asinf atanf))
        (setBehavior (F32.libm sinf cosf tanf asinf atanf)
        (lookAt (F32.libm sinf cosf tanf asinf atanf) Camera.new
        (.val ⟨0, 0, 0⟩) (.val ⟨7, 5, 8⟩) (.val ⟨0, 1, 0⟩))
        CAMERA_BEHAVIOR_FIRST_PERSON)).m_eye.y = F32.fin 1 (-26) := by
  refine ⟨by decide!, fun sinf cosf tanf asinf atanf ha => ?_,
    fun sinf cosf tanf asinf atanf h1 h2 => ?_⟩
  · simp only [D3DXToDegree, F32.libm, ha]
    constructor <;> decide!
  · obtain ⟨fb, fz, fx, fy, _⟩ := lookAt_val_fields_any (F32.libm sinf cosf tanf asinf atanf)
      Camera.new ⟨0, 0, 0⟩ ⟨7, 5, 8⟩ ⟨0, 1, 0⟩
    have fe := lookAt_val_eye_any (F32.libm sinf cosf tanf asinf atanf) Camera.new ⟨0, 0, 0⟩ ⟨7, 5, 8⟩ ⟨0, 1, 0⟩
    have hn : D3DXVec3Normalize (F32.libm sinf cosf tanf asinf atanf)
        (D3DXVECTOR3.sub ⟨7, 5, 8⟩ ⟨0, 0, 0⟩) = ⟨F32.fin 624825 (-20), F32.fin 14281715 (-25), F32.fin 2856343 (-22)⟩ := by
      simp only [D3DXVec3Normalize, D3DXVec3Length, F32.libm]
      apply D3DXVECTOR3.ext <;> decide!
    have hb : (lookAt (F32.libm sinf cosf tanf asinf atanf) Camera.new
          (.val ⟨0, 0, 0⟩) (.val ⟨7, 5, 8⟩) (.val ⟨0, 1, 0⟩)).m_behavior = CAMERA_BEHAVIOR_FLIGHT := fb
    have hz : (lookAt (F32.libm sinf cosf tanf asinf atanf) Camera.new
          (.val ⟨0, 0, 0⟩) (.val ⟨7, 5, 8⟩) (.val ⟨0, 1, 0⟩)).m_zAxis = ⟨F32.fin 624825 (-20), F32.fin 14281715 (-25), F32.fin 2856343 (-22)⟩ := by
      rw [fz, hn]
    have hx : (lookAt (F32.libm sinf cosf tanf asinf atanf) Camera.new
          (.val ⟨0, 0, 0⟩) (.val ⟨7, 5, 8⟩) (.val ⟨0, 1, 0⟩)).m_xAxis = ⟨F32.fin 6313071 (-23), 0, F32.fin (-5523937) (-23)⟩ := by
      rw [fx, hn]
      simp only [D3DXVec3Normalize, D3DXVec3Length, F32.libm]
      apply D3DXVECTOR3.ext <;> decide!
    have hy : (lookAt (F32.libm sinf cosf tanf asinf atanf) Camera.new
          (.val ⟨0, 0, 0⟩) (.val ⟨7, 5, 8⟩) (.val ⟨0, 1, 0⟩)).m_yAxis = ⟨F32.fin (-9404575) (-25), F32.fin 15181671 (-24), F32.fin (-5374043) (-24)⟩ := by
      rw [fy, hn]
      simp only [D3DXVec3Normalize, D3DXVec3Length, F32.libm]
      apply D3DXVECTOR3.ext <;> decide!
    obtain ⟨sb, se, sz, sx, sa⟩ := setBehavior_relevel_fields_any (F32.libm sinf cosf tanf asinf atanf)
      (lookAt (F32.libm sinf cosf tanf asinf atanf) Camera.new
          (.val ⟨0, 0, 0⟩) (.val ⟨7, 5, 8⟩) (.val ⟨0, 1, 0⟩)) hb
    rw [fe] at se
    rw [fe, hz] at sz sx sa
    have hn1 : D3DXVec3Normalize (F32.libm sinf cosf tanf asinf atanf)
        ((D3DXVECTOR3.add ⟨0, 0, 0⟩ ⟨F32.fin 624825 (-20), F32.fin 14281715 (-25), F32.fin 2856343 (-22)⟩).sub ⟨0, 0, 0⟩) = ⟨F32.fin 624825 (-20), F32.fin 14281715 (-25), F32.fin 2856343 (-22)⟩ := by
      simp only [D3DXVec3Normalize, D3DXVec3Length, F32.libm]
      apply D3DXVECTOR3.ext <;> decide!
    rw [hn1] at sz sx sa
    have sx1 : (setBehavior (F32.libm sinf cosf tanf asinf atanf)
          (lookAt (F32.libm sinf cosf tanf asinf atanf) Camera.new
          (.val ⟨0, 0, 0⟩) (.val ⟨7, 5, 8⟩) (.val ⟨0, 1, 0⟩))
          CAMERA_BEHAVIOR_FIRST_PERSON).m_xAxis = ⟨F32.fin 6313071 (-23), 0, F32.fin (-5523937) (-23)⟩ := by
      rw [sx]
      simp only [D3DXVec3Normalize, D3DXVec3Length, F32.libm]
      apply D3DXVECTOR3.ext <;> decide!
    have h0 : D3DXToRadian (F32.libm sinf cosf tanf asinf atanf) 0 = 0 := by
      simp only [D3DXToRadian, F32.libm]
      decide!
    obtain ⟨rb, re, rx⟩ := rotate_firstPerson_still_any (F32.libm sinf cosf tanf asinf atanf)
      (setBehavior (F32.libm sinf cosf tanf asinf atanf)
          (lookAt (F32.libm sinf cosf tanf asinf atanf) Camera.new
          (.val ⟨0, 0, 0⟩) (.val ⟨7, 5, 8⟩) (.val ⟨0, 1, 0⟩))
          CAMERA_BEHAVIOR_FIRST_PERSON) 0 sb
      (by rw [sa]; exact h1) (by rw [sa]; exact h2) h0
    rw [se] at re
    rw [sx1, sz] at rx
    have rx1 : (rotate (F32.libm sinf cosf tanf asinf atanf)
        (setBehavior (F32.libm sinf cosf tanf asinf atanf)
          (lookAt (F32.libm sinf cosf tanf asinf atanf) Camera.new
          (.val ⟨0, 0, 0⟩) (.val ⟨7, 5, 8⟩) (.val ⟨0, 1, 0⟩))
          CAMERA_BEHAVIOR_FIRST_PERSON) 0 0 0).m_xAxis = ⟨F32.fin 6313071 (-23), F32.fin 1 (-26), F32.fin (-5523937) (-23)⟩ := by
      rw [rx]
      simp only [D3DXVec3Normalize, D3DXVec3Length, F32.libm]
      apply D3DXVECTOR3.ext <;> decide!
    refine ⟨hb, hx, hy, hz, ?_, ?_, ?_, ?_⟩
    · rw [hx, hy, hz]
      simp only [Orthonormal, D3DXVec3Length, F32.libm]
      refine ⟨?_, ?_, ?_, ?_, ?_, ?_⟩ <;> decide!
    · rw [hz]
      apply D3DXVECTOR3.ext <;> decide!
    · rw [se]
    · show (move (F32.libm sinf cosf tanf asinf atanf)
        (rotate (F32.libm sinf cosf tanf asinf atanf)
          (setBehavior (F32.libm sinf cosf tanf asinf atanf)
          (lookAt (F32.libm sinf cosf tanf asinf atanf) Camera.new
          (.val ⟨0, 0, 0⟩) (.val ⟨7, 5, 8⟩) (.val ⟨0, 1, 0⟩))
          CAMERA_BEHAVIOR_FIRST_PERSON) 0 0 0) 1 0 0).m_eye.y = F32.fin 1 (-26)
      rw [move_firstPerson_eye_any _ _ _ _ _ rb, re, rx1]
      simp only [D3DXVec3Normalize, D3DXVec3Length, F32.libm]
      decide!

/-- C13 (amended): in exact real arithmetic, first-person movement is parallel to the world
x-z plane: starting from the state produced by `setBehavior(FIRST_PERSON)` on a FLIGHT camera
with orthonormal basis and non-vertical `zAxis`, after any sequence of `rotate(h, p, r)` and
`move(dx, 0, dz)` calls `position.y` still has its value at the moment of the switch. -/
theorem Camera.firstPerson_walk_keeps_height (c : Camera ℝ)
    (hb : c.m_behavior = CAMERA_BEHAVIOR_FLIGHT)
    (hc : Orthonormal ⟨Real.sqrt, Real.sin, Real.cos, Real.tan, Real.arcsin, Real.arctan, Real.pi⟩
      c.m_xAxis c.m_yAxis c.m_zAxis)
    (hv : D3DXVec3Cross WORLD_YAXIS c.m_zAxis ≠ ⟨0, 0, 0⟩) (calls : List (GroundCall ℝ)) :
    (calls.foldl
      (groundStep ⟨Real.sqrt, Real.sin, Real.cos, Real.tan, Real.arcsin, Real.arctan, Real.pi⟩)
      (setBehavior ⟨Real.sqrt, Real.sin, Real.cos, Real.tan, Real.arcsin, Real.arctan, Real.pi⟩
        c CAMERA_BEHAVIOR_FIRST_PERSON)).m_eye.y
      = (setBehavior ⟨Real.sqrt, Real.sin, Real.cos, Real.tan, Real.arcsin, Real.arctan, Real.pi⟩
        c CAMERA_BEHAVIOR_FIRST_PERSON).m_eye.y := by
  rw [real_orthonormal_iff _ real_libm.sqrtf_eq] at hc
  have hinv := FPInv.of_setBehavior real_libm c hb hc.2.2.1 hv
  have hxy : (setBehavior ⟨Real.sqrt, Real.sin, Real.cos, Real.tan, Real.arcsin, Real.arctan,
      Real.pi⟩ c CAMERA_BEHAVIOR_FIRST_PERSON).m_xAxis.y = 0 := by
    rw [setBehavior_flight_to_firstPerson _ c hb]
    exact (relevel_axes _ real_libm.sound.sqrt_one c hc.2.2.1).2
  exact ground_walk real_libm calls _ hinv hxy

/-- A concrete instance of the amended C13: the default camera switched to first person, pitched up by
40 degrees, walked forward, turned and walked again stays at height 0. -/
theorem Camera.firstPerson_walk_keeps_height_witness :
    ([GroundCall.rotate 0 40 0, GroundCall.move 0 3, GroundCall.rotate 25 10 0,
        GroundCall.move 1 2].foldl
      (groundStep ⟨Real.sqrt, Real.sin, Real.cos, Real.tan, Real.arcsin, Real.arctan, Real.pi⟩)
      (setBehavior ⟨Real.sqrt, Real.sin, Real.cos, Real.tan, Real.arcsin, Real.arctan, Real.pi⟩
        (Camera.new : Camera ℝ) CAMERA_BEHAVIOR_FIRST_PERSON)).m_eye.y
      = (setBehavior ⟨Real.sqrt, Real.sin, Real.cos, Real.tan, Real.arcsin, Real.arctan, Real.pi⟩
        (Camera.new : Camera ℝ) CAMERA_BEHAVIOR_FIRST_PERSON).m_eye.y :=
  Camera.firstPerson_walk_keeps_height Camera.new rfl
    (by simp [Orthonormal, Camera.new, D3DXVec3Length, D3DXVec3LengthSq, D3DXVec3Dot])
    (fun h => by
      have := congrArg D3DXVECTOR3.x h
      simp [D3DXVec3Cross, Camera.new, WORLD_YAXIS] at this)
    [GroundCall.rotate 0 40 0, GroundCall.move 0 3, GroundCall.rotate 25 10 0,
      GroundCall.move 1 2]

/-- C14: from a state with `currentVelocity = (0,0,0)`, for every `elapsedSeconds >= 0` and
`direction = (0,0,0)`, given by value or as a reference to a vector of the camera,
`updatePosition` leaves the position unchanged (for any acceleration, maximum velocity,
orientation and behaviour). -/
theorem Camera.updatePosition_at_rest {α : Type} [LinearOrderedField α] (lm : Libm α)
    (c : Camera α) (direction : VecRef α) (elapsedTimeSec : α)
    (hv : c.m_currentVelocity = ⟨0, 0, 0⟩) (hd : direction.read c = ⟨0, 0, 0⟩)
    (ht : 0 ≤ elapsedTimeSec) :
    (updatePosition lm c direction elapsedTimeSec).m_eye = c.m_eye := by
  have h0 : ¬ D3DXVec3LengthSq c.m_currentVelocity ≠ 0 := by
    rw [hv]; simp [D3DXVec3LengthSq]
  rw [updatePosition_eye, if_neg h0]

/-- A concrete instance of C14: the default camera with acceleration (8, 8, 8) stays at the
origin over half a second. -/
theorem Camera.updatePosition_at_rest_witness :
    (updatePosition ⟨Real.sqrt, Real.sin, Real.cos, Real.tan, Real.arcsin, Real.arctan, Real.pi⟩
      (setAcceleration3 (Camera.new : Camera ℝ) 8 8 8) (.val ⟨0, 0, 0⟩) (1 / 2)).m_eye
      = ⟨0, 0, 0⟩ :=
  Camera.updatePosition_at_rest _ (setAcceleration3 (Camera.new : Camera ℝ) 8 8 8)
    (.val ⟨0, 0, 0⟩) (1 / 2) rfl rfl (by norm_num)

/-- C15 (counterexample): two runs with `v0 = 1`, `a = 1` and no intent. First, in binary32
with `dt = 0.2f` (the number 13421773/67108864): the claim promises velocity 0 from call
`ceil(v0/(a*dt)) = 5` on; the subtractions round, the program holds `2^-25` after the fifth
call (of `updateVelocity` and of `updatePosition`, with any math library) and reaches 0 only
with the sixth. Second, in exact arithmetic with `dt = 1` and maximum velocity 2,
`updatePosition(getPosition(), 1)` at the origin: `direction` refers to the position (0,0,0),
so `direction.x = 0` at the call; `move` shifts the position to (3/2, 0, 0) before
`updateVelocity` reads `direction`, which accelerates to the maximum 2 where the claim gives
`max(1 - 1, 0) = 0`. -/
theorem Camera.deceleration_rounding_overshoots_bound :
    (⌈(1 : ℚ) / (1 * (13421773 / 67108864))⌉₊ = 5 ∧
      (updateVelocityTimes
        (setAcceleration3 (setCurrentVelocity3 (Camera.new : Camera F32) 1 0 0) 1 0 0)
        ⟨0, 0, 0⟩ (13421773 / 67108864) 5).m_currentVelocity.x = F32.fin 1 (-25) ∧
      (∀ lm : Libm F32,
        (updatePositionTimes lm
          (setAcceleration3 (setCurrentVelocity3 (Camera.new : Camera F32) 1 0 0) 1 0 0)
          (.val ⟨0, 0, 0⟩) (13421773 / 67108864) 5).m_currentVelocity.x = F32.fin 1 (-25)) ∧
      (updateVelocityTimes
        (setAcceleration3 (setCurrentVelocity3 (Camera.new : Camera F32) 1 0 0) 1 0 0)
        ⟨0, 0, 0⟩ (13421773 / 67108864) 6).m_currentVelocity.x = 0) ∧
    ((VecRef.read
        (setVelocity3 (setAcceleration3 (setCurrentVelocity3 (Camera.new : Camera ℝ) 1 0 0)
        1 0 0) 2 0 0)
        .position).x = 0 ∧
      (updatePositionTimes ⟨Real.sqrt, Real.sin, Real.cos, Real.tan, Real.arcsin, Real.arctan, Real.pi⟩
        (setVelocity3 (setAcceleration3 (setCurrentVelocity3 (Camera.new : Camera ℝ) 1 0 0)
        1 0 0) 2 0 0)
        .position 1 1).m_eye = ⟨3 / 2, 0, 0⟩ ∧
      (updatePositionTimes ⟨Real.sqrt, Real.sin, Real.cos, Real.tan, Real.arcsin, Real.arctan, Real.pi⟩
        (setVelocity3 (setAcceleration3 (setCurrentVelocity3 (Camera.new : Camera ℝ) 1 0 0)
        1 0 0) 2 0 0)
        .position 1 1).m_currentVelocity.x = 2 ∧
      max ((1 : ℝ) - (1 : Nat) * 1 * 1) 0 = 0) := by
  refine ⟨⟨?_, by decide!, fun lm => ?_, by decide!⟩, rfl, ?_, ?_, by norm_num⟩
  · rw [Nat.ceil_eq_iff (by norm_num)]
    constructor <;> norm_num
  · rw [(updatePositionTimes_velocity_any lm _ _ _ 5).1]
    decide!
  · show (updatePosition ⟨Real.sqrt, Real.sin, Real.cos, Real.tan, Real.arcsin, Real.arctan, Real.pi⟩
      (setVelocity3 (setAcceleration3 (setCurrentVelocity3 (Camera.new : Camera ℝ) 1 0 0)
        1 0 0) 2 0 0)
      .position 1).m_eye = ⟨3 / 2, 0, 0⟩
    rw [updatePosition_eye, if_pos (by simp [setVelocity3, setAcceleration3,
      setCurrentVelocity3, D3DXVec3LengthSq]), move_eye]
    simp [physicsDisplacement, fabsf_eq_abs, VecRef.read, setVelocity3, setAcceleration3,
      setCurrentVelocity3, Camera.new, moveForwards, D3DXVECTOR3.add, D3DXVECTOR3.scale,
      WORLD_YAXIS]
    norm_num
  · show (updatePosition ⟨Real.sqrt, Real.sin, Real.cos, Real.tan, Real.arcsin, Real.arctan, Real.pi⟩
      (setVelocity3 (setAcceleration3 (setCurrentVelocity3 (Camera.new : Camera ℝ) 1 0 0)
        1 0 0) 2 0 0)
      .position 1).m_currentVelocity.x = 2
    simp [updatePosition, updateVelocity, updateVelocityAxis, move, setPosition,
      updateViewMatrix, fabsf_eq_abs, VecRef.read, setVelocity3, setAcceleration3,
      setCurrentVelocity3, Camera.new, D3DXVec3LengthSq, D3DXVECTOR3.add, D3DXVECTOR3.scale,
      D3DXVECTOR3.lscale, WORLD_YAXIS]
    norm_num

/-- C15 (amended): in exact real arithmetic, deceleration converges without overshoot: from
`currentVelocity.x = v0 > 0` with `acceleration.x = a > 0`, `dt > 0` and `direction.x = 0`,
where `direction` is not a reference to the camera's position, after `n` successive
`updatePosition` (equally `updateVelocity`) calls
`currentVelocity.x = max(v0 - n*a*dt, 0)`; so it is never negative and it is exactly 0 for
every `n >= ceil(v0/(a*dt))`. -/
theorem Camera.deceleration_converges (c : Camera ℝ) (direction : VecRef ℝ) (dt : ℝ)
    (n : Nat) (hv : 0 < c.m_currentVelocity.x) (ha : 0 < c.m_acceleration.x) (hdt : 0 < dt)
    (hs : stableDirection direction) (hd : (direction.read c).x = 0) :
    (updatePositionTimes
      ⟨Real.sqrt, Real.sin, Real.cos, Real.tan, Real.arcsin, Real.arctan, Real.pi⟩
      c direction dt n).m_currentVelocity.x
      = max (c.m_currentVelocity.x - n * c.m_acceleration.x * dt) 0 ∧
    (updateVelocityTimes c (direction.read c) dt n).m_currentVelocity.x
      = max (c.m_currentVelocity.x - n * c.m_acceleration.x * dt) 0 ∧
    0 ≤ (updatePositionTimes
      ⟨Real.sqrt, Real.sin, Real.cos, Real.tan, Real.arcsin, Real.arctan, Real.pi⟩
      c direction dt n).m_currentVelocity.x ∧
    (⌈c.m_currentVelocity.x / (c.m_acceleration.x * dt)⌉₊ ≤ n →
      (updatePositionTimes
        ⟨Real.sqrt, Real.sin, Real.cos, Real.tan, Real.arcsin, Real.arctan, Real.pi⟩
        c direction dt n).m_currentVelocity.x = 0) := by
  have had : 0 < c.m_acceleration.x * dt := mul_pos ha hdt
  have hp : direction ≠ .position := by
    intro h
    rw [h] at hs
    exact hs
  have hc : direction ≠ .currentVelocity := by
    intro h
    rw [h] at hd
    exact absurd hd (ne_of_gt hv)
  have e1 : (updatePositionTimes
      ⟨Real.sqrt, Real.sin, Real.cos, Real.tan, Real.arcsin, Real.arctan, Real.pi⟩
      c direction dt n).m_currentVelocity.x
      = max (c.m_currentVelocity.x - n * c.m_acceleration.x * dt) 0 := by
    rw [(updatePositionTimes_read _ c direction dt hp hc n).1]
    exact (updatePositionTimes_decel _ c (direction.read c) dt hd hv.le had n).2
  have e2 := (updateVelocityTimes_decel c (direction.read c) dt hd hv.le had n).2
  refine ⟨e1, e2, ?_, ?_⟩
  · rw [e1]; exact le_max_right _ _
  · intro hn
    rw [e1]
    apply max_eq_right
    have h1 : c.m_currentVelocity.x / (c.m_acceleration.x * dt) ≤ n := Nat.ceil_le.mp hn
    have h2 : c.m_currentVelocity.x ≤ n * (c.m_acceleration.x * dt) := (div_le_iff₀ had).mp h1
    linarith

/-- The instance of the amended C15 named in the specification: `v0 = 5`, `a = 8`,
`dt = 0.1`; the velocity is exactly 0 after 7 calls. -/
theorem Camera.deceleration_converges_witness :
    (updatePositionTimes
      ⟨Real.sqrt, Real.sin, Real.cos, Real.tan, Real.arcsin, Real.arctan, Real.pi⟩
      (setAcceleration3 (setCurrentVelocity3 (Camera.new : Camera ℝ) 5 0 0) 8 0 0)
      (.val ⟨0, 0, 0⟩) (1 / 10) 7).m_currentVelocity.x = 0 :=
  (Camera.deceleration_converges
    (setAcceleration3 (setCurrentVelocity3 (Camera.new : Camera ℝ) 5 0 0) 8 0 0)
    (.val ⟨0, 0, 0⟩) (1 / 10) 7
    (by simp [setAcceleration3, setCurrentVelocity3])
    (by simp [setAcceleration3])
    (by norm_num) trivial rfl).2.2.2
    (Nat.ceil_le.mpr (by
      simp only [setAcceleration3, setCurrentVelocity3]
      norm_num))

/-- C16: on every axis independently, with acceleration `a >= 0`, maximum velocity
`vmax >= 0` and `dt >= 0`, `updateVelocity` maps the velocity `v` and intent `i` of that axis
to `min(vmax, max(-vmax, v + i*a*dt))` when `i != 0`, and when `i = 0` to `max(v - a*dt, 0)`
if `v > 0` and `min(v + a*dt, 0)` if `v <= 0`; only the quantities of that axis enter. -/
theorem Camera.updateVelocity_per_axis {α : Type} [LinearOrderedField α] (c : Camera α)
    (direction : D3DXVECTOR3 α) (dt : α) (hdt : 0 ≤ dt) :
    (0 ≤ c.m_acceleration.x → 0 ≤ c.m_velocity.x →
      (updateVelocity c direction dt).m_currentVelocity.x
        = if direction.x ≠ 0 then
            min c.m_velocity.x
              (max (-c.m_velocity.x) (c.m_currentVelocity.x + direction.x * c.m_acceleration.x * dt))
          else if c.m_currentVelocity.x > 0 then
            max (c.m_currentVelocity.x - c.m_acceleration.x * dt) 0
          else min (c.m_currentVelocity.x + c.m_acceleration.x * dt) 0) ∧
    (0 ≤ c.m_acceleration.y → 0 ≤ c.m_velocity.y →
      (updateVelocity c direction dt).m_currentVelocity.y
        = if direction.y ≠ 0 then
            min c.m_velocity.y
              (max (-c.m_velocity.y) (c.m_currentVelocity.y + direction.y * c.m_acceleration.y * dt))
          else if c.m_currentVelocity.y > 0 then
            max (c.m_currentVelocity.y - c.m_acceleration.y * dt) 0
          else min (c.m_currentVelocity.y + c.m_acceleration.y * dt) 0) ∧
    (0 ≤ c.m_acceleration.z → 0 ≤ c.m_velocity.z →
      (updateVelocity c direction dt).m_currentVelocity.z
        = if direction.z ≠ 0 then
            min c.m_velocity.z
              (max (-c.m_velocity.z) (c.m_currentVelocity.z + direction.z * c.m_acceleration.z * dt))
          else if c.m_currentVelocity.z > 0 then
            max (c.m_currentVelocity.z - c.m_acceleration.z * dt) 0
          else min (c.m_currentVelocity.z + c.m_acceleration.z * dt) 0) :=
  ⟨fun _ hv => updateVelocityAxis_eq_rule _ _ _ _ _ hv,
   fun _ hv => updateVelocityAxis_eq_rule _ _ _ _ _ hv,
   fun _ hv => updateVelocityAxis_eq_rule _ _ _ _ _ hv⟩

/-- A concrete instance of C16: velocity 1 with intent 1, acceleration 8 and cap 4 over half
a second is clamped to the cap 4 on the x axis. -/
theorem Camera.updateVelocity_per_axis_witness :
    (updateVelocity
      (setVelocity3 (setAcceleration3 (setCurrentVelocity3 (Camera.new : Camera ℝ) 1 0 0) 8 8 8)
        4 4 4) ⟨1, 0, 0⟩ (1 / 2)).m_currentVelocity.x = 4 := by
  have h := (Camera.updateVelocity_per_axis
    (setVelocity3 (setAcceleration3 (setCurrentVelocity3 (Camera.new : Camera ℝ) 1 0 0) 8 8 8)
      4 4 4) ⟨1, 0, 0⟩ (1 / 2) (by norm_num)).1
    (by simp [setVelocity3, setAcceleration3]) (by simp [setVelocity3])
  rw [h]
  simp only [setVelocity3, setAcceleration3, setCurrentVelocity3]
  norm_num

/-- C17 (counterexample): two calls in binary32, with any math library. First the velocity
(`1e-6f`, 0, 0), the number 8796093/8796093022208 < 1e-6, with no intent and `dt = 1`: the
claim zeroes the displacement and leaves the position at the origin, the program tests
`|v.x| < 1e-6f`, keeps the displacement and moves to x = `1e-6f`. Second the non-zero
velocity (2^-80, 0, 0) with acceleration (2, 0, 0), intent (1, 0, 0) and `dt = 1`: the claim
moves by the displacement (1, 0, 0), the squared length of the velocity underflows to 0 and
the program does not move. -/
theorem Camera.updatePosition_threshold_and_underflow :
    ((8796093 : ℚ) / 8796093022208 < 1 / 1000000 ∧
      ∀ lm : Libm F32,
        (updatePosition lm (setCurrentVelocity3 Camera.new (8796093 / 8796093022208) 0 0)
          (.val ⟨0, 0, 0⟩) 1).m_eye = ⟨F32.fin 8796093 (-43), 0, 0⟩ ∧
        (move lm (setCurrentVelocity3 Camera.new (8796093 / 8796093022208) 0 0)
          0 0 0).m_eye = ⟨0, 0, 0⟩) ∧
    ((setAcceleration3 (setCurrentVelocity3 (Camera.new : Camera F32) (F32.fin 1 (-80)) 0 0)
        2 0 0).m_currentVelocity.x = F32.fin 1 (-80) ∧
      D3DXVec3LengthSq
        (setAcceleration3 (setCurrentVelocity3 (Camera.new : Camera F32) (F32.fin 1 (-80)) 0 0)
          2 0 0).m_currentVelocity = 0 ∧
      ∀ lm : Libm F32,
        (updatePosition lm
          (setAcceleration3 (setCurrentVelocity3 Camera.new (F32.fin 1 (-80)) 0 0) 2 0 0)
          (.val ⟨1, 0, 0⟩) 1).m_eye = ⟨0, 0, 0⟩ ∧
        (move lm
          (setAcceleration3 (setCurrentVelocity3 Camera.new (F32.fin 1 (-80)) 0 0) 2 0 0)
          (F32.fin 1 (-80) * 1 + 1 / 2 * 2 * 1 * 1) 0 0).m_eye = ⟨1, 0, 0⟩) := by
  refine ⟨⟨by norm_num, fun lm => ⟨rfl, rfl⟩⟩, rfl, by decide!, fun lm => ⟨rfl, rfl⟩⟩

/-- C17 (amended): in exact arithmetic, with `direction` given by value or as a reference to
a vector of the camera, if `currentVelocity` is the zero vector,
`updatePosition` leaves the position unchanged; otherwise the position after
`updatePosition` is the one `move(d.x, d.y, d.z)` produces from the prior state, where on
each axis `d_k = 0` if `direction_k = 0` and `|currentVelocity_k| < 1e-6f`, the binary32
number 8796093/8796093022208, and `d_k = currentVelocity_k*dt + 0.5*acceleration_k*dt^2`
otherwise, with the velocity before the velocity update of this call. -/
theorem Camera.updatePosition_position {α : Type} [LinearOrderedField α] (lm : Libm α)
    (c : Camera α) (direction : VecRef α) (dt : α) :
    (c.m_currentVelocity = ⟨0, 0, 0⟩ → (updatePosition lm c direction dt).m_eye = c.m_eye) ∧
    (c.m_currentVelocity ≠ ⟨0, 0, 0⟩ →
      (updatePosition lm c direction dt).m_eye
        = (move lm c
            (if (direction.read c).x = 0
                ∧ |c.m_currentVelocity.x| < 8796093 / 8796093022208 then 0
              else c.m_currentVelocity.x * dt + 1 / 2 * c.m_acceleration.x * dt ^ 2)
            (if (direction.read c).y = 0
                ∧ |c.m_currentVelocity.y| < 8796093 / 8796093022208 then 0
              else c.m_currentVelocity.y * dt + 1 / 2 * c.m_acceleration.y * dt ^ 2)
            (if (direction.read c).z = 0
                ∧ |c.m_currentVelocity.z| < 8796093 / 8796093022208 then 0
              else c.m_currentVelocity.z * dt + 1 / 2 * c.m_acceleration.z * dt ^ 2)).m_eye) := by
  constructor
  · intro hv
    have h0 : ¬ D3DXVec3LengthSq c.m_currentVelocity ≠ 0 := by
      rw [not_not, vec3_lengthSq_eq_zero_iff]; exact hv
    rw [updatePosition_eye, if_neg h0]
  · intro hv
    have h0 : D3DXVec3LengthSq c.m_currentVelocity ≠ 0 := by
      rw [ne_eq, vec3_lengthSq_eq_zero_iff]; exact hv
    rw [updatePosition_eye, if_pos h0]
    simp only [physicsDisplacement, fabsf_eq_abs, pow_two, mul_assoc]

/-- A concrete instance of the amended C17: the default camera with velocity (2, 0, 0) and no
acceleration moves one unit along its x axis in half a second. -/
theorem Camera.updatePosition_position_witness :
    (updatePosition ⟨Real.sqrt, Real.sin, Real.cos, Real.tan, Real.arcsin, Real.arctan, Real.pi⟩
      (setCurrentVelocity3 (Camera.new : Camera ℝ) 2 0 0) (.val ⟨1, 0, 0⟩) (1 / 2)).m_eye
      = ⟨1, 0, 0⟩ := by
  have h := (Camera.updatePosition_position
    ⟨Real.sqrt, Real.sin, Real.cos, Real.tan, Real.arcsin, Real.arctan, Real.pi⟩
    (setCurrentVelocity3 (Camera.new : Camera ℝ) 2 0 0) (.val ⟨1, 0, 0⟩) (1 / 2)).2
    (fun h => by
      have := congrArg D3DXVECTOR3.x h
      simp [setCurrentVelocity3] at this)
  rw [h, move_eye]
  simp [setCurrentVelocity3, VecRef.read, Camera.new, moveForwards, D3DXVECTOR3.add, D3DXVECTOR3.scale,
    WORLD_YAXIS]

/-- C19 (counterexample): two FLIGHT cameras in binary32, with any math library, that meet
the conditions of the claim. First the camera after `lookAt((1000,0,0), (1003,0,4), (0,1,0))`:
its axes (0.8f,0,-0.6f), (0,1,0), (0.6f,0,0.8f) are orthonormal in binary32; the switch
computes `(eye + zAxis) - eye`, which rounds at the magnitude of `eye`, and `zAxis.x` becomes
2516517/4194304 = 0.59998441 instead of `0.6f` = 5033165/8388608. Second the fresh camera
moved by `setPosition(0, 0, 2^25)`: `eye + zAxis` rounds to `eye`, the direction is the zero
vector and the switch leaves all three axes (0,0,0). -/
theorem Camera.setBehavior_binary32_drifts :
    (∀ sinf cosf tanf asinf atanf : F32 → F32,
      (lookAt (F32.libm sinf cosf tanf asinf atanf) Camera.new (.val ⟨1000, 0, 0⟩)
        (.val ⟨1003, 0, 4⟩) (.val ⟨0, 1, 0⟩)).m_behavior
        = CAMERA_BEHAVIOR_FLIGHT ∧
      Orthonormal (F32.libm sinf cosf tanf asinf atanf)
        (lookAt (F32.libm sinf cosf tanf asinf atanf) Camera.new (.val ⟨1000, 0, 0⟩)
        (.val ⟨1003, 0, 4⟩) (.val ⟨0, 1, 0⟩)).m_xAxis
        (lookAt (F32.libm sinf cosf tanf asinf atanf) Camera.new (.val ⟨1000, 0, 0⟩)
        (.val ⟨1003, 0, 4⟩) (.val ⟨0, 1, 0⟩)).m_yAxis
        (lookAt (F32.libm sinf cosf tanf asinf atanf) Camera.new (.val ⟨1000, 0, 0⟩)
        (.val ⟨1003, 0, 4⟩) (.val ⟨0, 1, 0⟩)).m_zAxis ∧
      D3DXVec3Cross WORLD_YAXIS
        (lookAt (F32.libm sinf cosf tanf asinf atanf) Camera.new (.val ⟨1000, 0, 0⟩)
        (.val ⟨1003, 0, 4⟩) (.val ⟨0, 1, 0⟩)).m_zAxis
        = ⟨F32.fin 13421773 (-24), 0, F32.fin (-5033165) (-23)⟩ ∧
      (lookAt (F32.libm sinf cosf tanf asinf atanf) Camera.new (.val ⟨1000, 0, 0⟩)
        (.val ⟨1003, 0, 4⟩) (.val ⟨0, 1, 0⟩)).m_zAxis
        = ⟨F32.fin 5033165 (-23), 0, F32.fin 13421773 (-24)⟩ ∧
      (setBehavior (F32.libm sinf cosf tanf asinf atanf)
        (lookAt (F32.libm sinf cosf tanf asinf atanf) Camera.new (.val ⟨1000, 0, 0⟩)
        (.val ⟨1003, 0, 4⟩) (.val ⟨0, 1, 0⟩))
        CAMERA_BEHAVIOR_FIRST_PERSON).m_zAxis
        = ⟨F32.fin 2516517 (-22), 0, F32.fin 6710985 (-23)⟩ ∧
      F32.fin 2516517 (-22) ≠ F32.fin 5033165 (-23)) ∧
    (∀ sinf cosf tanf asinf atanf : F32 → F32,
      (setPosition3 (F32.libm sinf cosf tanf asinf atanf) Camera.new 0 0 33554432).m_behavior
        = CAMERA_BEHAVIOR_FLIGHT ∧
      Orthonormal (F32.libm sinf cosf tanf asinf atanf)
        (setPosition3 (F32.libm sinf cosf tanf asinf atanf) Camera.new 0 0 33554432).m_xAxis
        (setPosition3 (F32.libm sinf cosf tanf asinf atanf) Camera.new 0 0 33554432).m_yAxis
        (setPosition3 (F32.libm sinf cosf tanf asinf atanf) Camera.new 0 0 33554432).m_zAxis ∧
      D3DXVec3Cross WORLD_YAXIS
        (setPosition3 (F32.libm sinf cosf tanf asinf atanf) Camera.new 0 0 33554432).m_zAxis
        = ⟨1, 0, 0⟩ ∧
      (setBehavior (F32.libm sinf cosf tanf asinf atanf)
        (setPosition3 (F32.libm sinf cosf tanf asinf atanf) Camera.new 0 0 33554432)
        CAMERA_BEHAVIOR_FIRST_PERSON).m_xAxis = ⟨0, 0, 0⟩ ∧
      (setBehavior (F32.libm sinf cosf tanf asinf atanf)
        (setPosition3 (F32.libm sinf cosf tanf asinf atanf) Camera.new 0 0 33554432)
        CAMERA_BEHAVIOR_FIRST_PERSON).m_yAxis = ⟨0, 0, 0⟩ ∧
      (setBehavior (F32.libm sinf cosf tanf asinf atanf)
        (setPosition3 (F32.libm sinf cosf tanf asinf atanf) Camera.new 0 0 33554432)
        CAMERA_BEHAVIOR_FIRST_PERSON).m_zAxis = ⟨0, 0, 0⟩) := by
  refine ⟨fun sinf cosf tanf asinf atanf => ⟨rfl, ⟨?_, ?_, ?_, ?_, ?_, ?_⟩, rfl, rfl, rfl, ?_⟩,
    fun sinf cosf tanf asinf atanf => ⟨rfl, ⟨?_, ?_, ?_, ?_, ?_, ?_⟩, rfl, rfl, rfl, rfl⟩⟩
  all_goals first | rfl | decide!

/-- C19 (amended): in exact real arithmetic, for every FLIGHT camera with orthonormal basis
whose `zAxis` is not parallel to world Y, `setBehavior(FIRST_PERSON)` re-levels the camera:
position and `zAxis` (= `viewDirection`) are unchanged, the new `xAxis` has zero y-component
and the basis is orthonormal. -/
theorem Camera.setBehavior_relevels (c : Camera ℝ)
    (hb : c.m_behavior = CAMERA_BEHAVIOR_FLIGHT)
    (hc : Orthonormal ⟨Real.sqrt, Real.sin, Real.cos, Real.tan, Real.arcsin, Real.arctan, Real.pi⟩
      c.m_xAxis c.m_yAxis c.m_zAxis)
    (hv : D3DXVec3Cross WORLD_YAXIS c.m_zAxis ≠ ⟨0, 0, 0⟩) :
    (setBehavior ⟨Real.sqrt, Real.sin, Real.cos, Real.tan, Real.arcsin, Real.arctan, Real.pi⟩
      c CAMERA_BEHAVIOR_FIRST_PERSON).m_behavior = CAMERA_BEHAVIOR_FIRST_PERSON ∧
    (setBehavior ⟨Real.sqrt, Real.sin, Real.cos, Real.tan, Real.arcsin, Real.arctan, Real.pi⟩
      c CAMERA_BEHAVIOR_FIRST_PERSON).m_eye = c.m_eye ∧
    (setBehavior ⟨Real.sqrt, Real.sin, Real.cos, Real.tan, Real.arcsin, Real.arctan, Real.pi⟩
      c CAMERA_BEHAVIOR_FIRST_PERSON).m_zAxis = c.m_zAxis ∧
    (setBehavior ⟨Real.sqrt, Real.sin, Real.cos, Real.tan, Real.arcsin, Real.arctan, Real.pi⟩
      c CAMERA_BEHAVIOR_FIRST_PERSON).m_viewDir = c.m_zAxis ∧
    (setBehavior ⟨Real.sqrt, Real.sin, Real.cos, Real.tan, Real.arcsin, Real.arctan, Real.pi⟩
      c CAMERA_BEHAVIOR_FIRST_PERSON).m_xAxis.y = 0 ∧
    Orthonormal ⟨Real.sqrt, Real.sin, Real.cos, Real.tan, Real.arcsin, Real.arctan, Real.pi⟩
      (setBehavior ⟨Real.sqrt, Real.sin, Real.cos, Real.tan, Real.arcsin, Real.arctan, Real.pi⟩
        c CAMERA_BEHAVIOR_FIRST_PERSON).m_xAxis
      (setBehavior ⟨Real.sqrt, Real.sin, Real.cos, Real.tan, Real.arcsin, Real.arctan, Real.pi⟩
        c CAMERA_BEHAVIOR_FIRST_PERSON).m_yAxis
      (setBehavior ⟨Real.sqrt, Real.sin, Real.cos, Real.tan, Real.arcsin, Real.arctan, Real.pi⟩
        c CAMERA_BEHAVIOR_FIRST_PERSON).m_zAxis := by
  rw [real_orthonormal_iff _ real_libm.sqrtf_eq] at hc
  have hinv := FPInv.of_setBehavior real_libm c hb hc.2.2.1 hv
  obtain ⟨ez, exy⟩ := relevel_axes _ real_libm.sound.sqrt_one c hc.2.2.1
  rw [real_orthonormal_iff _ real_libm.sqrtf_eq]
  refine ⟨hinv.behavior, ?_, ?_, ?_, ?_, ?_⟩
  · rw [setBehavior_flight_to_firstPerson _ c hb]; exact rfl
  · rw [setBehavior_flight_to_firstPerson _ c hb]; exact ez
  · rw [setBehavior_flight_to_firstPerson _ c hb]; exact ez
  · rw [setBehavior_flight_to_firstPerson _ c hb]; exact exy
  · rw [hinv.y_eq]
    exact orthoSq_of_pair _ _ hinv.x_unit hinv.z_unit hinv.x_z

/-- A concrete instance of the amended C19: switching the freshly constructed camera to first person
keeps `zAxis = (0,0,1)`. -/
theorem Camera.setBehavior_relevels_witness :
    (setBehavior ⟨Real.sqrt, Real.sin, Real.cos, Real.tan, Real.arcsin, Real.arctan, Real.pi⟩
      (Camera.new : Camera ℝ) CAMERA_BEHAVIOR_FIRST_PERSON).m_zAxis = ⟨0, 0, 1⟩ :=
  (Camera.setBehavior_relevels Camera.new rfl
    (by simp [Orthonormal, Camera.new, D3DXVec3Length, D3DXVec3LengthSq, D3DXVec3Dot])
    (fun h => by
      have := congrArg D3DXVECTOR3.x h
      simp [D3DXVec3Cross, Camera.new, WORLD_YAXIS] at this)).2.2.1

/-- C20 (counterexample): in binary32, with any math library, the camera after
`lookAt((1000,0,0), (1003,0,4), (0,1,0))` has the unit `zAxis` (0.6f, 0, 0.8f), not parallel
to world Y. After `lookAt(position, position + zAxis, worldUp)` the camera is still in FLIGHT
and `zAxis.x` is 2516517/4194304; the switch to FIRST_PERSON computes
`(position + zAxis) - position` again, which rounds again, and `zAxis.x` becomes
10065973/16777216. -/
theorem Camera.relevel_binary32_not_idempotent :
    F32.fin 10065973 (-24) ≠ F32.fin 2516517 (-22) ∧
    ∀ sinf cosf tanf asinf atanf : F32 → F32,
      D3DXVec3Length (F32.libm sinf cosf tanf asinf atanf)
        (lookAt (F32.libm sinf cosf tanf asinf atanf) Camera.new (.val ⟨1000, 0, 0⟩)
        (.val ⟨1003, 0, 4⟩) (.val ⟨0, 1, 0⟩)).m_zAxis = 1 ∧
      D3DXVec3Cross WORLD_YAXIS
        (lookAt (F32.libm sinf cosf tanf asinf atanf) Camera.new (.val ⟨1000, 0, 0⟩)
        (.val ⟨1003, 0, 4⟩) (.val ⟨0, 1, 0⟩)).m_zAxis
        = ⟨F32.fin 13421773 (-24), 0, F32.fin (-5033165) (-23)⟩ ∧
      (lookAt (F32.libm sinf cosf tanf asinf atanf)
        (lookAt (F32.libm sinf cosf tanf asinf atanf) Camera.new (.val ⟨1000, 0, 0⟩)
        (.val ⟨1003, 0, 4⟩) (.val ⟨0, 1, 0⟩))
        .position
        (.val ((lookAt (F32.libm sinf cosf tanf asinf atanf) Camera.new (.val ⟨1000, 0, 0⟩)
        (.val ⟨1003, 0, 4⟩) (.val ⟨0, 1, 0⟩)).m_eye.add
          (lookAt (F32.libm sinf cosf tanf asinf atanf) Camera.new (.val ⟨1000, 0, 0⟩)
        (.val ⟨1003, 0, 4⟩) (.val ⟨0, 1, 0⟩)).m_zAxis))
        (.val WORLD_YAXIS)).m_behavior = CAMERA_BEHAVIOR_FLIGHT ∧
      (lookAt (F32.libm sinf cosf tanf asinf atanf)
        (lookAt (F32.libm sinf cosf tanf asinf atanf) Camera.new (.val ⟨1000, 0, 0⟩)
        (.val ⟨1003, 0, 4⟩) (.val ⟨0, 1, 0⟩))
        .position
        (.val ((lookAt (F32.libm sinf cosf tanf asinf atanf) Camera.new (.val ⟨1000, 0, 0⟩)
        (.val ⟨1003, 0, 4⟩) (.val ⟨0, 1, 0⟩)).m_eye.add
          (lookAt (F32.libm sinf cosf tanf asinf atanf) Camera.new (.val ⟨1000, 0, 0⟩)
        (.val ⟨1003, 0, 4⟩) (.val ⟨0, 1, 0⟩)).m_zAxis))
        (.val WORLD_YAXIS)).m_zAxis.x = F32.fin 2516517 (-22) ∧
      (setBehavior (F32.libm sinf cosf tanf asinf atanf)
        (lookAt (F32.libm sinf cosf tanf asinf atanf)
        (lookAt (F32.libm sinf cosf tanf asinf atanf) Camera.new (.val ⟨1000, 0, 0⟩)
        (.val ⟨1003, 0, 4⟩) (.val ⟨0, 1, 0⟩))
        .position
        (.val ((lookAt (F32.libm sinf cosf tanf asinf atanf) Camera.new (.val ⟨1000, 0, 0⟩)
        (.val ⟨1003, 0, 4⟩) (.val ⟨0, 1, 0⟩)).m_eye.add
          (lookAt (F32.libm sinf cosf tanf asinf atanf) Camera.new (.val ⟨1000, 0, 0⟩)
        (.val ⟨1003, 0, 4⟩) (.val ⟨0, 1, 0⟩)).m_zAxis))
        (.val WORLD_YAXIS))
        CAMERA_BEHAVIOR_FIRST_PERSON).m_zAxis.x = F32.fin 10065973 (-24) := by
  refine ⟨by decide!, fun sinf cosf tanf asinf atanf => ⟨rfl, rfl, rfl, rfl, rfl⟩⟩

/-- C20 (amended): in exact real arithmetic, re-levelling is idempotent: for every camera with
unit `zAxis` not parallel to world Y, after `lookAt(position, position + zAxis, worldUp)`,
with the position passed as the reference `getPosition()` returns or as a copy, a switch
`setBehavior(FIRST_PERSON)` changes nothing except the behaviour tag (axes, view direction,
position, accumulated pitch and view matrix are unchanged). -/
theorem Camera.relevel_idempotent (c : Camera ℝ) (eye : VecRef ℝ)
    (he : eye = .position ∨ eye = .val c.m_eye)
    (hz : D3DXVec3Length ⟨Real.sqrt, Real.sin, Real.cos, Real.tan, Real.arcsin, Real.arctan, Real.pi⟩ c.m_zAxis = 1)
    (hv : D3DXVec3Cross WORLD_YAXIS c.m_zAxis ≠ ⟨0, 0, 0⟩) :
    setBehavior ⟨Real.sqrt, Real.sin, Real.cos, Real.tan, Real.arcsin, Real.arctan, Real.pi⟩
      (lookAt ⟨Real.sqrt, Real.sin, Real.cos, Real.tan, Real.arcsin, Real.arctan, Real.pi⟩
        c eye (.val (c.m_eye.add c.m_zAxis)) (.val WORLD_YAXIS)) CAMERA_BEHAVIOR_FIRST_PERSON
      = { lookAt ⟨Real.sqrt, Real.sin, Real.cos, Real.tan, Real.arcsin, Real.arctan, Real.pi⟩
            c eye (.val (c.m_eye.add c.m_zAxis)) (.val WORLD_YAXIS) with
          m_behavior := CAMERA_BEHAVIOR_FIRST_PERSON } := by
  have hl : lookAt ⟨Real.sqrt, Real.sin, Real.cos, Real.tan, Real.arcsin, Real.arctan, Real.pi⟩
      c eye (.val (c.m_eye.add c.m_zAxis)) (.val WORLD_YAXIS)
      = lookAtValues ⟨Real.sqrt, Real.sin, Real.cos, Real.tan, Real.arcsin, Real.arctan, Real.pi⟩
        c c.m_eye (c.m_eye.add c.m_zAxis) WORLD_YAXIS := by
    rcases he with rfl | rfl
    · exact lookAt_position _ _ _ _
    · exact lookAt_val _ _ _ _ _
  rw [hl]
  rw [real_length_eq_one _ real_libm.sqrtf_eq] at hz
  obtain ⟨ez, _⟩ := relevel_axes _ real_libm.sound.sqrt_one c hz
  cases hb : c.m_behavior with
  | CAMERA_BEHAVIOR_FIRST_PERSON =>
    have hb1 : (lookAtValues ⟨Real.sqrt, Real.sin, Real.cos, Real.tan, Real.arcsin, Real.arctan, Real.pi⟩
        c c.m_eye (c.m_eye.add c.m_zAxis) WORLD_YAXIS).m_behavior
        = CAMERA_BEHAVIOR_FIRST_PERSON := hb
    simp [setBehavior, hb1]
  | CAMERA_BEHAVIOR_FLIGHT =>
    have hb1 : (lookAtValues ⟨Real.sqrt, Real.sin, Real.cos, Real.tan, Real.arcsin, Real.arctan, Real.pi⟩
        c c.m_eye (c.m_eye.add c.m_zAxis) WORLD_YAXIS).m_behavior
        = CAMERA_BEHAVIOR_FLIGHT := hb
    rw [setBehavior_flight_to_firstPerson _ _ hb1, ez, lookAt_eye, lookAt_idem]

/-- A concrete instance of the amended C20: the freshly constructed camera, re-levelled and
then switched to first person, keeps the view matrix of the re-levelled camera. -/
theorem Camera.relevel_idempotent_witness :
    (setBehavior ⟨Real.sqrt, Real.sin, Real.cos, Real.tan, Real.arcsin, Real.arctan, Real.pi⟩
      (lookAt ⟨Real.sqrt, Real.sin, Real.cos, Real.tan, Real.arcsin, Real.arctan, Real.pi⟩
        (Camera.new : Camera ℝ) .position
        (.val ((Camera.new : Camera ℝ).m_eye.add (Camera.new : Camera ℝ).m_zAxis))
        (.val WORLD_YAXIS))
      CAMERA_BEHAVIOR_FIRST_PERSON).m_viewMatrix
      = (lookAt ⟨Real.sqrt, Real.sin, Real.cos, Real.tan, Real.arcsin, Real.arctan, Real.pi⟩
        (Camera.new : Camera ℝ) .position
        (.val ((Camera.new : Camera ℝ).m_eye.add (Camera.new : Camera ℝ).m_zAxis))
        (.val WORLD_YAXIS)).m_viewMatrix := by
  have h := Camera.relevel_idempotent (Camera.new : Camera ℝ) .position (Or.inl rfl)
    (by simp [Camera.new, D3DXVec3Length, D3DXVec3LengthSq])
    (fun h => by
      have := congrArg D3DXVECTOR3.x h
      simp [D3DXVec3Cross, Camera.new, WORLD_YAXIS] at this)
  have h2 := congrArg Camera.m_viewMatrix h
  exact h2

/-- C21 (counterexample): four reachable states whose axes are not orthonormal. First, in
exact arithmetic, the non-degenerate `lookAt((0,0,0), (0,-1,0), (0,0,1))` leaves the
orthonormal axes (1,0,0), (0,0,1), (0,-1,0), and the following `setBehavior(FIRST_PERSON)`
leaves `xAxis = (0,0,0)`. Second, in exact arithmetic, `lookAt((0,0,-2), getPosition(),
(0,1,0))` on the fresh camera: the target refers to the position (0,0,0), which differs from
the eye and is not in line with `up`; the method assigns the position first and then reads the
target as equal to the eye, and all three axes are (0,0,0). Third, in exact arithmetic,
`lookAt((0,0,0), (1,0,0), getZAxis())` on the fresh camera: `up` refers to `m_zAxis` =
(0,0,1), not parallel to the direction (1,0,0); the method reads it after it has assigned
`zAxis` = (1,0,0), and `xAxis` is (0,0,0). Fourth, in binary32 with any math library,
`setPosition(0, 0, 2^25)` followed by `setBehavior(FIRST_PERSON)`: `zAxis` is (0,0,1),
`eye + zAxis` rounds to `eye` and all three axes are (0,0,0). -/
theorem Camera.setBehavior_vertical_not_orthonormal :
    (D3DXVec3Cross (⟨0, 0, 1⟩ : D3DXVECTOR3 ℝ) (D3DXVECTOR3.sub ⟨0, -1, 0⟩ ⟨0, 0, 0⟩)
        ≠ ⟨0, 0, 0⟩ ∧
      Orthonormal ⟨Real.sqrt, Real.sin, Real.cos, Real.tan, Real.arcsin, Real.arctan, Real.pi⟩
      (run ⟨Real.sqrt, Real.sin, Real.cos, Real.tan, Real.arcsin, Real.arctan, Real.pi⟩
        [Op.lookAt (.val ⟨0, 0, 0⟩) (.val ⟨0, -1, 0⟩) (.val ⟨0, 0, 1⟩)]).m_xAxis
      (run ⟨Real.sqrt, Real.sin, Real.cos, Real.tan, Real.arcsin, Real.arctan, Real.pi⟩
        [Op.lookAt (.val ⟨0, 0, 0⟩) (.val ⟨0, -1, 0⟩) (.val ⟨0, 0, 1⟩)]).m_yAxis
      (run ⟨Real.sqrt, Real.sin, Real.cos, Real.tan, Real.arcsin, Real.arctan, Real.pi⟩
        [Op.lookAt (.val ⟨0, 0, 0⟩) (.val ⟨0, -1, 0⟩) (.val ⟨0, 0, 1⟩)]).m_zAxis ∧
      (run ⟨Real.sqrt, Real.sin, Real.cos, Real.tan, Real.arcsin, Real.arctan, Real.pi⟩
        [Op.lookAt (.val ⟨0, 0, 0⟩) (.val ⟨0, -1, 0⟩) (.val ⟨0, 0, 1⟩),
          Op.setBehavior CAMERA_BEHAVIOR_FIRST_PERSON]).m_xAxis = ⟨0, 0, 0⟩ ∧
      ¬ Orthonormal ⟨Real.sqrt, Real.sin, Real.cos, Real.tan, Real.arcsin, Real.arctan, Real.pi⟩
      (run ⟨Real.sqrt, Real.sin, Real.cos, Real.tan, Real.arcsin, Real.arctan, Real.pi⟩
        [Op.lookAt (.val ⟨0, 0, 0⟩) (.val ⟨0, -1, 0⟩) (.val ⟨0, 0, 1⟩),
          Op.setBehavior CAMERA_BEHAVIOR_FIRST_PERSON]).m_xAxis
      (run ⟨Real.sqrt, Real.sin, Real.cos, Real.tan, Real.arcsin, Real.arctan, Real.pi⟩
        [Op.lookAt (.val ⟨0, 0, 0⟩) (.val ⟨0, -1, 0⟩) (.val ⟨0, 0, 1⟩),
          Op.setBehavior CAMERA_BEHAVIOR_FIRST_PERSON]).m_yAxis
      (run ⟨Real.sqrt, Real.sin, Real.cos, Real.tan, Real.arcsin, Real.arctan, Real.pi⟩
        [Op.lookAt (.val ⟨0, 0, 0⟩) (.val ⟨0, -1, 0⟩) (.val ⟨0, 0, 1⟩),
          Op.setBehavior CAMERA_BEHAVIOR_FIRST_PERSON]).m_zAxis) ∧
    (D3DXVec3Cross (⟨0, 1, 0⟩ : D3DXVECTOR3 ℝ)
        ((Camera.new : Camera ℝ).m_eye.sub ⟨0, 0, -2⟩) ≠ ⟨0, 0, 0⟩ ∧
      (run ⟨Real.sqrt, Real.sin, Real.cos, Real.tan, Real.arcsin, Real.arctan, Real.pi⟩
        [Op.lookAt (.val ⟨0, 0, -2⟩) .position (.val ⟨0, 1, 0⟩)]).m_xAxis = ⟨0, 0, 0⟩ ∧
      (run ⟨Real.sqrt, Real.sin, Real.cos, Real.tan, Real.arcsin, Real.arctan, Real.pi⟩
        [Op.lookAt (.val ⟨0, 0, -2⟩) .position (.val ⟨0, 1, 0⟩)]).m_yAxis = ⟨0, 0, 0⟩ ∧
      (run ⟨Real.sqrt, Real.sin, Real.cos, Real.tan, Real.arcsin, Real.arctan, Real.pi⟩
        [Op.lookAt (.val ⟨0, 0, -2⟩) .position (.val ⟨0, 1, 0⟩)]).m_zAxis = ⟨0, 0, 0⟩) ∧
    (D3DXVec3Cross (Camera.new : Camera ℝ).m_zAxis (D3DXVECTOR3.sub ⟨1, 0, 0⟩ ⟨0, 0, 0⟩)
        ≠ ⟨0, 0, 0⟩ ∧
      (run ⟨Real.sqrt, Real.sin, Real.cos, Real.tan, Real.arcsin, Real.arctan, Real.pi⟩
        [Op.lookAt (.val ⟨0, 0, 0⟩) (.val ⟨1, 0, 0⟩) .zAxis]).m_xAxis = ⟨0, 0, 0⟩) ∧
    (∀ sinf cosf tanf asinf atanf : F32 → F32,
      (run (F32.libm sinf cosf tanf asinf atanf)
        [Op.setPosition3 0 0 33554432]).m_behavior = CAMERA_BEHAVIOR_FLIGHT ∧
      D3DXVec3Cross WORLD_YAXIS
        (run (F32.libm sinf cosf tanf asinf atanf)
          [Op.setPosition3 0 0 33554432]).m_zAxis = ⟨1, 0, 0⟩ ∧
      (run (F32.libm sinf cosf tanf asinf atanf)
        [Op.setPosition3 0 0 33554432, Op.setBehavior CAMERA_BEHAVIOR_FIRST_PERSON]).m_xAxis = ⟨0, 0, 0⟩ ∧
      (run (F32.libm sinf cosf tanf asinf atanf)
        [Op.setPosition3 0 0 33554432, Op.setBehavior CAMERA_BEHAVIOR_FIRST_PERSON]).m_yAxis = ⟨0, 0, 0⟩ ∧
      (run (F32.libm sinf cosf tanf asinf atanf)
        [Op.setPosition3 0 0 33554432, Op.setBehavior CAMERA_BEHAVIOR_FIRST_PERSON]).m_zAxis = ⟨0, 0, 0⟩) := by
  have hup : D3DXVec3Cross (⟨0, 0, 1⟩ : D3DXVECTOR3 ℝ) (D3DXVECTOR3.sub ⟨0, -1, 0⟩ ⟨0, 0, 0⟩)
      ≠ ⟨0, 0, 0⟩ := by
    intro h
    have := congrArg D3DXVECTOR3.x h
    simp [D3DXVec3Cross, D3DXVECTOR3.sub] at this
  have hx0 : (run ⟨Real.sqrt, Real.sin, Real.cos, Real.tan, Real.arcsin, Real.arctan, Real.pi⟩
               [Op.lookAt (.val ⟨0, 0, 0⟩) (.val ⟨0, -1, 0⟩) (.val ⟨0, 0, 1⟩),
                 Op.setBehavior CAMERA_BEHAVIOR_FIRST_PERSON]).m_xAxis = ⟨0, 0, 0⟩ := by
    simp [run, step, setBehavior, Camera.new, lookAt, VecRef.read, D3DXVec3Normalize,
      D3DXVec3Length, D3DXVec3LengthSq, D3DXVec3Cross, D3DXVECTOR3.sub, D3DXVECTOR3.add,
      WORLD_YAXIS]
  refine ⟨⟨hup, ?_, hx0, ?_⟩, ⟨?_, ?_, ?_, ?_⟩, ⟨?_, ?_⟩,
    fun sinf cosf tanf asinf atanf => ⟨rfl, rfl, rfl, rfl, rfl⟩⟩
  · rw [real_orthonormal_iff _ real_libm.sqrtf_eq]
    exact lookAt_orthoSq _ real_libm.sqrtf_eq _ _ _ _ hup
  · intro h
    have h1 := h.1
    rw [hx0] at h1
    simp [D3DXVec3Length, D3DXVec3LengthSq] at h1
  · intro h
    have := congrArg D3DXVECTOR3.x h
    simp [D3DXVec3Cross, D3DXVECTOR3.sub, Camera.new] at this
  · simp [run, step, lookAt, VecRef.read, D3DXVec3Normalize, D3DXVec3Length, D3DXVec3LengthSq,
      D3DXVec3Cross, D3DXVECTOR3.sub]
  · simp [run, step, lookAt, VecRef.read, D3DXVec3Normalize, D3DXVec3Length, D3DXVec3LengthSq,
      D3DXVec3Cross, D3DXVECTOR3.sub]
  · simp [run, step, lookAt, VecRef.read, D3DXVec3Normalize, D3DXVec3Length, D3DXVec3LengthSq,
      D3DXVECTOR3.sub]
  · intro h
    have := congrArg D3DXVECTOR3.y h
    simp [D3DXVec3Cross, D3DXVECTOR3.sub, Camera.new] at this
  · simp [run, step, lookAt, VecRef.read, Camera.new, D3DXVec3Normalize, D3DXVec3Length,
      D3DXVec3LengthSq, D3DXVec3Cross, D3DXVECTOR3.sub]

/-- C21 (amended): in exact real arithmetic, in every state reachable from the constructor by
public mutators, with `lookAt` called only with non-degenerate arguments whose `target` is not
a reference to the camera's position and whose `up` is not a reference to its position,
`zAxis` or view direction (the members `lookAt` assigns before it reads these arguments), and
`setBehavior` switching from FLIGHT to FIRST_PERSON only when `zAxis` is not parallel to world
Y, the three axes are unit length and mutually perpendicular; in particular `setBehavior`
returns an orthonormal basis from every orthonormal state in which it does not re-level a
vertical `zAxis`. -/
theorem Camera.reachable_orthonormal (ops : List (Op ℝ)) (c : Camera ℝ) (b : CameraBehavior)
    (hops : eachOp ⟨Real.sqrt, Real.sin, Real.cos, Real.tan, Real.arcsin, Real.arctan, Real.pi⟩
      (fun c op => lookAtNonDegenerate c op ∧ switchNonVertical c op) (Camera.new : Camera ℝ)
      ops)
    (hc : Orthonormal ⟨Real.sqrt, Real.sin, Real.cos, Real.tan, Real.arcsin, Real.arctan, Real.pi⟩
      c.m_xAxis c.m_yAxis c.m_zAxis)
    (hv : c.m_behavior = CAMERA_BEHAVIOR_FLIGHT → b = CAMERA_BEHAVIOR_FIRST_PERSON →
      D3DXVec3Cross WORLD_YAXIS c.m_zAxis ≠ ⟨0, 0, 0⟩) :
    Orthonormal ⟨Real.sqrt, Real.sin, Real.cos, Real.tan, Real.arcsin, Real.arctan, Real.pi⟩
      (run ⟨Real.sqrt, Real.sin, Real.cos, Real.tan, Real.arcsin, Real.arctan, Real.pi⟩
        ops).m_xAxis
      (run ⟨Real.sqrt, Real.sin, Real.cos, Real.tan, Real.arcsin, Real.arctan, Real.pi⟩
        ops).m_yAxis
      (run ⟨Real.sqrt, Real.sin, Real.cos, Real.tan, Real.arcsin, Real.arctan, Real.pi⟩
        ops).m_zAxis ∧
    Orthonormal ⟨Real.sqrt, Real.sin, Real.cos, Real.tan, Real.arcsin, Real.arctan, Real.pi⟩
      (setBehavior ⟨Real.sqrt, Real.sin, Real.cos, Real.tan, Real.arcsin, Real.arctan, Real.pi⟩
        c b).m_xAxis
      (setBehavior ⟨Real.sqrt, Real.sin, Real.cos, Real.tan, Real.arcsin, Real.arctan, Real.pi⟩
        c b).m_yAxis
      (setBehavior ⟨Real.sqrt, Real.sin, Real.cos, Real.tan, Real.arcsin, Real.arctan, Real.pi⟩
        c b).m_zAxis := by
  rw [real_orthonormal_iff _ real_libm.sqrtf_eq] at hc ⊢
  rw [real_orthonormal_iff _ real_libm.sqrtf_eq]
  exact ⟨orthoSq_foldl _ real_libm ops _ orthoSq_new hops,
    setBehavior_orthoSq _ real_libm.sqrtf_eq c b hc hv⟩

/-- A concrete instance of the amended C21: the default camera after a `lookAt` from its own
position (the reference `getPosition()` returns) with its own `yAxis` as `up`, switched to
first person, turned, moved, switched back to flight and turned again has orthonormal axes. -/
theorem Camera.reachable_orthonormal_witness :
    Orthonormal ⟨Real.sqrt, Real.sin, Real.cos, Real.tan, Real.arcsin, Real.arctan, Real.pi⟩
      (run ⟨Real.sqrt, Real.sin, Real.cos, Real.tan, Real.arcsin, Real.arctan, Real.pi⟩
        [Op.lookAt .position (.val ⟨0, 0, 1⟩) .yAxis,
          Op.setBehavior CAMERA_BEHAVIOR_FIRST_PERSON, Op.rotate 30 20 0, Op.move 1 0 2,
          Op.setBehavior CAMERA_BEHAVIOR_FLIGHT, Op.rotate 10 5 45]).m_xAxis
      (run ⟨Real.sqrt, Real.sin, Real.cos, Real.tan, Real.arcsin, Real.arctan, Real.pi⟩
        [Op.lookAt .position (.val ⟨0, 0, 1⟩) .yAxis,
          Op.setBehavior CAMERA_BEHAVIOR_FIRST_PERSON, Op.rotate 30 20 0, Op.move 1 0 2,
          Op.setBehavior CAMERA_BEHAVIOR_FLIGHT, Op.rotate 10 5 45]).m_yAxis
      (run ⟨Real.sqrt, Real.sin, Real.cos, Real.tan, Real.arcsin, Real.arctan, Real.pi⟩
        [Op.lookAt .position (.val ⟨0, 0, 1⟩) .yAxis,
          Op.setBehavior CAMERA_BEHAVIOR_FIRST_PERSON, Op.rotate 30 20 0, Op.move 1 0 2,
          Op.setBehavior CAMERA_BEHAVIOR_FLIGHT, Op.rotate 10 5 45]).m_zAxis :=
  (Camera.reachable_orthonormal
    [Op.lookAt .position (.val ⟨0, 0, 1⟩) .yAxis,
          Op.setBehavior CAMERA_BEHAVIOR_FIRST_PERSON, Op.rotate 30 20 0, Op.move 1 0 2,
          Op.setBehavior CAMERA_BEHAVIOR_FLIGHT, Op.rotate 10 5 45]
    (Camera.new : Camera ℝ) CAMERA_BEHAVIOR_FIRST_PERSON
    ⟨⟨⟨trivial, trivial, fun h => by
          have := congrArg D3DXVECTOR3.x h
          simp [D3DXVec3Cross, D3DXVECTOR3.sub, VecRef.read, Camera.new] at this⟩, trivial⟩,
      ⟨trivial, fun _ _ h => by
        have := congrArg D3DXVECTOR3.x h
        simp [step, lookAt, VecRef.read, Camera.new, D3DXVec3Normalize, D3DXVec3Length,
          D3DXVec3LengthSq, D3DXVec3Cross, D3DXVECTOR3.sub, WORLD_YAXIS] at this⟩,
      ⟨trivial, trivial⟩, ⟨trivial, trivial⟩,
      ⟨trivial, fun _ hb => by cases hb⟩, ⟨trivial, trivial⟩, trivial⟩
    (by simp [Orthonormal, Camera.new, D3DXVec3Length, D3DXVec3LengthSq, D3DXVec3Dot])
    (fun _ _ h => by
      have := congrArg D3DXVECTOR3.x h
      simp [D3DXVec3Cross, Camera.new, WORLD_YAXIS] at this)).1

/-- C22 (counterexample): two first-person cameras at accumulated pitch 90 with a right-handed
orthonormal basis that `rotate(0, p, 0)` with `p > 0` changes. First, in binary32, the camera
after `setBehavior(FIRST_PERSON)` and `lookAt((0,0,0), (0,-1,0), (0,0,1))`, with a math library
that returns the correctly rounded values `asinf(-1) = -13176795/8388608`, `sinf(t) = t` and
`cosf(t) = 1` at `t = 3684499 * 2^-46`, the radians of `p = 3e-6f`: the sum `90 + p` rounds
to 90, the clamp test `> 90` fails, the pitch `p` is applied and `zAxis` turns from (0,-1,0)
to (0,-1,-t). Second, in exact arithmetic, the camera after `setBehavior(FIRST_PERSON)` and
`lookAt(getZAxis(), (0,-1,1), (0,0,1))`: `eye` refers to `m_zAxis`, the view matrix is built
with the new `zAxis` in place of the position, entry (3,1) is 0, and `rotate(0, 5, 0)`
rebuilds it from the position (0,0,1) as -1. -/
theorem Camera.firstPerson_clamped_rotation_applied :
    (((0 : F32) < 3298535 / 1099511627776 ∧
      (90 : F32) + 3298535 / 1099511627776 = 90) ∧
    (∀ sinf cosf tanf asinf atanf : F32 → F32,
      asinf (-1) = F32.fin (-13176795) (-23) →
      sinf (F32.fin 3684499 (-46)) = F32.fin 3684499 (-46) →
      cosf (F32.fin 3684499 (-46)) = 1 →
      (run (F32.libm sinf cosf tanf asinf atanf)
        [Op.setBehavior CAMERA_BEHAVIOR_FIRST_PERSON,
          Op.lookAt (.val ⟨0, 0, 0⟩) (.val ⟨0, -1, 0⟩) (.val ⟨0, 0, 1⟩)]).m_behavior
        = CAMERA_BEHAVIOR_FIRST_PERSON ∧
      (run (F32.libm sinf cosf tanf asinf atanf)
        [Op.setBehavior CAMERA_BEHAVIOR_FIRST_PERSON,
          Op.lookAt (.val ⟨0, 0, 0⟩) (.val ⟨0, -1, 0⟩) (.val ⟨0, 0, 1⟩)]).m_accumPitchDegrees
        = 90 ∧
      (run (F32.libm sinf cosf tanf asinf atanf)
        [Op.setBehavior CAMERA_BEHAVIOR_FIRST_PERSON,
          Op.lookAt (.val ⟨0, 0, 0⟩) (.val ⟨0, -1, 0⟩) (.val ⟨0, 0, 1⟩)]).m_xAxis = ⟨1, 0, 0⟩ ∧
      (run (F32.libm sinf cosf tanf asinf atanf)
        [Op.setBehavior CAMERA_BEHAVIOR_FIRST_PERSON,
          Op.lookAt (.val ⟨0, 0, 0⟩) (.val ⟨0, -1, 0⟩) (.val ⟨0, 0, 1⟩)]).m_yAxis = ⟨0, 0, 1⟩ ∧
      (run (F32.libm sinf cosf tanf asinf atanf)
        [Op.setBehavior CAMERA_BEHAVIOR_FIRST_PERSON,
          Op.lookAt (.val ⟨0, 0, 0⟩) (.val ⟨0, -1, 0⟩) (.val ⟨0, 0, 1⟩)]).m_zAxis = ⟨0, -1, 0⟩ ∧
      (rotate (F32.libm sinf cosf tanf asinf atanf)
        (run (F32.libm sinf cosf tanf asinf atanf)
          [Op.setBehavior CAMERA_BEHAVIOR_FIRST_PERSON,
            Op.lookAt (.val ⟨0, 0, 0⟩) (.val ⟨0, -1, 0⟩) (.val ⟨0, 0, 1⟩)])
        0 (3298535 / 1099511627776) 0).m_zAxis = ⟨0, -1, F32.fin (-3684499) (-46)⟩)) ∧
    ((run ⟨Real.sqrt, Real.sin, Real.cos, Real.tan, Real.arcsin, Real.arctan, Real.pi⟩
       [Op.setBehavior CAMERA_BEHAVIOR_FIRST_PERSON,
         Op.lookAt .zAxis (.val ⟨0, -1, 1⟩) (.val ⟨0, 0, 1⟩)]).m_behavior
        = CAMERA_BEHAVIOR_FIRST_PERSON ∧
      (run ⟨Real.sqrt, Real.sin, Real.cos, Real.tan, Real.arcsin, Real.arctan, Real.pi⟩
        [Op.setBehavior CAMERA_BEHAVIOR_FIRST_PERSON,
          Op.lookAt .zAxis (.val ⟨0, -1, 1⟩) (.val ⟨0, 0, 1⟩)]).m_accumPitchDegrees = 90 ∧
      (run ⟨Real.sqrt, Real.sin, Real.cos, Real.tan, Real.arcsin, Real.arctan, Real.pi⟩
        [Op.setBehavior CAMERA_BEHAVIOR_FIRST_PERSON,
          Op.lookAt .zAxis (.val ⟨0, -1, 1⟩) (.val ⟨0, 0, 1⟩)]).m_eye = ⟨0, 0, 1⟩ ∧
      (run ⟨Real.sqrt, Real.sin, Real.cos, Real.tan, Real.arcsin, Real.arctan, Real.pi⟩
        [Op.setBehavior CAMERA_BEHAVIOR_FIRST_PERSON,
          Op.lookAt .zAxis (.val ⟨0, -1, 1⟩) (.val ⟨0, 0, 1⟩)]).m_xAxis = ⟨1, 0, 0⟩ ∧
      (run ⟨Real.sqrt, Real.sin, Real.cos, Real.tan, Real.arcsin, Real.arctan, Real.pi⟩
        [Op.setBehavior CAMERA_BEHAVIOR_FIRST_PERSON,
          Op.lookAt .zAxis (.val ⟨0, -1, 1⟩) (.val ⟨0, 0, 1⟩)]).m_yAxis = ⟨0, 0, 1⟩ ∧
      (run ⟨Real.sqrt, Real.sin, Real.cos, Real.tan, Real.arcsin, Real.arctan, Real.pi⟩
        [Op.setBehavior CAMERA_BEHAVIOR_FIRST_PERSON,
          Op.lookAt .zAxis (.val ⟨0, -1, 1⟩) (.val ⟨0, 0, 1⟩)]).m_zAxis = ⟨0, -1, 0⟩ ∧
      (run ⟨Real.sqrt, Real.sin, Real.cos, Real.tan, Real.arcsin, Real.arctan, Real.pi⟩
        [Op.setBehavior CAMERA_BEHAVIOR_FIRST_PERSON,
          Op.lookAt .zAxis (.val ⟨0, -1, 1⟩) (.val ⟨0, 0, 1⟩)]).m_viewMatrix.m31 = 0 ∧
      (rotate ⟨Real.sqrt, Real.sin, Real.cos, Real.tan, Real.arcsin, Real.arctan, Real.pi⟩
        (run ⟨Real.sqrt, Real.sin, Real.cos, Real.tan, Real.arcsin, Real.arctan, Real.pi⟩
          [Op.setBehavior CAMERA_BEHAVIOR_FIRST_PERSON,
            Op.lookAt .zAxis (.val ⟨0, -1, 1⟩) (.val ⟨0, 0, 1⟩)])
        0 5 0).m_viewMatrix.m31 = -1) := by
  refine ⟨⟨⟨by decide!, by decide!⟩, fun sinf cosf tanf asinf atanf ha hs hc => ?_⟩, ?_⟩
  · have hrun : run (F32.libm sinf cosf tanf asinf atanf)
        [Op.setBehavior CAMERA_BEHAVIOR_FIRST_PERSON,
          Op.lookAt (.val ⟨0, 0, 0⟩) (.val ⟨0, -1, 0⟩) (.val ⟨0, 0, 1⟩)]
        = lookAt (F32.libm sinf cosf tanf asinf atanf)
            (setBehavior (F32.libm sinf cosf tanf asinf atanf) Camera.new
              CAMERA_BEHAVIOR_FIRST_PERSON)
            (.val ⟨0, 0, 0⟩) (.val ⟨0, -1, 0⟩) (.val ⟨0, 0, 1⟩) := rfl
    obtain ⟨fb, fz, fx, fy, fa⟩ := lookAt_val_fields_any (F32.libm sinf cosf tanf asinf atanf)
      (setBehavior (F32.libm sinf cosf tanf asinf atanf) Camera.new CAMERA_BEHAVIOR_FIRST_PERSON)
      ⟨0, 0, 0⟩ ⟨0, -1, 0⟩ ⟨0, 0, 1⟩
    rw [← hrun] at fb fz fx fy fa
    have hn : D3DXVec3Normalize (F32.libm sinf cosf tanf asinf atanf)
        (D3DXVECTOR3.sub ⟨0, -1, 0⟩ ⟨0, 0, 0⟩) = ⟨0, -1, 0⟩ := by
      simp only [D3DXVec3Normalize, D3DXVec3Length, F32.libm]
      apply D3DXVECTOR3.ext <;> decide!
    have hb : (run (F32.libm sinf cosf tanf asinf atanf)
                [Op.setBehavior CAMERA_BEHAVIOR_FIRST_PERSON,
                  Op.lookAt (.val ⟨0, 0, 0⟩) (.val ⟨0, -1, 0⟩) (.val ⟨0, 0, 1⟩)]).m_behavior = CAMERA_BEHAVIOR_FIRST_PERSON := fb
    have hx : (run (F32.libm sinf cosf tanf asinf atanf)
                [Op.setBehavior CAMERA_BEHAVIOR_FIRST_PERSON,
                  Op.lookAt (.val ⟨0, 0, 0⟩) (.val ⟨0, -1, 0⟩) (.val ⟨0, 0, 1⟩)]).m_xAxis = ⟨1, 0, 0⟩ := by
      rw [fx, hn]
      simp only [D3DXVec3Normalize, D3DXVec3Length, F32.libm]
      apply D3DXVECTOR3.ext <;> decide!
    have hy : (run (F32.libm sinf cosf tanf asinf atanf)
                [Op.setBehavior CAMERA_BEHAVIOR_FIRST_PERSON,
                  Op.lookAt (.val ⟨0, 0, 0⟩) (.val ⟨0, -1, 0⟩) (.val ⟨0, 0, 1⟩)]).m_yAxis = ⟨0, 0, 1⟩ := by
      rw [fy, hn]
      simp only [D3DXVec3Normalize, D3DXVec3Length, F32.libm]
      apply D3DXVECTOR3.ext <;> decide!
    have hz : (run (F32.libm sinf cosf tanf asinf atanf)
                [Op.setBehavior CAMERA_BEHAVIOR_FIRST_PERSON,
                  Op.lookAt (.val ⟨0, 0, 0⟩) (.val ⟨0, -1, 0⟩) (.val ⟨0, 0, 1⟩)]).m_zAxis = ⟨0, -1, 0⟩ := by
      rw [fz, hn]
    have hacc : (run (F32.libm sinf cosf tanf asinf atanf)
                  [Op.setBehavior CAMERA_BEHAVIOR_FIRST_PERSON,
                    Op.lookAt (.val ⟨0, 0, 0⟩) (.val ⟨0, -1, 0⟩) (.val ⟨0, 0, 1⟩)]).m_accumPitchDegrees = 90 := by
      rw [fa, hn]
      show D3DXToDegree (F32.libm sinf cosf tanf asinf atanf) (-asinf (-1)) = 90
      rw [ha]
      simp only [D3DXToDegree, F32.libm]
      decide!
    refine ⟨hb, hacc, hx, hy, hz, ?_⟩
    have h0 : D3DXToRadian (F32.libm sinf cosf tanf asinf atanf) 0 = 0 := by
      simp only [D3DXToRadian, F32.libm]
      decide!
    have hp : fpPitch (90 : F32) (3298535 / 1099511627776) = F32.fin 3298535 (-40) := by decide!
    have hT : D3DXToRadian (F32.libm sinf cosf tanf asinf atanf) (F32.fin 3298535 (-40))
        = F32.fin 3684499 (-46) := by
      simp only [D3DXToRadian, F32.libm]
      decide!
    have hT0 : F32.fin 3684499 (-46) ≠ 0 := by decide!
    rw [rotate_firstPerson_zAxis_any _ _ _ _ _ hb, hacc, h0, fpHeading_zero_any, hp, hT,
      pitchBlock_zAxis_any _ _ _ hT0]
    show D3DXVec3Normalize (F32.libm sinf cosf tanf asinf atanf)
      (xyz (D3DXVec3Transform
        (run (F32.libm sinf cosf tanf asinf atanf)
          [Op.setBehavior CAMERA_BEHAVIOR_FIRST_PERSON,
            Op.lookAt (.val ⟨0, 0, 0⟩) (.val ⟨0, -1, 0⟩) (.val ⟨0, 0, 1⟩)]).m_zAxis
        (D3DXMatrixRotationAxis (F32.libm sinf cosf tanf asinf atanf)
          (run (F32.libm sinf cosf tanf asinf atanf)
            [Op.setBehavior CAMERA_BEHAVIOR_FIRST_PERSON,
              Op.lookAt (.val ⟨0, 0, 0⟩) (.val ⟨0, -1, 0⟩) (.val ⟨0, 0, 1⟩)]).m_xAxis (F32.fin 3684499 (-46))))) = _
    rw [hz, hx]
    simp only [D3DXMatrixRotationAxis, D3DXVec3Normalize, D3DXVec3Length, F32.libm, hs, hc]
    apply D3DXVECTOR3.ext <;> decide!
  · have hb : (run ⟨Real.sqrt, Real.sin, Real.cos, Real.tan, Real.arcsin, Real.arctan, Real.pi⟩
                [Op.setBehavior CAMERA_BEHAVIOR_FIRST_PERSON,
                  Op.lookAt .zAxis (.val ⟨0, -1, 1⟩) (.val ⟨0, 0, 1⟩)]).m_behavior
        = CAMERA_BEHAVIOR_FIRST_PERSON := rfl
    have he : (run ⟨Real.sqrt, Real.sin, Real.cos, Real.tan, Real.arcsin, Real.arctan, Real.pi⟩
                [Op.setBehavior CAMERA_BEHAVIOR_FIRST_PERSON,
                  Op.lookAt .zAxis (.val ⟨0, -1, 1⟩) (.val ⟨0, 0, 1⟩)]).m_eye = ⟨0, 0, 1⟩ := by
      simp [run, step, lookAt, VecRef.read, setBehavior, Camera.new, D3DXVec3Normalize,
        D3DXVec3Length, D3DXVec3LengthSq, D3DXVECTOR3.sub, D3DXVECTOR3.add, D3DXVec3Cross,
        WORLD_YAXIS]
    have hz : (run ⟨Real.sqrt, Real.sin, Real.cos, Real.tan, Real.arcsin, Real.arctan, Real.pi⟩
                [Op.setBehavior CAMERA_BEHAVIOR_FIRST_PERSON,
                  Op.lookAt .zAxis (.val ⟨0, -1, 1⟩) (.val ⟨0, 0, 1⟩)]).m_zAxis = ⟨0, -1, 0⟩ := by
      simp [run, step, lookAt, VecRef.read, setBehavior, Camera.new, D3DXVec3Normalize,
        D3DXVec3Length, D3DXVec3LengthSq, D3DXVECTOR3.sub, D3DXVECTOR3.add, D3DXVec3Cross,
        WORLD_YAXIS]
    have hx : (run ⟨Real.sqrt, Real.sin, Real.cos, Real.tan, Real.arcsin, Real.arctan, Real.pi⟩
                [Op.setBehavior CAMERA_BEHAVIOR_FIRST_PERSON,
                  Op.lookAt .zAxis (.val ⟨0, -1, 1⟩) (.val ⟨0, 0, 1⟩)]).m_xAxis = ⟨1, 0, 0⟩ := by
      simp [run, step, lookAt, VecRef.read, setBehavior, Camera.new, D3DXVec3Normalize,
        D3DXVec3Length, D3DXVec3LengthSq, D3DXVECTOR3.sub, D3DXVECTOR3.add, D3DXVec3Cross,
        WORLD_YAXIS]
    have hy : (run ⟨Real.sqrt, Real.sin, Real.cos, Real.tan, Real.arcsin, Real.arctan, Real.pi⟩
                [Op.setBehavior CAMERA_BEHAVIOR_FIRST_PERSON,
                  Op.lookAt .zAxis (.val ⟨0, -1, 1⟩) (.val ⟨0, 0, 1⟩)]).m_yAxis = ⟨0, 0, 1⟩ := by
      simp [run, step, lookAt, VecRef.read, setBehavior, Camera.new, D3DXVec3Normalize,
        D3DXVec3Length, D3DXVec3LengthSq, D3DXVECTOR3.sub, D3DXVECTOR3.add, D3DXVec3Cross,
        WORLD_YAXIS]
    have hacc : (run ⟨Real.sqrt, Real.sin, Real.cos, Real.tan, Real.arcsin, Real.arctan, Real.pi⟩
                  [Op.setBehavior CAMERA_BEHAVIOR_FIRST_PERSON,
                    Op.lookAt .zAxis (.val ⟨0, -1, 1⟩) (.val ⟨0, 0, 1⟩)]).m_accumPitchDegrees = 90 := by
      rw [show (run ⟨Real.sqrt, Real.sin, Real.cos, Real.tan, Real.arcsin, Real.arctan, Real.pi⟩
                 [Op.setBehavior CAMERA_BEHAVIOR_FIRST_PERSON,
                   Op.lookAt .zAxis (.val ⟨0, -1, 1⟩) (.val ⟨0, 0, 1⟩)]).m_accumPitchDegrees
          = D3DXToDegree ⟨Real.sqrt, Real.sin, Real.cos, Real.tan, Real.arcsin, Real.arctan, Real.pi⟩
            (-Real.arcsin (run ⟨Real.sqrt, Real.sin, Real.cos, Real.tan, Real.arcsin, Real.arctan, Real.pi⟩
                            [Op.setBehavior CAMERA_BEHAVIOR_FIRST_PERSON,
                              Op.lookAt .zAxis (.val ⟨0, -1, 1⟩) (.val ⟨0, 0, 1⟩)]).m_zAxis.y) from rfl, hz]
      have hp := Real.pi_pos
      simp [D3DXToDegree, Real.arcsin_neg_one]
      field_simp
      ring
    have h31 : (run ⟨Real.sqrt, Real.sin, Real.cos, Real.tan, Real.arcsin, Real.arctan, Real.pi⟩
                 [Op.setBehavior CAMERA_BEHAVIOR_FIRST_PERSON,
                   Op.lookAt .zAxis (.val ⟨0, -1, 1⟩) (.val ⟨0, 0, 1⟩)]).m_viewMatrix.m31
        = -D3DXVec3Dot (run ⟨Real.sqrt, Real.sin, Real.cos, Real.tan, Real.arcsin, Real.arctan, Real.pi⟩
                         [Op.setBehavior CAMERA_BEHAVIOR_FIRST_PERSON,
                           Op.lookAt .zAxis (.val ⟨0, -1, 1⟩) (.val ⟨0, 0, 1⟩)]).m_yAxis
            (run ⟨Real.sqrt, Real.sin, Real.cos, Real.tan, Real.arcsin, Real.arctan, Real.pi⟩
              [Op.setBehavior CAMERA_BEHAVIOR_FIRST_PERSON,
                Op.lookAt .zAxis (.val ⟨0, -1, 1⟩) (.val ⟨0, 0, 1⟩)]).m_zAxis := rfl
    have hro : RightOrtho (run ⟨Real.sqrt, Real.sin, Real.cos, Real.tan, Real.arcsin, Real.arctan, Real.pi⟩
                            [Op.setBehavior CAMERA_BEHAVIOR_FIRST_PERSON,
                              Op.lookAt .zAxis (.val ⟨0, -1, 1⟩) (.val ⟨0, 0, 1⟩)]) := by
      refine ⟨?_, ?_⟩
      · rw [hx, hy, hz]; simp [OrthoSq, D3DXVec3Dot]
      · rw [hx, hy, hz]; simp [D3DXVec3Cross]
    have hfix : fpAccum (run ⟨Real.sqrt, Real.sin, Real.cos, Real.tan, Real.arcsin, Real.arctan, Real.pi⟩
                          [Op.setBehavior CAMERA_BEHAVIOR_FIRST_PERSON,
                            Op.lookAt .zAxis (.val ⟨0, -1, 1⟩) (.val ⟨0, 0, 1⟩)]).m_accumPitchDegrees 5
        = (run ⟨Real.sqrt, Real.sin, Real.cos, Real.tan, Real.arcsin, Real.arctan, Real.pi⟩
            [Op.setBehavior CAMERA_BEHAVIOR_FIRST_PERSON,
              Op.lookAt .zAxis (.val ⟨0, -1, 1⟩) (.val ⟨0, 0, 1⟩)]).m_accumPitchDegrees := by
      rw [fpAccum_eq, hacc, max_eq_right (by norm_num), min_eq_left (by norm_num)]
    have hrot : rotate ⟨Real.sqrt, Real.sin, Real.cos, Real.tan, Real.arcsin, Real.arctan, Real.pi⟩
        (run ⟨Real.sqrt, Real.sin, Real.cos, Real.tan, Real.arcsin, Real.arctan, Real.pi⟩
          [Op.setBehavior CAMERA_BEHAVIOR_FIRST_PERSON,
            Op.lookAt .zAxis (.val ⟨0, -1, 1⟩) (.val ⟨0, 0, 1⟩)]) 0 5 0
        = rebuilt (run ⟨Real.sqrt, Real.sin, Real.cos, Real.tan, Real.arcsin, Real.arctan, Real.pi⟩
                    [Op.setBehavior CAMERA_BEHAVIOR_FIRST_PERSON,
                      Op.lookAt .zAxis (.val ⟨0, -1, 1⟩) (.val ⟨0, 0, 1⟩)]) := by
      rw [rotate_firstPerson _ _ 0 5 0 hb, rotateFirstPerson_blocks, fpPitch_eq, hfix, sub_self,
        toRadian_zero, fpHeading_zero, pitchBlock_zero]
      exact updateViewMatrix_true_eq _ real_libm.sound.sqrt_one _ hro
    refine ⟨hb, hacc, he, hx, hy, hz, ?_, ?_⟩
    · rw [h31, hy, hz]; simp [D3DXVec3Dot]
    · rw [hrot]
      show -D3DXVec3Dot (run ⟨Real.sqrt, Real.sin, Real.cos, Real.tan, Real.arcsin, Real.arctan, Real.pi⟩
                          [Op.setBehavior CAMERA_BEHAVIOR_FIRST_PERSON,
                            Op.lookAt .zAxis (.val ⟨0, -1, 1⟩) (.val ⟨0, 0, 1⟩)]).m_yAxis
        (run ⟨Real.sqrt, Real.sin, Real.cos, Real.tan, Real.arcsin, Real.arctan, Real.pi⟩
          [Op.setBehavior CAMERA_BEHAVIOR_FIRST_PERSON,
            Op.lookAt .zAxis (.val ⟨0, -1, 1⟩) (.val ⟨0, 0, 1⟩)]).m_eye = -1
      rw [hy, he]; simp [D3DXVec3Dot]

/-- C22 (amended): in exact real arithmetic, once clamped, further same-direction pitch
applies zero rotation: for a camera reached from the constructor by public calls in which no
`lookAt(eye, target, up)` is given, as `eye`, a reference to the camera's own `xAxis`,
`yAxis`, `zAxis` or view direction, in FIRST_PERSON behaviour with accumulated pitch 90 and an
orthonormal basis with `cross(xAxis, yAxis) = zAxis`, `rotate(0, p, r)` with `p >= 0` and any
`r` leaves the whole state (axes, view direction, accumulated pitch, view matrix) unchanged;
symmetrically at -90 for `p <= 0`. -/
theorem Camera.firstPerson_clamped_no_rotation (ops : List (Op ℝ)) (p r : ℝ)
    (hops : eachOp ⟨Real.sqrt, Real.sin, Real.cos, Real.tan, Real.arcsin, Real.arctan, Real.pi⟩
      eyeStable (Camera.new : Camera ℝ) ops)
    (hb : (run ⟨Real.sqrt, Real.sin, Real.cos, Real.tan, Real.arcsin, Real.arctan, Real.pi⟩
      ops).m_behavior = CAMERA_BEHAVIOR_FIRST_PERSON)
    (hc : Orthonormal ⟨Real.sqrt, Real.sin, Real.cos, Real.tan, Real.arcsin, Real.arctan, Real.pi⟩
      (run ⟨Real.sqrt, Real.sin, Real.cos, Real.tan, Real.arcsin, Real.arctan, Real.pi⟩
        ops).m_xAxis
      (run ⟨Real.sqrt, Real.sin, Real.cos, Real.tan, Real.arcsin, Real.arctan, Real.pi⟩
        ops).m_yAxis
      (run ⟨Real.sqrt, Real.sin, Real.cos, Real.tan, Real.arcsin, Real.arctan, Real.pi⟩
        ops).m_zAxis)
    (hr : D3DXVec3Cross
      (run ⟨Real.sqrt, Real.sin, Real.cos, Real.tan, Real.arcsin, Real.arctan, Real.pi⟩
        ops).m_xAxis
      (run ⟨Real.sqrt, Real.sin, Real.cos, Real.tan, Real.arcsin, Real.arctan, Real.pi⟩
        ops).m_yAxis
      = (run ⟨Real.sqrt, Real.sin, Real.cos, Real.tan, Real.arcsin, Real.arctan, Real.pi⟩
        ops).m_zAxis) :
    ((run ⟨Real.sqrt, Real.sin, Real.cos, Real.tan, Real.arcsin, Real.arctan, Real.pi⟩
        ops).m_accumPitchDegrees = 90 → 0 ≤ p →
      rotate ⟨Real.sqrt, Real.sin, Real.cos, Real.tan, Real.arcsin, Real.arctan, Real.pi⟩
        (run ⟨Real.sqrt, Real.sin, Real.cos, Real.tan, Real.arcsin, Real.arctan, Real.pi⟩ ops)
        0 p r
        = run ⟨Real.sqrt, Real.sin, Real.cos, Real.tan, Real.arcsin, Real.arctan, Real.pi⟩ ops) ∧
    ((run ⟨Real.sqrt, Real.sin, Real.cos, Real.tan, Real.arcsin, Real.arctan, Real.pi⟩
        ops).m_accumPitchDegrees = -90 → p ≤ 0 →
      rotate ⟨Real.sqrt, Real.sin, Real.cos, Real.tan, Real.arcsin, Real.arctan, Real.pi⟩
        (run ⟨Real.sqrt, Real.sin, Real.cos, Real.tan, Real.arcsin, Real.arctan, Real.pi⟩ ops)
        0 p r
        = run ⟨Real.sqrt, Real.sin, Real.cos, Real.tan, Real.arcsin, Real.arctan, Real.pi⟩ ops) := by
  rw [real_orthonormal_iff _ real_libm.sqrtf_eq] at hc
  have h0 := rightOrtho_of_cross _ hc hr
  have hv := viewDirIsZ_run ⟨Real.sqrt, Real.sin, Real.cos, Real.tan, Real.arcsin, Real.arctan,
    Real.pi⟩ ops
  have hm := viewCurrent_run ⟨Real.sqrt, Real.sin, Real.cos, Real.tan, Real.arcsin, Real.arctan,
    Real.pi⟩ ops hops
  constructor
  · intro hacc hp
    apply rotate_firstPerson_fixed _ real_libm.sound _ hb h0 hv hm
    rw [fpAccum_eq, hacc, max_eq_right (by linarith), min_eq_left (by linarith)]
  · intro hacc hp
    apply rotate_firstPerson_fixed _ real_libm.sound _ hb h0 hv hm
    rw [fpAccum_eq, hacc, max_eq_left (by linarith), min_eq_right (by norm_num)]

/-- A concrete instance of the amended C22: the first-person camera that looked straight up from the
origin (accumulated pitch 90) is left unchanged by a further pitch request of 5 degrees. -/
theorem Camera.firstPerson_clamped_no_rotation_witness :
    rotate ⟨Real.sqrt, Real.sin, Real.cos, Real.tan, Real.arcsin, Real.arctan, Real.pi⟩
      (run ⟨Real.sqrt, Real.sin, Real.cos, Real.tan, Real.arcsin, Real.arctan, Real.pi⟩
        [Op.setBehavior CAMERA_BEHAVIOR_FIRST_PERSON, Op.lookAt (.val ⟨0, 0, 0⟩) (.val ⟨0, -1, 0⟩) (.val ⟨0, 0, 1⟩)])
      0 5 0
      = run ⟨Real.sqrt, Real.sin, Real.cos, Real.tan, Real.arcsin, Real.arctan, Real.pi⟩
        [Op.setBehavior CAMERA_BEHAVIOR_FIRST_PERSON, Op.lookAt (.val ⟨0, 0, 0⟩) (.val ⟨0, -1, 0⟩) (.val ⟨0, 0, 1⟩)] := by
  have hx : (run ⟨Real.sqrt, Real.sin, Real.cos, Real.tan, Real.arcsin, Real.arctan, Real.pi⟩
              [Op.setBehavior CAMERA_BEHAVIOR_FIRST_PERSON,
                Op.lookAt (.val ⟨0, 0, 0⟩) (.val ⟨0, -1, 0⟩) (.val ⟨0, 0, 1⟩)]).m_xAxis = ⟨1, 0, 0⟩ := by
    simp [run, step, lookAt, VecRef.read, D3DXVec3Normalize, D3DXVec3Length, D3DXVec3LengthSq,
      D3DXVec3Cross, D3DXVECTOR3.sub]
  have hy : (run ⟨Real.sqrt, Real.sin, Real.cos, Real.tan, Real.arcsin, Real.arctan, Real.pi⟩
              [Op.setBehavior CAMERA_BEHAVIOR_FIRST_PERSON,
                Op.lookAt (.val ⟨0, 0, 0⟩) (.val ⟨0, -1, 0⟩) (.val ⟨0, 0, 1⟩)]).m_yAxis = ⟨0, 0, 1⟩ := by
    simp [run, step, lookAt, VecRef.read, D3DXVec3Normalize, D3DXVec3Length, D3DXVec3LengthSq,
      D3DXVec3Cross, D3DXVECTOR3.sub]
  have hz : (run ⟨Real.sqrt, Real.sin, Real.cos, Real.tan, Real.arcsin, Real.arctan, Real.pi⟩
              [Op.setBehavior CAMERA_BEHAVIOR_FIRST_PERSON,
                Op.lookAt (.val ⟨0, 0, 0⟩) (.val ⟨0, -1, 0⟩) (.val ⟨0, 0, 1⟩)]).m_zAxis = ⟨0, -1, 0⟩ := by
    simp [run, step, lookAt, VecRef.read, D3DXVec3Normalize, D3DXVec3Length, D3DXVec3LengthSq,
      D3DXVECTOR3.sub]
  have hacc : (run ⟨Real.sqrt, Real.sin, Real.cos, Real.tan, Real.arcsin, Real.arctan, Real.pi⟩
                [Op.setBehavior CAMERA_BEHAVIOR_FIRST_PERSON,
                  Op.lookAt (.val ⟨0, 0, 0⟩) (.val ⟨0, -1, 0⟩) (.val ⟨0, 0, 1⟩)]).m_accumPitchDegrees = 90 := by
    have hp := Real.pi_pos
    simp [run, step, lookAt, VecRef.read, D3DXVec3Normalize, D3DXVec3Length, D3DXVec3LengthSq,
      D3DXVECTOR3.sub, D3DXToDegree, Real.arcsin_neg_one]
    field_simp
    ring
  exact (Camera.firstPerson_clamped_no_rotation
    [Op.setBehavior CAMERA_BEHAVIOR_FIRST_PERSON, Op.lookAt (.val ⟨0, 0, 0⟩) (.val ⟨0, -1, 0⟩) (.val ⟨0, 0, 1⟩)] 5 0
    ⟨trivial, trivial, trivial⟩ rfl
    (by
      rw [hx, hy, hz]
      simp [Orthonormal, D3DXVec3Length, D3DXVec3LengthSq, D3DXVec3Dot])
    (by
      rw [hx, hy, hz]
      simp [D3DXVec3Cross])).1 hacc (by norm_num)

/-- C23: in FLIGHT behaviour rotations compose sequentially about the current local axes: on
an orthonormal basis with `cross(xAxis, yAxis) = zAxis`, for all angles the state after
`rotate(h, p, r)` equals the state after `rotate(h, 0, 0)`, then `rotate(0, p, 0)`, then
`rotate(0, 0, r)` (exact real arithmetic), and the accumulated pitch is unchanged. -/
theorem Camera.rotateFlight_sequential (c : Camera ℝ) (h p r : ℝ)
    (hb : c.m_behavior = CAMERA_BEHAVIOR_FLIGHT)
    (hc : Orthonormal ⟨Real.sqrt, Real.sin, Real.cos, Real.tan, Real.arcsin, Real.arctan, Real.pi⟩
      c.m_xAxis c.m_yAxis c.m_zAxis)
    (hr : D3DXVec3Cross c.m_xAxis c.m_yAxis = c.m_zAxis) :
    rotate ⟨Real.sqrt, Real.sin, Real.cos, Real.tan, Real.arcsin, Real.arctan, Real.pi⟩ c h p r
      = rotate ⟨Real.sqrt, Real.sin, Real.cos, Real.tan, Real.arcsin, Real.arctan, Real.pi⟩
          (rotate ⟨Real.sqrt, Real.sin, Real.cos, Real.tan, Real.arcsin, Real.arctan, Real.pi⟩
            (rotate ⟨Real.sqrt, Real.sin, Real.cos, Real.tan, Real.arcsin, Real.arctan, Real.pi⟩
              c h 0 0) 0 p 0) 0 0 r ∧
    (rotate ⟨Real.sqrt, Real.sin, Real.cos, Real.tan, Real.arcsin, Real.arctan, Real.pi⟩
      c h p r).m_accumPitchDegrees = c.m_accumPitchDegrees := by
  rw [real_orthonormal_iff _ real_libm.sqrtf_eq] at hc
  have hs := real_libm.sound
  have h0 : RightOrtho c := rightOrtho_of_cross c hc hr
  have e := rotate_flight_rebuilt _ hs c hb h0 h p r
  -- first call
  have e1 := rotate_flight_rebuilt _ hs c hb h0 h 0 0
  rw [toRadian_zero, toRadian_neg_zero, pitchBlock_zero, flightRoll_zero] at e1
  have h1 : RightOrtho (rebuilt (flightHeading ⟨Real.sqrt, Real.sin, Real.cos, Real.tan,
      Real.arcsin, Real.arctan, Real.pi⟩ c (D3DXToRadian ⟨Real.sqrt, Real.sin, Real.cos,
      Real.tan, Real.arcsin, Real.arctan, Real.pi⟩ h))) :=
    rightOrtho_flightHeading _ hs _ _ h0
  have hb1 : (rebuilt (flightHeading ⟨Real.sqrt, Real.sin, Real.cos, Real.tan,
      Real.arcsin, Real.arctan, Real.pi⟩ c (D3DXToRadian ⟨Real.sqrt, Real.sin, Real.cos,
      Real.tan, Real.arcsin, Real.arctan, Real.pi⟩ h))).m_behavior = CAMERA_BEHAVIOR_FLIGHT := by
    rw [rebuilt_behavior, flightHeading_behavior]; exact hb
  -- second call
  have e2 := rotate_flight_rebuilt _ hs _ hb1 h1 0 p 0
  rw [toRadian_zero, toRadian_neg_zero, flightHeading_zero, flightRoll_zero,
    rebuilt_pitchBlock_rebuilt] at e2
  have h2 : RightOrtho (rebuilt (pitchBlock ⟨Real.sqrt, Real.sin, Real.cos, Real.tan,
      Real.arcsin, Real.arctan, Real.pi⟩ (flightHeading ⟨Real.sqrt, Real.sin, Real.cos, Real.tan,
      Real.arcsin, Real.arctan, Real.pi⟩ c (D3DXToRadian ⟨Real.sqrt, Real.sin, Real.cos,
      Real.tan, Real.arcsin, Real.arctan, Real.pi⟩ h)) (D3DXToRadian ⟨Real.sqrt, Real.sin,
      Real.cos, Real.tan, Real.arcsin, Real.arctan, Real.pi⟩ p))) :=
    rightOrtho_pitchBlock _ hs _ _ (rightOrtho_flightHeading _ hs _ _ h0)
  have hb2 : (rebuilt (pitchBlock ⟨Real.sqrt, Real.sin, Real.cos, Real.tan,
      Real.arcsin, Real.arctan, Real.pi⟩ (flightHeading ⟨Real.sqrt, Real.sin, Real.cos, Real.tan,
      Real.arcsin, Real.arctan, Real.pi⟩ c (D3DXToRadian ⟨Real.sqrt, Real.sin, Real.cos,
      Real.tan, Real.arcsin, Real.arctan, Real.pi⟩ h)) (D3DXToRadian ⟨Real.sqrt, Real.sin,
      Real.cos, Real.tan, Real.arcsin, Real.arctan, Real.pi⟩ p))).m_behavior
      = CAMERA_BEHAVIOR_FLIGHT := by
    rw [rebuilt_behavior, pitchBlock_behavior, flightHeading_behavior]; exact hb
  -- third call
  have e3 := rotate_flight_rebuilt _ hs _ hb2 h2 0 0 r
  rw [toRadian_zero, flightHeading_zero, pitchBlock_zero, rebuilt_flightRoll_rebuilt] at e3
  constructor
  · rw [e1, e2, e3, e]
  · rw [e]; exact flight_blocks_accum _ c _ _ _

/-- A concrete instance of C23: the freshly constructed camera turned by (30, 20, 10). -/
theorem Camera.rotateFlight_sequential_witness :
    rotate ⟨Real.sqrt, Real.sin, Real.cos, Real.tan, Real.arcsin, Real.arctan, Real.pi⟩
        (Camera.new : Camera ℝ) 30 20 10
      = rotate ⟨Real.sqrt, Real.sin, Real.cos, Real.tan, Real.arcsin, Real.arctan, Real.pi⟩
          (rotate ⟨Real.sqrt, Real.sin, Real.cos, Real.tan, Real.arcsin, Real.arctan, Real.pi⟩
            (rotate ⟨Real.sqrt, Real.sin, Real.cos, Real.tan, Real.arcsin, Real.arctan, Real.pi⟩
              (Camera.new : Camera ℝ) 30 0 0) 0 20 0) 0 0 10 :=
  (Camera.rotateFlight_sequential (Camera.new : Camera ℝ) 30 20 10 rfl
    (by simp [Orthonormal, Camera.new, D3DXVec3Length, D3DXVec3LengthSq, D3DXVec3Dot])
    (by simp [D3DXVec3Cross, Camera.new])).1

/-- C24 (counterexample): the freshly constructed camera stores the identity as projection
matrix, whose entries (2,3) and (3,3) are 0 and 1, while `perspective` on the stored
parameters (90, 0, 0.1, 1000) builds a matrix with entries (2,3) = 1 and (3,3) = 0. -/
theorem Camera.fresh_projection_not_derived :
    (Camera.new : Camera ℝ).m_projMatrix.m23 = 0 ∧
    (Camera.new : Camera ℝ).m_projMatrix.m33 = 1 ∧
    (perspective ⟨Real.sqrt, Real.sin, Real.cos, Real.tan, Real.arcsin, Real.arctan, Real.pi⟩
      (Camera.new : Camera ℝ) (Camera.new : Camera ℝ).m_fovx (Camera.new : Camera ℝ).m_aspectRatio
      (Camera.new : Camera ℝ).m_znear (Camera.new : Camera ℝ).m_zfar).m_projMatrix.m23 = 1 ∧
    (perspective ⟨Real.sqrt, Real.sin, Real.cos, Real.tan, Real.arcsin, Real.arctan, Real.pi⟩
      (Camera.new : Camera ℝ) (Camera.new : Camera ℝ).m_fovx (Camera.new : Camera ℝ).m_aspectRatio
      (Camera.new : Camera ℝ).m_znear (Camera.new : Camera ℝ).m_zfar).m_projMatrix.m33 = 0 ∧
    (run ⟨Real.sqrt, Real.sin, Real.cos, Real.tan, Real.arcsin, Real.arctan, Real.pi⟩
      ([] : List (Op ℝ))).m_projMatrix ≠
      (perspective ⟨Real.sqrt, Real.sin, Real.cos, Real.tan, Real.arcsin, Real.arctan, Real.pi⟩
        (run ⟨Real.sqrt, Real.sin, Real.cos, Real.tan, Real.arcsin, Real.arctan, Real.pi⟩
          ([] : List (Op ℝ)))
        (run ⟨Real.sqrt, Real.sin, Real.cos, Real.tan, Real.arcsin, Real.arctan, Real.pi⟩
          ([] : List (Op ℝ))).m_fovx
        (run ⟨Real.sqrt, Real.sin, Real.cos, Real.tan, Real.arcsin, Real.arctan, Real.pi⟩
          ([] : List (Op ℝ))).m_aspectRatio
        (run ⟨Real.sqrt, Real.sin, Real.cos, Real.tan, Real.arcsin, Real.arctan, Real.pi⟩
          ([] : List (Op ℝ))).m_znear
        (run ⟨Real.sqrt, Real.sin, Real.cos, Real.tan, Real.arcsin, Real.arctan, Real.pi⟩
          ([] : List (Op ℝ))).m_zfar).m_projMatrix := by
  refine ⟨rfl, rfl, rfl, rfl, ?_⟩
  intro h
  have h33 := congrArg D3DXMATRIX.m33 h
  have e1 : (run ⟨Real.sqrt, Real.sin, Real.cos, Real.tan, Real.arcsin, Real.arctan, Real.pi⟩
      ([] : List (Op ℝ))).m_projMatrix.m33 = 1 := rfl
  rw [e1] at h33
  have e2 : (1 : ℝ) = 0 := h33
  exact one_ne_zero e2

/-- C24 (amended): in every state reached from the constructor by a sequence of public
operations that contains a `perspective` call, the projection matrix equals the matrix that
`perspective` builds from the stored `fovX`, `aspectRatio`, `zNear` and `zFar`. -/
theorem Camera.projection_derived_after_perspective {α : Type} [LinearOrderedField α]
    (lm : Libm α) (before after : List (Op α)) (fovx aspect znear zfar : α) :
    (run lm (before ++ Op.perspective fovx aspect znear zfar :: after)).m_projMatrix
      = (perspective lm (run lm (before ++ Op.perspective fovx aspect znear zfar :: after))
          (run lm (before ++ Op.perspective fovx aspect znear zfar :: after)).m_fovx
          (run lm (before ++ Op.perspective fovx aspect znear zfar :: after)).m_aspectRatio
          (run lm (before ++ Op.perspective fovx aspect znear zfar :: after)).m_znear
          (run lm (before ++ Op.perspective fovx aspect znear zfar :: after)).m_zfar).m_projMatrix
    := by
  have h : ProjCurrent lm (run lm (before ++ Op.perspective fovx aspect znear zfar :: after)) := by
    unfold run
    rw [List.foldl_append, List.foldl_cons]
    exact projCurrent_foldl lm after _ (projCurrent_perspective lm _ _ _ _ _)
  exact h

/-- C25: in every state reachable from the constructor by public operations the view
direction equals `zAxis` (translation-only updates do not reassign it and do not change
`zAxis` either). -/
theorem Camera.viewDir_eq_zAxis {α : Type} [LinearOrderedField α] (lm : Libm α)
    (ops : List (Op α)) : (run lm ops).m_viewDir = (run lm ops).m_zAxis :=
  viewDirIsZ_foldl lm ops Camera.new viewDirIsZ_new

/-- C26 (counterexample): two calls in binary32, with any math library. First the texture
coordinates (0,0), (1,0), (1, `1e-6f`): the normalised texture edges are (1,0) and
(1, `1e-6f`) and `det` is `1e-6f`, the number 8796093/8796093022208 < 1e-6; the claim takes
the fallback, the program tests `fabsf(det) < 1e-6f`, divides by `det` and returns the
tangent (0, 1, 0). Second three coincident texture coordinates (`det = 0`) and the normal
(0, infinity, -1): `normal.z < 0`, the dot product of the handedness test is not a number,
the comparison fails and `tangent.w` is +1. -/
theorem CalcTangentVector_degenerate_fails :
    ((8796093 : ℚ) / 8796093022208 < 1 / 1000000 ∧
      ∀ sinf cosf tanf asinf atanf : F32 → F32,
        texDet
          (tangentTexEdge (F32.libm sinf cosf tanf asinf atanf) ⟨0, 0⟩ ⟨1, 0⟩)
          (tangentTexEdge (F32.libm sinf cosf tanf asinf atanf) ⟨0, 0⟩
            ⟨1, 8796093 / 8796093022208⟩) = F32.fin 8796093 (-43) ∧
        (8796093 / 8796093022208 : F32) = F32.fin 8796093 (-43) ∧
        CalcTangentVector (F32.libm sinf cosf tanf asinf atanf)
          ⟨0, 0, 0⟩ ⟨0, 1, 0⟩ ⟨0, 0, 1⟩ ⟨0, 0⟩ ⟨1, 0⟩ ⟨1, 8796093 / 8796093022208⟩
          ⟨0, 0, -1⟩ ⟨7, 7, 7, 7⟩ = ⟨0, 1, 0, 1⟩) ∧
    (∀ sinf cosf tanf asinf atanf : F32 → F32,
      texDet
        (tangentTexEdge (F32.libm sinf cosf tanf asinf atanf) ⟨0, 0⟩ ⟨0, 0⟩)
        (tangentTexEdge (F32.libm sinf cosf tanf asinf atanf) ⟨0, 0⟩ ⟨0, 0⟩) = 0 ∧
      (-1 : F32) < 0 ∧
      CalcTangentVector (F32.libm sinf cosf tanf asinf atanf)
        ⟨0, 0, 0⟩ ⟨0, 1, 0⟩ ⟨0, 0, 1⟩ ⟨0, 0⟩ ⟨0, 0⟩ ⟨0, 0⟩
        ⟨0, F32.inf false, -1⟩ ⟨7, 7, 7, 7⟩ = ⟨1, 0, 0, 1⟩) := by
  refine ⟨⟨by norm_num, fun sinf cosf tanf asinf atanf => ⟨rfl, rfl, rfl⟩⟩,
    fun sinf cosf tanf asinf atanf => ⟨rfl, by decide!, rfl⟩⟩

/-- C26 (amended): in exact arithmetic, in the degenerate case, when the determinant of the
normalised texture edges has `|det| < 1e-6f`, the binary32 number 8796093/8796093022208
(0 included), `CalcTangentVector` returns `tangent.xyz = (1, 0, 0)`, computed against the
bitangent `(0, 1, 0)`, with `tangent.w = -1` if `normal.z < 0` and `+1` otherwise; the value
does not involve `det`. -/
theorem CalcTangentVector_degenerate {α : Type} [LinearOrderedField α] (lm : Libm α)
    (pos1 pos2 pos3 : D3DXVECTOR3 α) (texCoord1 texCoord2 texCoord3 : D3DXVECTOR2 α)
    (normal : D3DXVECTOR3 α) (tangent : D3DXVECTOR4 α)
    (hdet : |(D3DXVec2Normalize lm (texCoord2.sub texCoord1)).x
          * (D3DXVec2Normalize lm (texCoord3.sub texCoord1)).y
        - (D3DXVec2Normalize lm (texCoord2.sub texCoord1)).y
          * (D3DXVec2Normalize lm (texCoord3.sub texCoord1)).x| < 8796093 / 8796093022208) :
    CalcTangentVector lm pos1 pos2 pos3 texCoord1 texCoord2 texCoord3 normal tangent
      = ⟨1, 0, 0, if normal.z < 0 then -1 else 1⟩ ∧
    routineBitangent lm pos1 pos2 pos3 texCoord1 texCoord2 texCoord3 = ⟨0, 1, 0⟩ :=
  calcTangentVector_degenerate lm pos1 pos2 pos3 texCoord1 texCoord2 texCoord3 normal tangent
    hdet

/-- A concrete instance of the amended C26: three coincident texture coordinates and a normal pointing
down the negative z axis give the tangent (1, 0, 0, -1). -/
theorem CalcTangentVector_degenerate_witness :
    CalcTangentVector ⟨Real.sqrt, Real.sin, Real.cos, Real.tan, Real.arcsin, Real.arctan, Real.pi⟩
      ⟨0, 0, 0⟩ ⟨1, 0, 0⟩ ⟨0, 1, 0⟩ ⟨0, 0⟩ ⟨0, 0⟩ ⟨0, 0⟩ ⟨0, 0, -1⟩ ⟨7, 7, 7, 7⟩
      = ⟨1, 0, 0, -1⟩ := by
  have h := (CalcTangentVector_degenerate
    ⟨Real.sqrt, Real.sin, Real.cos, Real.tan, Real.arcsin, Real.arctan, Real.pi⟩
    ⟨0, 0, 0⟩ ⟨1, 0, 0⟩ ⟨0, 1, 0⟩ ⟨0, 0⟩ ⟨0, 0⟩ ⟨0, 0⟩ ⟨0, 0, -1⟩ ⟨7, 7, 7, 7⟩
    (by simp [D3DXVec2Normalize, D3DXVECTOR2.sub])).1
  rw [h]
  simp

/-- C27: for every input the `tangent.w` returned by `CalcTangentVector` is exactly -1 or +1,
and the bitangent reconstructed as `cross(normal, tangent.xyz) * tangent.w` never points
against the bitangent `B` solved (or defaulted) inside the routine:
`dot(cross(normal, tangent.xyz) * tangent.w, B) >= 0`. -/
theorem CalcTangentVector_handedness {α : Type} [LinearOrderedField α] (lm : Libm α)
    (pos1 pos2 pos3 : D3DXVECTOR3 α) (texCoord1 texCoord2 texCoord3 : D3DXVECTOR2 α)
    (normal : D3DXVECTOR3 α) (tangent : D3DXVECTOR4 α) :
    ((CalcTangentVector lm pos1 pos2 pos3 texCoord1 texCoord2 texCoord3 normal tangent).w = -1 ∨
      (CalcTangentVector lm pos1 pos2 pos3 texCoord1 texCoord2 texCoord3 normal tangent).w = 1) ∧
    0 ≤ D3DXVec3Dot
      ((D3DXVec3Cross normal
          (xyz (CalcTangentVector lm pos1 pos2 pos3 texCoord1 texCoord2 texCoord3 normal
            tangent))).scale
        (CalcTangentVector lm pos1 pos2 pos3 texCoord1 texCoord2 texCoord3 normal tangent).w)
      (routineBitangent lm pos1 pos2 pos3 texCoord1 texCoord2 texCoord3) := by
  have hw := calcTangentVector_w lm pos1 pos2 pos3 texCoord1 texCoord2 texCoord3 normal tangent
  have hscale : ∀ (v B : D3DXVECTOR3 α) (k : α),
      D3DXVec3Dot (v.scale k) B = k * D3DXVec3Dot v B := by
    intro v B k
    simp only [D3DXVec3Dot, D3DXVECTOR3.scale]; ring
  rw [hscale]
  by_cases hneg : D3DXVec3Dot
      (D3DXVec3Cross normal (xyz (CalcTangentVector lm pos1 pos2 pos3 texCoord1 texCoord2
        texCoord3 normal tangent)))
      (routineBitangent lm pos1 pos2 pos3 texCoord1 texCoord2 texCoord3) < 0
  · rw [if_pos hneg] at hw
    rw [hw]
    exact ⟨Or.inl rfl, by nlinarith⟩
  · rw [if_neg hneg] at hw
    rw [hw]
    push_neg at hneg
    exact ⟨Or.inr rfl, by linarith⟩

